import Mathlib

/-!
Nimble renderer core: views, culling and the named resource registry.

A shallow embedding of `src/renderer.cpp` and `src/global_graphics_resources.cpp`.

* Scalars are a type parameter `S` (the C++ code uses `float`; every operation
  embedded here only moves values around).
* The frustum type is a type parameter `F`; `frustum_from_matrix` and `intersects`
  live in `geometry.h`, which is not among the sources, and are passed as arguments.
* C++ pointers are `Ptr = Option Nat`: `none` is `nullptr`, `some a` is the object
  with identity `a`.
* The fixed arrays `m_active_views[MAX_VIEWS]` and `m_active_frustums[MAX_VIEWS]`
  are functions from the slot index.
* `uint32_t` counters are `Nat` with an explicit `% 2 ^ 32` where they are incremented.
-/

namespace Nimble

/-! ## Definitions -/

/-- Pointer values: `none` is `nullptr`, `some a` the object with identity `a`. -/
abbrev Ptr := Option Nat

/-- The type `glm::vec3`. -/
structure Vec3 (S : Type) where
  x : S
  y : S
  z : S
deriving DecidableEq, Repr

/-- The type `glm::vec4`. -/
structure Vec4 (S : Type) where
  x : S
  y : S
  z : S
  w : S
deriving DecidableEq, Repr

/-- The type `glm::mat3`, stored by columns. -/
structure Mat3 (S : Type) where
  c0 : Vec3 S
  c1 : Vec3 S
  c2 : Vec3 S
deriving DecidableEq, Repr

/-- The type `glm::mat4`, stored by columns. -/
structure Mat4 (S : Type) where
  c0 : Vec4 S
  c1 : Vec4 S
  c2 : Vec4 S
  c3 : Vec4 S
deriving DecidableEq, Repr

/-- The conversion `glm::mat3(m)` of a `glm::mat4`: the upper-left 3×3 block. -/
def Mat3.ofMat4 {S : Type} (m : Mat4 S) : Mat3 S :=
  { c0 := { x := m.c0.x, y := m.c0.y, z := m.c0.z },
    c1 := { x := m.c1.x, y := m.c1.y, z := m.c1.z },
    c2 := { x := m.c2.x, y := m.c2.y, z := m.c2.z } }

/-- Modelled from the spec: `MAX_VIEWS` is declared in `constants.h`, which is not among
the sources. The spec fixes the maximum number of simultaneously active views at 64, and
so does the message logged by `Renderer::queue_view`. -/
def MAX_VIEWS : Nat := 64

/-- A render pass descriptor (`View`), with the fields that `renderer.cpp` reads and writes. -/
structure View (S : Type) where
  m_enabled : Bool
  m_culling : Bool
  m_direction : Vec3 S
  m_position : Vec3 S
  m_view_mat : Mat4 S
  m_projection_mat : Mat4 S
  m_vp_mat : Mat4 S
  m_prev_vp_mat : Mat4 S
  m_inv_view_mat : Mat4 S
  m_inv_projection_mat : Mat4 S
  m_inv_vp_mat : Mat4 S
  m_jitter : Vec4 S
  m_dest_render_target_view : Ptr
  m_graph : Ptr
  m_scene : Ptr
  m_id : Nat
deriving DecidableEq, Repr

/-- The transform of an entity: `entity.transform.position`, `.model`, `.prev_model`. -/
structure Transform (S : Type) where
  position : Vec3 S
  model : Mat4 S
  prev_model : Mat4 S
deriving DecidableEq, Repr

/-- The oriented bounding box of an entity. `Renderer::cull_scene` writes `position` and
`orientation`; `min` and `max` are the box extents, which it leaves alone. -/
structure OBB (S : Type) where
  min : Vec3 S
  max : Vec3 S
  orientation : Mat3 S
  position : Vec3 S
deriving DecidableEq, Repr

/-- A scene entity. `visibility` is the per-view visibility bitset. -/
structure Entity (S : Type) where
  transform : Transform S
  obb : OBB S
  visibility : Nat
deriving DecidableEq, Repr

/-- Modelled from the spec: `Entity::set_visible` is declared in `entity.h`, which is not
among the sources. The spec describes the visibility state as a fixed-width per-entity
bitmask indexed by view slot (0..63); setting slot `j` turns bit `j` of the 64-bit mask on. -/
def Entity.set_visible {S : Type} (e : Entity S) (j : Nat) : Entity S :=
  { e with visibility := (e.visibility ||| 2 ^ j) % 2 ^ 64 }

/-- Modelled from the spec: `Entity::set_invisible` is declared in `entity.h`, which is not
among the sources. Clearing slot `j` turns bit `j` of the 64-bit mask off. -/
def Entity.set_invisible {S : Type} (e : Entity S) (j : Nat) : Entity S :=
  { e with visibility := (e.visibility &&& ((2 ^ 64 - 1) ^^^ (2 ^ j % 2 ^ 64))) % 2 ^ 64 }

/-- Modelled from the spec: the visibility bit of view slot `j`, the pass/fail result that
the render-graph layer reads back. -/
def Entity.is_visible {S : Type} (e : Entity S) (j : Nat) : Bool :=
  e.visibility.testBit j

/-- The type `glm::vec2`. -/
structure Vec2 (S : Type) where
  x : S
  y : S
deriving DecidableEq, Repr

/-- The constructor `glm::vec4(v, w)` from a `glm::vec3` and a scalar. -/
def Vec4.ofVec3 {S : Type} (v : Vec3 S) (w : S) : Vec4 S :=
  { x := v.x, y := v.y, z := v.z, w := w }

/-- The constructor `glm::vec4(a, b)` from two `glm::vec2`. -/
def Vec4.ofVec2 {S : Type} (a b : Vec2 S) : Vec4 S :=
  { x := a.x, y := a.y, z := b.x, w := b.y }

/-- The constructor `glm::vec4(s)`: all components equal. -/
def Vec4.splat {S : Type} (s : S) : Vec4 S :=
  { x := s, y := s, z := s, w := s }

/-- The constructor `glm::mat4(s)`: `s` on the diagonal, zero elsewhere. -/
def Mat4.diag {S : Type} [Zero S] (s : S) : Mat4 S :=
  { c0 := { x := s, y := 0, z := 0, w := 0 }
    c1 := { x := 0, y := s, z := 0, w := 0 }
    c2 := { x := 0, y := 0, z := s, w := 0 }
    c3 := { x := 0, y := 0, z := 0, w := s } }

/-- The fields of the scene camera that `Renderer::queue_default_views` reads. -/
structure Camera (S : Type) where
  m_forward : Vec3 S
  m_position : Vec3 S
  m_view : Mat4 S
  m_projection : Mat4 S
  m_view_projection : Mat4 S
  m_prev_view_projection : Mat4 S
  m_prev_jitter : Vec2 S
  m_current_jitter : Vec2 S
deriving DecidableEq, Repr

/-- A directional light of the scene, with the fields that `renderer.cpp` reads. -/
structure DirectionalLight (S : Type) where
  transform : Transform S
  color : Vec3 S
  intensity : S
  casts_shadow : Bool
deriving DecidableEq, Repr

/-- A spot light of the scene, with the fields that `renderer.cpp` reads. -/
structure SpotLight (S : Type) where
  transform : Transform S
  color : Vec3 S
  intensity : S
  range : S
  cone_angle : S
  casts_shadow : Bool
deriving DecidableEq, Repr

/-- A point light of the scene, with the fields that `renderer.cpp` reads. -/
structure PointLight (S : Type) where
  transform : Transform S
  color : Vec3 S
  intensity : S
  range : S
  casts_shadow : Bool
deriving DecidableEq, Repr

/-- The part of `Scene` that the renderer reads: `entities()` with `entity_count()` being
the length of the list, the three light arrays with their counts likewise, and the
camera. `address` is the identity of the scene object (the value of `m_scene.get()`). -/
structure Scene (S : Type) where
  entities : List (Entity S)
  camera : Camera S
  directional_lights : List (DirectionalLight S)
  spot_lights : List (SpotLight S)
  point_lights : List (PointLight S)
  address : Nat
deriving DecidableEq, Repr

/-- The record `PerEntityUniforms`, with the members that `Renderer::update_uniforms`
writes. -/
structure PerEntityUniforms (S : Type) where
  modal_mat : Mat4 S
  last_model_mat : Mat4 S
  world_pos : Vec4 S
deriving DecidableEq, Repr

/-- The record `PerViewUniforms`, with the members that `Renderer::update_uniforms`
writes. -/
structure PerViewUniforms (S : Type) where
  view_mat : Mat4 S
  proj_mat : Mat4 S
  view_proj : Mat4 S
  last_view_proj : Mat4 S
  inv_proj : Mat4 S
  inv_view : Mat4 S
  inv_view_proj : Mat4 S
  view_pos : Vec4 S
deriving DecidableEq, Repr

/-- An element of `PerSceneUniforms::directional_lights`. -/
structure DirectionalLightData (S : Type) where
  direction : Vec4 S
  color_intensity : Vec4 S
  casts_shadow : Int
deriving DecidableEq, Repr

/-- An element of `PerSceneUniforms::spot_lights`. -/
structure SpotLightData (S : Type) where
  direction_range : Vec4 S
  color_intensity : Vec4 S
  position_cone_angle : Vec4 S
  casts_shadow : Int
deriving DecidableEq, Repr

/-- An element of `PerSceneUniforms::point_lights`. -/
structure PointLightData (S : Type) where
  position_range : Vec4 S
  color_intensity : Vec4 S
  casts_shadow : Int
deriving DecidableEq, Repr

/-- The record `PerSceneUniforms`: the three light arrays (functions from the index) and
the three counts. -/
structure PerSceneUniforms (S : Type) where
  directional_lights : Nat → DirectionalLightData S
  spot_lights : Nat → SpotLightData S
  point_lights : Nat → PointLightData S
  directional_light_count : Nat
  spot_light_count : Nat
  point_light_count : Nat

/-- The renderer `Settings` that `renderer.cpp` reads. -/
structure Settings where
  shadow_map_quality : Nat
  cascade_count : Nat
deriving DecidableEq, Repr

/-- A render-target view: a face, a layer and a mip level of a texture. The members are
in the order of the aggregate initialisers of `Renderer::initialize` (`{ j, i, 0, map }`
selects face `j` of layer `i`); the declaration is not among the sources. -/
structure RenderTargetView where
  face : Nat
  layer : Nat
  mip_level : Nat
  texture : Ptr
deriving DecidableEq, Repr

/-- The state of a `Renderer`: the active views with their frustums, the scene, the
settings, the two render graphs, the staging copies of the uniform records, the three
shadow maps and the three lists of render-target views. A fresh renderer has no shadow
map and empty lists. `render_targets` is a ghost component: the render targets requested
so far from `GlobalGraphicsResources::request_general_render_target` (width, height,
array size), the target at position `a` having identity `a`. -/
structure Renderer (S F : Type) where
  m_num_active_views : Nat
  m_active_views : Nat → View S
  m_active_frustums : Nat → F
  m_scene : Option (Scene S)
  m_settings : Settings
  m_scene_render_graph : Ptr
  m_shadow_map_render_graph : Ptr
  m_per_entity_uniforms : Nat → PerEntityUniforms S
  m_per_view_uniforms : Nat → PerViewUniforms S
  m_per_scene_uniforms : PerSceneUniforms S
  m_directional_light_shadow_maps : Ptr := none
  m_spot_light_shadow_maps : Ptr := none
  m_point_light_shadow_maps : Ptr := none
  m_directionl_light_rt_views : List RenderTargetView := []
  m_spot_light_rt_views : List RenderTargetView := []
  m_point_light_rt_views : List RenderTargetView := []
  render_targets : List (Nat × Nat × Nat) := []

/-- The method `Renderer::queue_view` (renderer.cpp:139-153). -/
def queue_view {S F : Type} (frustum_from_matrix : Mat4 S → F) (view : View S)
    (r : Renderer S F) : Renderer S F :=
  if r.m_num_active_views = MAX_VIEWS then
    r
  else
    let idx := r.m_num_active_views
    let frustum := frustum_from_matrix view.m_vp_mat
    { r with
      m_num_active_views := (r.m_num_active_views + 1) % 2 ^ 32
      m_active_views := Function.update r.m_active_views idx view
      m_active_frustums := Function.update r.m_active_frustums idx frustum }

/-- A run of `queue_view` calls, one per element of `views`, in order, with no
`clear_all_views` in between. -/
def queue_views {S F : Type} (frustum_from_matrix : Mat4 S → F) (views : List (View S))
    (r : Renderer S F) : Renderer S F :=
  views.foldl (fun acc v => queue_view frustum_from_matrix v acc) r

/-- The bounding box of an entity as `Renderer::cull_scene` refreshes it
(renderer.cpp:336-337): centre at the current world position, orientation the upper 3×3
block of the model matrix, extents as they were. -/
def Entity.refreshed_obb {S : Type} (entity : Entity S) : OBB S :=
  { entity.obb with
    position := entity.transform.position
    orientation := Mat3.ofMat4 entity.transform.model }

/-- The body of the view loop of `Renderer::cull_scene` (renderer.cpp:341-366) for view
slot `j`. `ENABLE_SUBMESH_CULLING` is taken as not defined; the block it guards writes
sub-mesh state only. -/
def cull_view_step {S F : Type} (intersects : F → OBB S → Bool) (r : Renderer S F)
    (entity : Entity S) (j : Nat) : Entity S :=
  if (r.m_active_views j).m_culling then
    if intersects (r.m_active_frustums j) entity.obb then
      entity.set_visible j
    else
      entity.set_invisible j
  else
    entity.set_visible j

/-- The view loop of `Renderer::cull_scene` (renderer.cpp:339-367) for one entity: slot
`j` runs over `0 .. m_num_active_views - 1` in increasing order. -/
def cull_entity_views {S F : Type} (intersects : F → OBB S → Bool) (r : Renderer S F)
    (entity : Entity S) : Entity S :=
  (List.range r.m_num_active_views).foldl (cull_view_step intersects r) entity

/-- The body of the entity loop of `Renderer::cull_scene` (renderer.cpp:334-367): the
bounding box is refreshed from the transform, then the views are visited. -/
def cull_entity {S F : Type} (intersects : F → OBB S → Bool) (r : Renderer S F)
    (entity : Entity S) : Entity S :=
  let refreshed : Entity S :=
    { entity with
      obb :=
        { entity.obb with
          position := entity.transform.position
          orientation := Mat3.ofMat4 entity.transform.model } }
  cull_entity_views intersects r refreshed

/-- One iteration of the entity loop of `Renderer::cull_scene`: `entities[i]` is updated
in place. -/
def cull_entity_step {S F : Type} (intersects : F → OBB S → Bool) (r : Renderer S F)
    (es : List (Entity S)) (i : Nat) : List (Entity S) :=
  match es[i]? with
  | some entity => es.set i (cull_entity intersects r entity)
  | none => es

/-- The method `Renderer::cull_scene` (renderer.cpp:324-372): entity `i` runs over
`0 .. entity_count() - 1`. -/
def cull_scene {S F : Type} (intersects : F → OBB S → Bool) (r : Renderer S F) :
    Renderer S F :=
  match r.m_scene with
  | none => r
  | some scene =>
    let entities :=
      (List.range scene.entities.length).foldl (cull_entity_step intersects r) scene.entities
    { r with m_scene := some { scene with entities := entities } }

/-! ### Uniform synchronisation and the frame -/

/-- What `renderer.cpp` uses from headers that are not among the sources:
`frustum_from_matrix` and `intersects` (geometry.h), `glm::inverse`,
`Transform::forward()`, and the value found in `m_id` of a `View` on which the member was
never assigned. -/
structure Externals (S F : Type) where
  frustum_from_matrix : Mat4 S → F
  intersects : F → OBB S → Bool
  inverse : Mat4 S → Mat4 S
  forward : Transform S → Vec3 S
  unset_view_id : Nat

/-- The `sizeof` of the records of `uniforms.h`, which is not among the sources. -/
structure UniformSizes where
  sizeof_PerFrameUniforms : Nat
  sizeof_PerSceneUniforms : Nat
  sizeof_PerEntityUniforms : Nat
  sizeof_PerViewUniforms : Nat
deriving DecidableEq, Repr

/-- A loop `for (i = 0; i < n; i++) records[i] = src(i)` over a staging array. The result
carries the array and the list of the indices written, in order. `src i` is `none` only
where the source array has no element `i`. -/
def store_records {B : Type} (n : Nat) (src : Nat → Option B) (records : Nat → B) :
    (Nat → B) × List Nat :=
  (List.range n).foldl
    (fun st i =>
      match src i with
      | some b => (Function.update st.1 i b, st.2 ++ [i])
      | none => st)
    (records, [])

/-- The per-entity record written by `Renderer::update_uniforms` (renderer.cpp:247-249). -/
def per_entity_record {S : Type} [Zero S] (entity : Entity S) : PerEntityUniforms S :=
  { modal_mat := entity.transform.model
    last_model_mat := entity.transform.prev_model
    world_pos := Vec4.ofVec3 entity.transform.position 0 }

/-- The per-view record written by `Renderer::update_uniforms` (renderer.cpp:261-268). -/
def per_view_record {S : Type} [Zero S] (view : View S) : PerViewUniforms S :=
  { view_mat := view.m_view_mat
    proj_mat := view.m_projection_mat
    view_proj := view.m_vp_mat
    last_view_proj := view.m_prev_vp_mat
    inv_proj := view.m_inv_projection_mat
    inv_view := view.m_inv_view_mat
    inv_view_proj := view.m_inv_vp_mat
    view_pos := Vec4.ofVec3 view.m_position 0 }

/-- The directional light record written by `Renderer::update_uniforms`
(renderer.cpp:284-286). -/
def directional_light_record {S : Type} (forward : Transform S → Vec3 S) [Zero S]
    (light : DirectionalLight S) : DirectionalLightData S :=
  { direction := Vec4.ofVec3 (forward light.transform) 0
    color_intensity := Vec4.ofVec3 light.color light.intensity
    casts_shadow := if light.casts_shadow then 1 else 0 }

/-- The spot light record written by `Renderer::update_uniforms` (renderer.cpp:297-300). -/
def spot_light_record {S : Type} (forward : Transform S → Vec3 S) (light : SpotLight S) :
    SpotLightData S :=
  { direction_range := Vec4.ofVec3 (forward light.transform) light.range
    color_intensity := Vec4.ofVec3 light.color light.intensity
    position_cone_angle := Vec4.ofVec3 light.transform.position light.cone_angle
    casts_shadow := if light.casts_shadow then 1 else 0 }

/-- The point light record written by `Renderer::update_uniforms` (renderer.cpp:311-313). -/
def point_light_record {S : Type} (light : PointLight S) : PointLightData S :=
  { position_range := Vec4.ofVec3 light.transform.position light.range
    color_intensity := Vec4.ofVec3 light.color light.intensity
    casts_shadow := if light.casts_shadow then 1 else 0 }

/-- What one call of `Renderer::update_uniforms` writes: for each staging array the
indices written, in order, and for each `memcpy` into a mapped buffer its size in bytes
(and, for the per-entity and per-view buffers, the records copied). -/
structure UniformUpload (S : Type) where
  per_entity_writes : List Nat
  per_entity_bytes : Nat
  per_entity_data : List (PerEntityUniforms S)
  per_view_writes : List Nat
  per_view_bytes : Nat
  per_view_data : List (PerViewUniforms S)
  directional_writes : List Nat
  spot_writes : List Nat
  point_writes : List Nat
  per_scene_bytes : Nat

/-- The upload of a call that does nothing. -/
def UniformUpload.nothing {S : Type} : UniformUpload S :=
  { per_entity_writes := []
    per_entity_bytes := 0
    per_entity_data := []
    per_view_writes := []
    per_view_bytes := 0
    per_view_data := []
    directional_writes := []
    spot_writes := []
    point_writes := []
    per_scene_bytes := 0 }

/-- The method `Renderer::update_uniforms` (renderer.cpp:236-320). -/
def update_uniforms {S F : Type} [Zero S] (forward : Transform S → Vec3 S)
    (sizes : UniformSizes) (r : Renderer S F) : Renderer S F × UniformUpload S :=
  match r.m_scene with
  | none => (r, UniformUpload.nothing)
  | some scene =>
    let entity_count := scene.entities.length
    let ent :=
      store_records entity_count (fun i => (scene.entities[i]?).map per_entity_record)
        r.m_per_entity_uniforms
    let vw :=
      store_records r.m_num_active_views (fun i => some (per_view_record (r.m_active_views i)))
        r.m_per_view_uniforms
    let directional_light_count := scene.directional_lights.length
    let dl :=
      store_records directional_light_count
        (fun i => (scene.directional_lights[i]?).map (directional_light_record forward))
        r.m_per_scene_uniforms.directional_lights
    let spot_light_count := scene.spot_lights.length
    let sl :=
      store_records spot_light_count
        (fun i => (scene.spot_lights[i]?).map (spot_light_record forward))
        r.m_per_scene_uniforms.spot_lights
    let point_light_count := scene.point_lights.length
    let pl :=
      store_records point_light_count
        (fun i => (scene.point_lights[i]?).map point_light_record)
        r.m_per_scene_uniforms.point_lights
    ({ r with
        m_per_entity_uniforms := ent.1
        m_per_view_uniforms := vw.1
        m_per_scene_uniforms :=
          { directional_lights := dl.1
            spot_lights := sl.1
            point_lights := pl.1
            directional_light_count := directional_light_count
            spot_light_count := spot_light_count
            point_light_count := point_light_count } },
      { per_entity_writes := ent.2
        per_entity_bytes := sizes.sizeof_PerEntityUniforms * entity_count
        per_entity_data := (List.range entity_count).map ent.1
        per_view_writes := vw.2
        per_view_bytes := sizes.sizeof_PerViewUniforms * r.m_num_active_views
        per_view_data := (List.range r.m_num_active_views).map vw.1
        directional_writes := dl.2
        spot_writes := sl.2
        point_writes := pl.2
        per_scene_bytes := sizes.sizeof_PerSceneUniforms })

/-- The method `Renderer::queue_default_views` (renderer.cpp:376-405). -/
def queue_default_views {S F : Type} (ext : Externals S F) (r : Renderer S F) :
    Renderer S F :=
  match r.m_scene with
  | none => r
  | some scene =>
    let camera := scene.camera
    let scene_view : View S :=
      { m_enabled := true
        m_culling := true
        m_direction := camera.m_forward
        m_position := camera.m_position
        m_view_mat := camera.m_view
        m_projection_mat := camera.m_projection
        m_vp_mat := camera.m_view_projection
        m_prev_vp_mat := camera.m_prev_view_projection
        m_inv_view_mat := ext.inverse camera.m_view
        m_inv_projection_mat := ext.inverse camera.m_projection
        m_inv_vp_mat := ext.inverse camera.m_view_projection
        m_jitter := Vec4.ofVec2 camera.m_prev_jitter camera.m_current_jitter
        m_dest_render_target_view := none
        m_graph := r.m_scene_render_graph
        m_scene := some scene.address
        m_id := ext.unset_view_id }
    queue_view ext.frustum_from_matrix scene_view r

/-- One iteration of the loop of `Renderer::render_all_views` (renderer.cpp:413-423). The
second component lists the calls `graph->execute(view)` made so far, each with the graph
and the view passed. -/
def render_view_step {S F : Type} (st : Renderer S F × List (Nat × View S)) (i : Nat) :
    Renderer S F × List (Nat × View S) :=
  let view := st.1.m_active_views i
  if view.m_enabled then
    let view2 : View S := { view with m_id := i }
    let r2 : Renderer S F :=
      { st.1 with m_active_views := Function.update st.1.m_active_views i view2 }
    match view2.m_graph with
    | some graph => (r2, st.2 ++ [(graph, view2)])
    | none => (r2, st.2)
  else
    st

/-- The method `Renderer::render_all_views` (renderer.cpp:409-425). -/
def render_all_views {S F : Type} (r : Renderer S F) : Renderer S F × List (Nat × View S) :=
  (List.range r.m_num_active_views).foldl render_view_step (r, [])

/-- The method `Renderer::clear_all_views` (renderer.cpp:219-222). -/
def clear_all_views {S F : Type} (r : Renderer S F) : Renderer S F :=
  { r with m_num_active_views := 0 }

/-- The outcome of one frame: the renderer afterwards, what `update_uniforms` uploaded
and the render-graph executions. -/
structure FrameOutput (S F : Type) where
  renderer : Renderer S F
  upload : UniformUpload S
  executed : List (Nat × View S)

/-- The method `Renderer::render` (renderer.cpp:87-98). -/
def render {S F : Type} [Zero S] (ext : Externals S F) (sizes : UniformSizes)
    (r : Renderer S F) : FrameOutput S F :=
  let r1 := queue_default_views ext r
  let u := update_uniforms ext.forward sizes r1
  let r3 := cull_scene ext.intersects u.1
  let v := render_all_views r3
  { renderer := clear_all_views v.1, upload := u.2, executed := v.2 }

/-- The method `Renderer::set_scene` (renderer.cpp:119-122). -/
def set_scene {S F : Type} (scene : Option (Scene S)) (r : Renderer S F) : Renderer S F :=
  { r with m_scene := scene }

/-- The renderer states reachable from a renderer without active views through
`queue_view`, `clear_all_views`, `set_scene` and `render`. -/
inductive Reachable {S F : Type} [Zero S] (ext : Externals S F) (sizes : UniformSizes) :
    Renderer S F → Prop where
  | start (r : Renderer S F) (h : r.m_num_active_views = 0) : Reachable ext sizes r
  | queue (r : Renderer S F) (v : View S) (h : Reachable ext sizes r) :
      Reachable ext sizes (queue_view ext.frustum_from_matrix v r)
  | clear (r : Renderer S F) (h : Reachable ext sizes r) :
      Reachable ext sizes (clear_all_views r)
  | scene (r : Renderer S F) (sc : Option (Scene S)) (h : Reachable ext sizes r) :
      Reachable ext sizes (set_scene sc r)
  | frame (r : Renderer S F) (h : Reachable ext sizes r) :
      Reachable ext sizes (render ext sizes r).renderer

/-- The render-graph execution due for view slot `i`: when the view is enabled and has a
graph attached, that graph with the view carrying `i` as its id; none otherwise. -/
def due_execution {S F : Type} (r : Renderer S F) (i : Nat) : Option (Nat × View S) :=
  if (r.m_active_views i).m_enabled then
    (r.m_active_views i).m_graph.map (fun graph => (graph, { r.m_active_views i with m_id := i }))
  else
    none

/-! ### Shadow views of the directional lights -/

/-- The view that `Renderer::push_directional_light_views` builds for one cascade of one
shadow-casting light (renderer.cpp:172-188). The pointer
`&m_directionl_light_rt_views[n]` is represented by the index `n`, computed in `uint32_t`.
`cascade_count` and `graph` are `m_settings.cascade_count` and
`m_shadow_map_render_graph`. -/
def light_view {S F : Type} [Zero S] [One S] (ext : Externals S F) (cascade_count : Nat)
    (graph : Ptr) (scene : Scene S) (light : DirectionalLight S)
    (shadow_casting_light_idx cascade_idx : Nat) : View S :=
  { m_enabled := true
    m_culling := true
    m_direction := ext.forward light.transform
    m_position := light.transform.position
    m_view_mat := Mat4.diag 1
    m_projection_mat := Mat4.diag 1
    m_vp_mat := Mat4.diag 1
    m_prev_vp_mat := Mat4.diag 1
    m_inv_view_mat := Mat4.diag 1
    m_inv_projection_mat := Mat4.diag 1
    m_inv_vp_mat := Mat4.diag 1
    m_jitter := Vec4.splat 0
    m_dest_render_target_view :=
      some ((shadow_casting_light_idx * cascade_count + cascade_idx) % 2 ^ 32)
    m_graph := graph
    m_scene := some scene.address
    m_id := ext.unset_view_id }

/-- The cascade loop of `Renderer::push_directional_light_views` (renderer.cpp:170-191)
for one shadow-casting light. -/
def push_cascade_views {S F : Type} [Zero S] [One S] (ext : Externals S F) (scene : Scene S)
    (light : DirectionalLight S) (shadow_casting_light_idx : Nat) (r : Renderer S F) :
    Renderer S F :=
  (List.range r.m_settings.cascade_count).foldl
    (fun acc cascade_idx =>
      queue_view ext.frustum_from_matrix
        (light_view ext acc.m_settings.cascade_count acc.m_shadow_map_render_graph scene light
          shadow_casting_light_idx cascade_idx)
        acc)
    r

/-- The light loop of `Renderer::push_directional_light_views` (renderer.cpp:164-199) from
the light at the head of `lights` on, with the current `shadow_casting_light_idx`. The loop
is left when, after a light, the index equals `MAX_SHADOW_CASTING_DIRECTIONAL_LIGHTS - 1`
(compared as `uint32_t`). The constant belongs to `constants.h`, which is not among the
sources, and is an argument. -/
def push_lights_loop {S F : Type} [Zero S] [One S] (MAX_SHADOW_CASTING_DIRECTIONAL_LIGHTS : Nat)
    (ext : Externals S F) (scene : Scene S) :
    List (DirectionalLight S) → Nat → Renderer S F → Renderer S F
  | [], _, r => r
  | light :: rest, shadow_casting_light_idx, r =>
    let st : Nat × Renderer S F :=
      if light.casts_shadow then
        ((shadow_casting_light_idx + 1) % 2 ^ 32,
          push_cascade_views ext scene light shadow_casting_light_idx r)
      else
        (shadow_casting_light_idx, r)
    if st.1 = (MAX_SHADOW_CASTING_DIRECTIONAL_LIGHTS + 2 ^ 32 - 1) % 2 ^ 32 then
      st.2
    else
      push_lights_loop MAX_SHADOW_CASTING_DIRECTIONAL_LIGHTS ext scene rest st.1 st.2

/-- The method `Renderer::push_directional_light_views` (renderer.cpp:157-201); its
argument `dependent_view` is not used. -/
def push_directional_light_views {S F : Type} [Zero S] [One S]
    (MAX_SHADOW_CASTING_DIRECTIONAL_LIGHTS : Nat) (ext : Externals S F)
    (_dependent_view : View S) (r : Renderer S F) : Renderer S F :=
  match r.m_scene with
  | none => r
  | some scene =>
    push_lights_loop MAX_SHADOW_CASTING_DIRECTIONAL_LIGHTS ext scene scene.directional_lights 0 r

/-- The views of the cascades of the light with shadow index `s`, in cascade order. -/
def cascade_views {S F : Type} [Zero S] [One S] (ext : Externals S F) (cascade_count : Nat)
    (graph : Ptr) (scene : Scene S) (light : DirectionalLight S) (s : Nat) : List (View S) :=
  (List.range cascade_count).map (light_view ext cascade_count graph scene light s)

/-- The views of the cascades of the shadow-casting lights `casters`, which get the
shadow indices `s`, `s + 1`, ... in order. -/
def shadow_views {S F : Type} [Zero S] [One S] (ext : Externals S F) (cascade_count : Nat)
    (graph : Ptr) (scene : Scene S) : List (DirectionalLight S) → Nat → List (View S)
  | [], _ => []
  | light :: rest, s =>
    cascade_views ext cascade_count graph scene light s ++
      shadow_views ext cascade_count graph scene rest (s + 1)

/-- The views that the light loop of `Renderer::push_directional_light_views` builds and
hands to `queue_view`, in order, from the light at the head of `lights` on: the control
flow of `push_lights_loop` without the renderer state. Each view carries the index that
was used to pick its destination render-target view. -/
def light_loop_views {S F : Type} [Zero S] [One S] (MAX_SHADOW_CASTING_DIRECTIONAL_LIGHTS : Nat)
    (ext : Externals S F) (cascade_count : Nat) (graph : Ptr) (scene : Scene S) :
    List (DirectionalLight S) → Nat → List (View S)
  | [], _ => []
  | light :: rest, shadow_casting_light_idx =>
    let built : List (View S) :=
      if light.casts_shadow then
        cascade_views ext cascade_count graph scene light shadow_casting_light_idx
      else []
    let next : Nat :=
      if light.casts_shadow then (shadow_casting_light_idx + 1) % 2 ^ 32
      else shadow_casting_light_idx
    if next = (MAX_SHADOW_CASTING_DIRECTIONAL_LIGHTS + 2 ^ 32 - 1) % 2 ^ 32 then
      built
    else
      built ++
        light_loop_views MAX_SHADOW_CASTING_DIRECTIONAL_LIGHTS ext cascade_count graph scene rest
          next

/-- The scene view that `Renderer::queue_default_views` queues (renderer.cpp:382-398). -/
def scene_view {S F : Type} (ext : Externals S F) (r : Renderer S F) (scene : Scene S) :
    View S :=
  { m_enabled := true
    m_culling := true
    m_direction := scene.camera.m_forward
    m_position := scene.camera.m_position
    m_view_mat := scene.camera.m_view
    m_projection_mat := scene.camera.m_projection
    m_vp_mat := scene.camera.m_view_projection
    m_prev_vp_mat := scene.camera.m_prev_view_projection
    m_inv_view_mat := ext.inverse scene.camera.m_view
    m_inv_projection_mat := ext.inverse scene.camera.m_projection
    m_inv_vp_mat := ext.inverse scene.camera.m_view_projection
    m_jitter := Vec4.ofVec2 scene.camera.m_prev_jitter scene.camera.m_current_jitter
    m_dest_render_target_view := none
    m_graph := r.m_scene_render_graph
    m_scene := some scene.address
    m_id := ext.unset_view_id }

/-! ### Shadow maps and render-target views -/

/-- The table `kDirectionalLightShadowMapSizes` (renderer.cpp:21-27). -/
def kDirectionalLightShadowMapSizes : List Nat := [512, 1024, 2048, 4096]

/-- The table `kSpotLightShadowMapSizes` (renderer.cpp:29-35). -/
def kSpotLightShadowMapSizes : List Nat := [512, 1024, 2048, 4096]

/-- The table `kPointShadowMapSizes` (renderer.cpp:37-43). -/
def kPointShadowMapSizes : List Nat := [256, 512, 1024, 2048]

/-- The call `GlobalGraphicsResources::request_general_render_target(w, h, ..., array_size)`,
which is not among the sources: a new render target is handed out. -/
def request_general_render_target {S F : Type} (w h array_size : Nat) (r : Renderer S F) :
    Ptr × Renderer S F :=
  (some r.render_targets.length,
    { r with render_targets := r.render_targets ++ [(w, h, array_size)] })

/-- The method `Renderer::initialize` (renderer.cpp:55-83), under a name that is not a
keyword. The three caps are constants of `constants.h`, which is not among the sources.
The shadow map size is read from a table of four entries; for a quality setting beyond
the table the size is taken as 0 here. -/
def initialize_renderer {S F : Type}
    (MAX_SHADOW_CASTING_DIRECTIONAL_LIGHTS MAX_SHADOW_CASTING_SPOT_LIGHTS
      MAX_SHADOW_CASTING_POINT_LIGHTS : Nat) (r : Renderer S F) : Renderer S F :=
  let r0 : Renderer S F :=
    { r with
      m_directional_light_shadow_maps := none
      m_spot_light_shadow_maps := none
      m_point_light_shadow_maps := none }
  let quality := r0.m_settings.shadow_map_quality
  let cascade_count := r0.m_settings.cascade_count
  let d :=
    request_general_render_target (kDirectionalLightShadowMapSizes.getD quality 0)
      (kDirectionalLightShadowMapSizes.getD quality 0)
      ((cascade_count * MAX_SHADOW_CASTING_DIRECTIONAL_LIGHTS) % 2 ^ 32) r0
  let r1 : Renderer S F := { d.2 with m_directional_light_shadow_maps := d.1 }
  let sp :=
    request_general_render_target (kSpotLightShadowMapSizes.getD quality 0)
      (kSpotLightShadowMapSizes.getD quality 0) MAX_SHADOW_CASTING_SPOT_LIGHTS r1
  let r2 : Renderer S F := { sp.2 with m_spot_light_shadow_maps := sp.1 }
  let pt :=
    request_general_render_target (kPointShadowMapSizes.getD quality 0)
      (kPointShadowMapSizes.getD quality 0) MAX_SHADOW_CASTING_POINT_LIGHTS r2
  let r3 : Renderer S F := { pt.2 with m_point_light_shadow_maps := pt.1 }
  let directional :=
    (List.range MAX_SHADOW_CASTING_DIRECTIONAL_LIGHTS).foldl
      (fun views i =>
        (List.range cascade_count).foldl
          (fun views2 j =>
            views2 ++
              [{ face := 0, layer := (i * cascade_count + j) % 2 ^ 32, mip_level := 0,
                 texture := r3.m_directional_light_shadow_maps }])
          views)
      r3.m_directionl_light_rt_views
  let spot :=
    (List.range MAX_SHADOW_CASTING_SPOT_LIGHTS).foldl
      (fun views i =>
        views ++
          [{ face := 0, layer := i, mip_level := 0, texture := r3.m_spot_light_shadow_maps }])
      r3.m_spot_light_rt_views
  let point :=
    (List.range MAX_SHADOW_CASTING_POINT_LIGHTS).foldl
      (fun views i =>
        (List.range 6).foldl
          (fun views2 j =>
            views2 ++
              [{ face := j, layer := i, mip_level := 0,
                 texture := r3.m_point_light_shadow_maps }])
          views)
      r3.m_point_light_rt_views
  { r3 with
    m_directionl_light_rt_views := directional
    m_spot_light_rt_views := spot
    m_point_light_rt_views := point }

/-- The method `Renderer::set_settings` (renderer.cpp:111-115). -/
def set_settings {S F : Type}
    (MAX_SHADOW_CASTING_DIRECTIONAL_LIGHTS MAX_SHADOW_CASTING_SPOT_LIGHTS
      MAX_SHADOW_CASTING_POINT_LIGHTS : Nat) (settings : Settings) (r : Renderer S F) :
    Renderer S F :=
  initialize_renderer MAX_SHADOW_CASTING_DIRECTIONAL_LIGHTS MAX_SHADOW_CASTING_SPOT_LIGHTS
    MAX_SHADOW_CASTING_POINT_LIGHTS { r with m_settings := settings }

/-- The render-target views that one call of `Renderer::initialize` appends to the
directional list: for light `i` and cascade `j`, in this order, layer `i * c + j`. -/
def directional_rt_views (cap cascade_count : Nat) (texture : Ptr) : List RenderTargetView :=
  (List.range cap).flatMap
    (fun i =>
      (List.range cascade_count).map
        (fun j =>
          { face := 0, layer := (i * cascade_count + j) % 2 ^ 32, mip_level := 0,
            texture := texture }))

/-- The render-target views that one call of `Renderer::initialize` appends to the spot
list: layer `i` for light `i`. -/
def spot_rt_views (cap : Nat) (texture : Ptr) : List RenderTargetView :=
  (List.range cap).map
    (fun i => { face := 0, layer := i, mip_level := 0, texture := texture })

/-- The render-target views that one call of `Renderer::initialize` appends to the point
list: for light `i` and face `j`, in this order, face `j` of layer `i`. -/
def point_rt_views (cap : Nat) (texture : Ptr) : List RenderTargetView :=
  (List.range cap).flatMap
    (fun i =>
      (List.range 6).map
        (fun j => { face := j, layer := i, mip_level := 0, texture := texture }))

/-! ### The frustum/box test of the culling engine -/

/-- The dot product of two `glm::vec3`. -/
def Vec3.dot {S : Type} [Add S] [Mul S] (a b : Vec3 S) : S :=
  a.x * b.x + a.y * b.y + a.z * b.z

/-- The sum of two `glm::vec3`. -/
def Vec3.add {S : Type} [Add S] (a b : Vec3 S) : Vec3 S :=
  { x := a.x + b.x, y := a.y + b.y, z := a.z + b.z }

/-- The product of a scalar and a `glm::vec3`. -/
def Vec3.smul {S : Type} [Mul S] (k : S) (a : Vec3 S) : Vec3 S :=
  { x := k * a.x, y := k * a.y, z := k * a.z }

/-- Modelled from the spec: a frustum plane (half-space) of `geometry.h`, which is not
among the sources: a normal `n` and an offset `d`; a point `x` is on the positive side
when `n · x + d` is positive. -/
structure Plane (S : Type) where
  n : Vec3 S
  d : S
deriving DecidableEq, Repr

/-- Modelled from the spec: the `Frustum` of `geometry.h`, which is not among the sources:
six half-spaces derived from a view-projection matrix. -/
structure Frustum (S : Type) where
  planes : Fin 6 → Plane S

/-- Modelled from the spec: the signed distance from a plane to a point (in units of the
length of the plane normal). -/
def Plane.signed_distance {S : Type} [Add S] [Mul S] (p : Plane S) (x : Vec3 S) : S :=
  Vec3.dot p.n x + p.d

/-- Modelled from the spec: the half-extents of an oriented box along its three axes. -/
def OBB.half_extents {S : Type} [LinearOrderedField S] (obb : OBB S) : Vec3 S :=
  { x := (obb.max.x - obb.min.x) / 2
    y := (obb.max.y - obb.min.y) / 2
    z := (obb.max.z - obb.min.z) / 2 }

/-- Modelled from the spec: the radius of the box projected onto a plane normal: the
half-extents projected onto the normal through the orientation axes (the columns of the
orientation matrix). -/
def OBB.projected_radius {S : Type} [LinearOrderedField S] (obb : OBB S) (n : Vec3 S) : S :=
  |obb.half_extents.x * Vec3.dot n obb.orientation.c0| +
  |obb.half_extents.y * Vec3.dot n obb.orientation.c1| +
  |obb.half_extents.z * Vec3.dot n obb.orientation.c2|

/-- Modelled from the spec: `intersects(frustum, obb)` of `geometry.h`, which is not among
the sources. For each of the six planes the projected radius of the box is compared with
the signed distance from the plane to the box centre; the box is outside when, for some
plane, the distance is below minus the radius. A box that touches a plane passes. -/
def intersects_obb {S : Type} [LinearOrderedField S] (frustum : Frustum S) (obb : OBB S) :
    Bool :=
  (List.finRange 6).all
    (fun p =>
      !decide ((frustum.planes p).signed_distance obb.position
        < -(obb.projected_radius (frustum.planes p).n)))

/-- The sign `+1` or `-1` selecting a side of the box along one axis. -/
def side_sign {S : Type} [LinearOrderedField S] (b : Bool) : S :=
  if b then 1 else -1

/-- The corner of an oriented box picked by one side per axis: the centre plus or minus
each half-extent along its orientation axis. The box is the convex hull of its eight
corners. -/
def OBB.corner {S : Type} [LinearOrderedField S] (obb : OBB S) (s0 s1 s2 : Bool) : Vec3 S :=
  Vec3.add obb.position
    (Vec3.add (Vec3.smul (side_sign s0 * obb.half_extents.x) obb.orientation.c0)
      (Vec3.add (Vec3.smul (side_sign s1 * obb.half_extents.y) obb.orientation.c1)
        (Vec3.smul (side_sign s2 * obb.half_extents.z) obb.orientation.c2)))

/-! ### The named resource registry (`GlobalGraphicsResources`) -/

/-- The objects that the registry constructs, with their constructor arguments. -/
inductive Resource where
  | texture2d (w h array_size mip_levels num_samples internal_format format type : Nat)
  | textureCube (w h array_size mip_levels internal_format format type : Nat)
  | framebuffer
  | shader (type : Nat) (file : String)
  | program (count : Nat) (shaders : List Ptr)
  | image (file : String) (internal_format format type : Nat)
  | uniformBuffer (usage size : Nat)
  | vertexBuffer (usage size : Nat)
  | vertexArray (vbo ibo : Ptr) (vertex_size attrib_count : Nat)
deriving DecidableEq, Repr

/-- A `std::unordered_map<std::string, T*>`: the entries as key/pointer pairs. The
operations below keep at most one pair per key. -/
abbrev NameMap := List (String × Ptr)

/-- The call `m.find(name)`; `none` stands for `m.end()`. -/
def NameMap.find : NameMap → String → Option Ptr
  | [], _ => none
  | (k, v) :: m, name => if k = name then some v else NameMap.find m name

/-- The call `m.erase(name)`. -/
def NameMap.erase (m : NameMap) (name : String) : NameMap :=
  m.filter (fun e => decide (e.1 ≠ name))

/-- The statement `m[name] = v`: the entry of `name` is created or overwritten. -/
def NameMap.assign (m : NameMap) (name : String) (v : Ptr) : NameMap :=
  (name, v) :: NameMap.erase m name

/-- The expression `m[name]` read as a value: `operator[]` inserts a null entry when
`name` is absent, and returns the stored pointer. -/
def NameMap.subscript (m : NameMap) (name : String) : Ptr × NameMap :=
  match NameMap.find m name with
  | some v => (v, m)
  | none => (none, (name, none) :: m)

/-- The static state of `GlobalGraphicsResources`: the four maps and the seven fixed
objects, with two ghost components: `objects` lists what `new` has constructed so far (the
object at position `a` has identity `a`), and `deleted` lists the identities passed to
`delete`, in order. -/
structure GlobalGraphicsResources where
  m_texture_map : NameMap
  m_framebuffer_map : NameMap
  m_program_cache : NameMap
  m_shader_cache : NameMap
  objects : List Resource
  deleted : List Nat
  m_quad_vao : Ptr := none
  m_quad_vbo : Ptr := none
  m_cube_vao : Ptr := none
  m_cube_vbo : Ptr := none
  m_per_frame : Ptr := none
  m_per_scene : Ptr := none
  m_per_entity : Ptr := none
deriving DecidableEq, Repr

/-- The expression `new T(args)`: a fresh object is constructed and its (non-null)
pointer returned. -/
def new_object (res : Resource) (g : GlobalGraphicsResources) :
    Ptr × GlobalGraphicsResources :=
  (some g.objects.length, { g with objects := g.objects ++ [res] })

/-- Modelled from the spec: `DW_SAFE_DELETE` is a macro of `macros.h`, which is not among
the sources. It releases the underlying resource of a pointer that is not null and does
nothing for a null pointer. -/
def DW_SAFE_DELETE (p : Ptr) (g : GlobalGraphicsResources) : GlobalGraphicsResources :=
  match p with
  | none => g
  | some a => { g with deleted := g.deleted ++ [a] }

/-- What the registry needs from the dw framework, which is not among the sources:
`dw::utility::path_for_resource`, and whether `dw::Shader::create_from_file` can load
the file of a shader of the given type (it returns `nullptr` when it cannot). -/
structure Framework where
  path_for_resource : String → String
  shader_file_ok : Nat → String → Bool

/-- The call `dw::Shader::create_from_file(type, file)`. -/
def create_from_file (fw : Framework) (type : Nat) (file : String)
    (g : GlobalGraphicsResources) : Ptr × GlobalGraphicsResources :=
  if fw.shader_file_ok type file then new_object (Resource.shader type file) g else (none, g)

/-- The function `GlobalGraphicsResources::lookup_texture`
(global_graphics_resources.cpp:85-91). -/
def lookup_texture (name : String) (g : GlobalGraphicsResources) :
    Ptr × GlobalGraphicsResources :=
  if NameMap.find g.m_texture_map name = none then
    (none, g)
  else
    let res := NameMap.subscript g.m_texture_map name
    (res.1, { g with m_texture_map := res.2 })

/-- The function `GlobalGraphicsResources::create_texture_2d`
(global_graphics_resources.cpp:95-109). -/
def create_texture_2d (name : String) (w h internal_format format type num_samples
    array_size mip_levels : Nat) (g : GlobalGraphicsResources) :
    Ptr × GlobalGraphicsResources :=
  if NameMap.find g.m_texture_map name = none then
    let res :=
      new_object
        (Resource.texture2d w h array_size mip_levels num_samples internal_format format type) g
    (res.1, { res.2 with m_texture_map := NameMap.assign res.2.m_texture_map name res.1 })
  else
    (none, g)

/-- The function `GlobalGraphicsResources::create_texture_cube`
(global_graphics_resources.cpp:113-127). -/
def create_texture_cube (name : String) (w h internal_format format type array_size
    mip_levels : Nat) (g : GlobalGraphicsResources) : Ptr × GlobalGraphicsResources :=
  if NameMap.find g.m_texture_map name = none then
    let res :=
      new_object (Resource.textureCube w h array_size mip_levels internal_format format type) g
    (res.1, { res.2 with m_texture_map := NameMap.assign res.2.m_texture_map name res.1 })
  else
    (none, g)

/-- The function `GlobalGraphicsResources::destroy_texture`
(global_graphics_resources.cpp:131-139). -/
def destroy_texture (name : String) (g : GlobalGraphicsResources) :
    GlobalGraphicsResources :=
  if NameMap.find g.m_texture_map name ≠ none then
    let res := NameMap.subscript g.m_texture_map name
    let g1 := DW_SAFE_DELETE res.1 { g with m_texture_map := res.2 }
    { g1 with m_texture_map := NameMap.erase g1.m_texture_map name }
  else
    g

/-- The function `GlobalGraphicsResources::lookup_framebuffer`
(global_graphics_resources.cpp:143-149). -/
def lookup_framebuffer (name : String) (g : GlobalGraphicsResources) :
    Ptr × GlobalGraphicsResources :=
  if NameMap.find g.m_framebuffer_map name = none then
    (none, g)
  else
    let res := NameMap.subscript g.m_framebuffer_map name
    (res.1, { g with m_framebuffer_map := res.2 })

/-- The function `GlobalGraphicsResources::create_framebuffer`
(global_graphics_resources.cpp:153-167). -/
def create_framebuffer (name : String) (g : GlobalGraphicsResources) :
    Ptr × GlobalGraphicsResources :=
  if NameMap.find g.m_framebuffer_map name = none then
    let res := new_object Resource.framebuffer g
    (res.1, { res.2 with m_framebuffer_map := NameMap.assign res.2.m_framebuffer_map name res.1 })
  else
    (none, g)

/-- The function `GlobalGraphicsResources::destroy_framebuffer`
(global_graphics_resources.cpp:171-179). -/
def destroy_framebuffer (name : String) (g : GlobalGraphicsResources) :
    GlobalGraphicsResources :=
  if NameMap.find g.m_framebuffer_map name ≠ none then
    let res := NameMap.subscript g.m_framebuffer_map name
    let g1 := DW_SAFE_DELETE res.1 { g with m_framebuffer_map := res.2 }
    { g1 with m_framebuffer_map := NameMap.erase g1.m_framebuffer_map name }
  else
    g

/-- The function `GlobalGraphicsResources::load_shader`
(global_graphics_resources.cpp:183-198); the material argument is not used. -/
def load_shader (fw : Framework) (type : Nat) (path : String) (_mat : Ptr)
    (g : GlobalGraphicsResources) : Ptr × GlobalGraphicsResources :=
  if NameMap.find g.m_shader_cache path = none then
    let res := create_from_file fw type (fw.path_for_resource ("assets/" ++ path)) g
    (res.1, { res.2 with m_shader_cache := NameMap.assign res.2.m_shader_cache path res.1 })
  else
    let res := NameMap.subscript g.m_shader_cache path
    (res.1, { g with m_shader_cache := res.2 })

/-- The function `GlobalGraphicsResources::load_program`
(global_graphics_resources.cpp:202-218). -/
def load_program (combined_name : String) (count : Nat) (shaders : List Ptr)
    (g : GlobalGraphicsResources) : Ptr × GlobalGraphicsResources :=
  if NameMap.find g.m_program_cache combined_name = none then
    let res := new_object (Resource.program count shaders) g
    (res.1,
      { res.2 with m_program_cache := NameMap.assign res.2.m_program_cache combined_name res.1 })
  else
    let res := NameMap.subscript g.m_program_cache combined_name
    (res.1, { g with m_program_cache := res.2 })

/-- The OpenGL enumerant `GL_RG16F`. -/
def GL_RG16F : Nat := 0x822F

/-- The OpenGL enumerant `GL_RG`. -/
def GL_RG : Nat := 0x8227

/-- The OpenGL enumerant `GL_HALF_FLOAT`. -/
def GL_HALF_FLOAT : Nat := 0x140B

/-- The OpenGL enumerant `GL_DYNAMIC_DRAW`. -/
def GL_DYNAMIC_DRAW : Nat := 0x88E8

/-- The OpenGL enumerant `GL_STATIC_DRAW`. -/
def GL_STATIC_DRAW : Nat := 0x88E4

/-- The function `GlobalGraphicsResources::create_quad`
(global_graphics_resources.cpp:289-315): 6 vertices of 5 floats. -/
def create_quad (g : GlobalGraphicsResources) : GlobalGraphicsResources :=
  let vbo := new_object (Resource.vertexBuffer GL_STATIC_DRAW (4 * 30)) g
  let g1 : GlobalGraphicsResources := { vbo.2 with m_quad_vbo := vbo.1 }
  let vao := new_object (Resource.vertexArray g1.m_quad_vbo none (4 * 5) 2) g1
  { vao.2 with m_quad_vao := vao.1 }

/-- The function `GlobalGraphicsResources::create_cube`
(global_graphics_resources.cpp:222-285): 36 vertices of 8 floats. -/
def create_cube (g : GlobalGraphicsResources) : GlobalGraphicsResources :=
  let vbo := new_object (Resource.vertexBuffer GL_STATIC_DRAW (4 * 288)) g
  let g1 : GlobalGraphicsResources := { vbo.2 with m_cube_vbo := vbo.1 }
  let vao := new_object (Resource.vertexArray g1.m_cube_vbo none (4 * 8) 3) g1
  { vao.2 with m_cube_vao := vao.1 }

/-- The function `GlobalGraphicsResources::initialize`
(global_graphics_resources.cpp:24-41), under a name that is not a keyword.
`demo::load_image` is not among the sources:
`image_loads` tells whether it returns a texture for the file, and it returns `nullptr`
otherwise, which `initialize` dereferences; the result is `none` then. The name
`BRDF_LUT` is a constant of `constants.h`, which is not among the sources. -/
def initialize_registry (image_loads : String → Bool) (sizes : UniformSizes) (BRDF_LUT : String)
    (g : GlobalGraphicsResources) : Option GlobalGraphicsResources :=
  if image_loads "texture/brdfLUT.trm" then
    let brdf_lut :=
      new_object (Resource.image "texture/brdfLUT.trm" GL_RG16F GL_RG GL_HALF_FLOAT) g
    let g1 : GlobalGraphicsResources :=
      { brdf_lut.2 with
        m_texture_map := NameMap.assign brdf_lut.2.m_texture_map BRDF_LUT brdf_lut.1 }
    let per_frame :=
      new_object (Resource.uniformBuffer GL_DYNAMIC_DRAW sizes.sizeof_PerFrameUniforms) g1
    let g2 : GlobalGraphicsResources := { per_frame.2 with m_per_frame := per_frame.1 }
    let per_scene :=
      new_object (Resource.uniformBuffer GL_DYNAMIC_DRAW sizes.sizeof_PerSceneUniforms) g2
    let g3 : GlobalGraphicsResources := { per_scene.2 with m_per_scene := per_scene.1 }
    let per_entity :=
      new_object
        (Resource.uniformBuffer GL_DYNAMIC_DRAW (1024 * sizes.sizeof_PerEntityUniforms)) g3
    let g4 : GlobalGraphicsResources := { per_entity.2 with m_per_entity := per_entity.1 }
    some (create_cube (create_quad g4))
  else
    none

/-- The loop `for (auto itr : map) { DW_SAFE_DELETE(itr.second); }` of
`GlobalGraphicsResources::shutdown`: `itr` is a copy of the entry, so the map itself keeps
its entries. -/
def delete_entries (m : NameMap) (g : GlobalGraphicsResources) : GlobalGraphicsResources :=
  m.foldl (fun acc itr => DW_SAFE_DELETE itr.2 acc) g

/-- The function `GlobalGraphicsResources::shutdown`
(global_graphics_resources.cpp:45-81). `DW_SAFE_DELETE` on one of the fixed pointers
releases the object and sets the pointer to null. -/
def shutdown (g : GlobalGraphicsResources) : GlobalGraphicsResources :=
  let g1 : GlobalGraphicsResources := { DW_SAFE_DELETE g.m_quad_vao g with m_quad_vao := none }
  let g2 : GlobalGraphicsResources := { DW_SAFE_DELETE g1.m_quad_vbo g1 with m_quad_vbo := none }
  let g3 : GlobalGraphicsResources := { DW_SAFE_DELETE g2.m_cube_vao g2 with m_cube_vao := none }
  let g4 : GlobalGraphicsResources := { DW_SAFE_DELETE g3.m_cube_vbo g3 with m_cube_vbo := none }
  let g5 : GlobalGraphicsResources := { DW_SAFE_DELETE g4.m_per_frame g4 with m_per_frame := none }
  let g6 : GlobalGraphicsResources := { DW_SAFE_DELETE g5.m_per_scene g5 with m_per_scene := none }
  let g7 : GlobalGraphicsResources :=
    { DW_SAFE_DELETE g6.m_per_entity g6 with m_per_entity := none }
  let g8 := delete_entries g7.m_framebuffer_map g7
  let g9 := delete_entries g8.m_texture_map g8
  let g10 := delete_entries g9.m_program_cache g9
  delete_entries g10.m_shader_cache g10

/-- The non-null pointers stored in a map, in the order of its entries. -/
def NameMap.handles (m : NameMap) : List Nat :=
  m.filterMap (fun e => e.2)

/-- The non-null pointers among the seven fixed objects, in the order in which
`shutdown` visits them. -/
def fixed_handles (g : GlobalGraphicsResources) : List Nat :=
  g.m_quad_vao.toList ++ g.m_quad_vbo.toList ++ g.m_cube_vao.toList ++ g.m_cube_vbo.toList ++
    g.m_per_frame.toList ++ g.m_per_scene.toList ++ g.m_per_entity.toList

/-- The objects that the registry holds: the fixed objects and the non-null entries of
the framebuffer, texture, program and shader maps. -/
def live_handles (g : GlobalGraphicsResources) : List Nat :=
  fixed_handles g ++ NameMap.handles g.m_framebuffer_map ++ NameMap.handles g.m_texture_map ++
    NameMap.handles g.m_program_cache ++ NameMap.handles g.m_shader_cache

/-- The keys of a map, in the order of its entries. -/
def NameMap.keys (m : NameMap) : List String :=
  m.map (fun e => e.1)

/-- The bookkeeping invariant of the registry: no map holds a key twice, and every object
constructed so far is either held by the registry exactly once or has been deleted exactly
once (and nothing else is held or deleted). -/
def RegistryInv (g : GlobalGraphicsResources) : Prop :=
  (NameMap.keys g.m_texture_map).Nodup ∧
  (NameMap.keys g.m_framebuffer_map).Nodup ∧
  (NameMap.keys g.m_program_cache).Nodup ∧
  (NameMap.keys g.m_shader_cache).Nodup ∧
  ∀ a, (live_handles g ++ g.deleted).count a = if a < g.objects.length then 1 else 0

/-- An operation on the registry between `initialize` and `shutdown`. -/
inductive RegistryOp where
  | create_texture_2d (name : String)
      (w h internal_format format type num_samples array_size mip_levels : Nat)
  | create_texture_cube (name : String)
      (w h internal_format format type array_size mip_levels : Nat)
  | create_framebuffer (name : String)
  | destroy_texture (name : String)
  | destroy_framebuffer (name : String)
  | load_shader (type : Nat) (path : String) (mat : Ptr)
  | load_program (combined_name : String) (count : Nat) (shaders : List Ptr)
deriving DecidableEq, Repr

/-- The registry after one operation. -/
def RegistryOp.run (fw : Framework) (op : RegistryOp) (g : GlobalGraphicsResources) :
    GlobalGraphicsResources :=
  match op with
  | RegistryOp.create_texture_2d name w h internal_format format type num_samples array_size
      mip_levels =>
    (Nimble.create_texture_2d name w h internal_format format type num_samples array_size
      mip_levels g).2
  | RegistryOp.create_texture_cube name w h internal_format format type array_size mip_levels =>
    (Nimble.create_texture_cube name w h internal_format format type array_size mip_levels g).2
  | RegistryOp.create_framebuffer name => (Nimble.create_framebuffer name g).2
  | RegistryOp.destroy_texture name => Nimble.destroy_texture name g
  | RegistryOp.destroy_framebuffer name => Nimble.destroy_framebuffer name g
  | RegistryOp.load_shader type path mat => (Nimble.load_shader fw type path mat g).2
  | RegistryOp.load_program combined_name count shaders =>
    (Nimble.load_program combined_name count shaders g).2

/-- The registry after a sequence of operations, in order. -/
def run_ops (fw : Framework) (ops : List RegistryOp) (g : GlobalGraphicsResources) :
    GlobalGraphicsResources :=
  ops.foldl (fun acc op => RegistryOp.run fw op acc) g

/-- The OpenGL enumerant `GL_RGB32F`. -/
def GL_RGB32F : Nat := 0x8815

/-- The OpenGL enumerant `GL_RGB`. -/
def GL_RGB : Nat := 0x1907

/-- The OpenGL enumerant `GL_FLOAT`. -/
def GL_FLOAT : Nat := 0x1406

/-- The render targets held by the `MotionBlur` pass. -/
structure MotionBlur where
  m_motion_blur_rt : Ptr
  m_motion_blur_fbo : Ptr
deriving DecidableEq, Repr

/-- The method `MotionBlur::on_window_resized` (motion_blur.cpp:55-71). The result is
`none` when the method dereferences a null pointer (`m_motion_blur_rt->set_min_filter`,
`m_motion_blur_fbo->attach_render_target`). The two names are constants of `constants.h`
and `num_samples`, `array_size`, `mip_levels` are the default arguments of
`create_texture_2d` declared in `global_graphics_resources.h`; neither header is among
the sources, so they are arguments here. -/
def MotionBlur.on_window_resized (FRAMEBUFFER_MOTION_BLUR RENDER_TARGET_MOTION_BLUR : String)
    (num_samples array_size mip_levels : Nat) (width height : Nat) (_mb : MotionBlur)
    (g : GlobalGraphicsResources) : Option (MotionBlur × GlobalGraphicsResources) :=
  let g1 := destroy_framebuffer FRAMEBUFFER_MOTION_BLUR g
  let g2 := destroy_texture RENDER_TARGET_MOTION_BLUR g1
  let rt :=
    create_texture_2d RENDER_TARGET_MOTION_BLUR width height GL_RGB32F GL_RGB GL_FLOAT
      num_samples array_size mip_levels g2
  match rt.1 with
  | none => none
  | some _ =>
    let fbo := create_framebuffer FRAMEBUFFER_MOTION_BLUR rt.2
    match fbo.1 with
    | none => none
    | some _ => some ({ m_motion_blur_rt := rt.1, m_motion_blur_fbo := fbo.1 }, fbo.2)

/-! ### The texture passes of `ResourceManager::load_material` -/

/-- The entries of `kTextureTypeTable` (resource_manager.cpp:47-57). -/
inductive TextureType where
  | TEXTURE_TYPE_EMISSIVE
  | TEXTURE_TYPE_DISPLACEMENT
  | TEXTURE_TYPE_NORMAL
  | TEXTURE_TYPE_METAL_SPEC
  | TEXTURE_TYPE_ROUGH_SMOOTH
  | TEXTURE_TYPE_CUSTOM
  deriving DecidableEq, Repr

/-- The table `kTextureTypeTable` (resource_manager.cpp:47-57), indexed by the type of a
texture descriptor. -/
def kTextureTypeTable : List TextureType :=
  [ TextureType.TEXTURE_TYPE_EMISSIVE,
    TextureType.TEXTURE_TYPE_DISPLACEMENT,
    TextureType.TEXTURE_TYPE_NORMAL,
    TextureType.TEXTURE_TYPE_METAL_SPEC,
    TextureType.TEXTURE_TYPE_ROUGH_SMOOTH,
    TextureType.TEXTURE_TYPE_METAL_SPEC,
    TextureType.TEXTURE_TYPE_ROUGH_SMOOTH,
    TextureType.TEXTURE_TYPE_CUSTOM ]

/-- An element of `ast_material.textures`: the three fields that `load_material` reads
(resource_manager.cpp:229-239). -/
structure TextureDesc where
  type : Nat
  path : String
  srgb : Bool
  deriving DecidableEq, Repr

/-- The material under construction, seen through the calls that `load_material` makes on
it: `surface_textures` are the arguments of the `set_surface_texture` calls and
`custom_textures` the arguments of the `set_custom_texture` calls, both in call order. The
table lookup is `none` when the descriptor type lies outside `kTextureTypeTable`. -/
structure Material where
  surface_textures : List (Option TextureType × Ptr)
  custom_textures : List (Nat × Ptr)
  deriving DecidableEq, Repr

/-- The state of the two texture loops of `load_material`: the material, the resource
manager (of any type `M`, changed only by `load_texture`) and the local
`custom_texture_count`. -/
structure MaterialLoad (M : Type) where
  material : Material
  manager : M
  custom_texture_count : Nat

/-- The body of the first texture loop of `load_material` (resource_manager.cpp:229-235).
`TEXTURE_CUSTOM` is the value of `ast::TEXTURE_CUSTOM` and `load_texture` the method
`ResourceManager::load_texture`, as a function of the path, the sRGB flag and the manager
state. -/
def surface_texture_step {M : Type} (TEXTURE_CUSTOM : Nat)
    (load_texture : String → Bool → M → Ptr × M) (st : MaterialLoad M)
    (texture_desc : TextureDesc) : MaterialLoad M :=
  if texture_desc.type = TEXTURE_CUSTOM then
    { st with custom_texture_count := (st.custom_texture_count + 1) % 2 ^ 32 }
  else
    let loaded := load_texture texture_desc.path texture_desc.srgb st.manager
    { st with
      material :=
        { st.material with
          surface_textures :=
            st.material.surface_textures ++ [(kTextureTypeTable[texture_desc.type]?, loaded.1)] }
      manager := loaded.2 }

/-- The body of the second texture loop of `load_material` (resource_manager.cpp:238-239),
for the index `i`; an index outside `textures` does nothing (the loop never produces
one). -/
def custom_texture_step {M : Type} (load_texture : String → Bool → M → Ptr × M)
    (textures : List TextureDesc) (st : MaterialLoad M) (i : Nat) : MaterialLoad M :=
  match textures[i]? with
  | some texture_desc =>
    let loaded := load_texture texture_desc.path texture_desc.srgb st.manager
    { st with
      material :=
        { st.material with
          custom_textures := st.material.custom_textures ++ [(i, loaded.1)] }
      manager := loaded.2 }
  | none => st

/-- The two texture loops of `ResourceManager::load_material`
(resource_manager.cpp:227-239), run on a material that has no texture yet. -/
def load_material_textures {M : Type} (TEXTURE_CUSTOM : Nat)
    (load_texture : String → Bool → M → Ptr × M) (textures : List TextureDesc)
    (manager : M) : MaterialLoad M :=
  let start : MaterialLoad M :=
    { material := { surface_textures := [], custom_textures := [] }
      manager := manager
      custom_texture_count := 0 }
  let first := textures.foldl (surface_texture_step TEXTURE_CUSTOM load_texture) start
  (List.range textures.length).foldl (custom_texture_step load_texture textures) first

/-! ### Sample values used to instantiate the theorems -/

/-- A vector of integers with all components equal. -/
def sampleVec3 (a : Int) : Vec3 Int := { x := a, y := a, z := a }

/-- A 4-vector of integers with all components equal. -/
def sampleVec4 (a : Int) : Vec4 Int := { x := a, y := a, z := a, w := a }

/-- A matrix of integers with all entries equal. -/
def sampleMat4 (a : Int) : Mat4 Int :=
  { c0 := sampleVec4 a, c1 := sampleVec4 a, c2 := sampleVec4 a, c3 := sampleVec4 a }

/-- A view whose matrices are filled with `a`, with the given culling flag. -/
def sampleView (a : Int) (culling : Bool) : View Int :=
  { m_enabled := true
    m_culling := culling
    m_direction := sampleVec3 a
    m_position := sampleVec3 a
    m_view_mat := sampleMat4 a
    m_projection_mat := sampleMat4 a
    m_vp_mat := sampleMat4 a
    m_prev_vp_mat := sampleMat4 a
    m_inv_view_mat := sampleMat4 a
    m_inv_projection_mat := sampleMat4 a
    m_inv_vp_mat := sampleMat4 a
    m_jitter := sampleVec4 0
    m_dest_render_target_view := none
    m_graph := some 0
    m_scene := none
    m_id := 0 }

/-- An entity at position `a` with an empty visibility mask. -/
def sampleEntity (a : Int) : Entity Int :=
  { transform := { position := sampleVec3 a, model := sampleMat4 a, prev_model := sampleMat4 a }
    obb :=
      { min := sampleVec3 (-1)
        max := sampleVec3 1
        orientation := Mat3.ofMat4 (sampleMat4 0)
        position := sampleVec3 0 }
    visibility := 0 }

/-- A camera whose matrices are filled with `a`. -/
def sampleCamera (a : Int) : Camera Int :=
  { m_forward := sampleVec3 a
    m_position := sampleVec3 (a + 1)
    m_view := sampleMat4 (a + 2)
    m_projection := sampleMat4 (a + 3)
    m_view_projection := sampleMat4 (a + 4)
    m_prev_view_projection := sampleMat4 (a + 5)
    m_prev_jitter := { x := 0, y := 0 }
    m_current_jitter := { x := 1, y := 1 } }

/-- A directional light with the given shadow flag. -/
def sampleDirectionalLight (a : Int) (casts_shadow : Bool) : DirectionalLight Int :=
  { transform := { position := sampleVec3 a, model := sampleMat4 a, prev_model := sampleMat4 a }
    color := sampleVec3 1
    intensity := a
    casts_shadow := casts_shadow }

/-- A scene with two entities, a camera and no light. -/
def sampleScene : Scene Int :=
  { entities := [sampleEntity 5, sampleEntity 7]
    camera := sampleCamera 10
    directional_lights := []
    spot_lights := []
    point_lights := []
    address := 1 }

/-- Uniform records filled with zeros. -/
def samplePerSceneUniforms : PerSceneUniforms Int :=
  { directional_lights := fun _ =>
      { direction := sampleVec4 0, color_intensity := sampleVec4 0, casts_shadow := 0 }
    spot_lights := fun _ =>
      { direction_range := sampleVec4 0, color_intensity := sampleVec4 0,
        position_cone_angle := sampleVec4 0, casts_shadow := 0 }
    point_lights := fun _ =>
      { position_range := sampleVec4 0, color_intensity := sampleVec4 0, casts_shadow := 0 }
    directional_light_count := 0
    spot_light_count := 0
    point_light_count := 0 }

/-- A renderer with no active view over `sampleScene`; the frustum of a view is
represented by its view-projection matrix. -/
def sampleRenderer : Renderer Int (Mat4 Int) :=
  { m_num_active_views := 0
    m_active_views := fun _ => sampleView 0 true
    m_active_frustums := fun _ => sampleMat4 0
    m_scene := some sampleScene
    m_settings := { shadow_map_quality := 0, cascade_count := 4 }
    m_scene_render_graph := some 100
    m_shadow_map_render_graph := some 200
    m_per_entity_uniforms := fun _ =>
      { modal_mat := sampleMat4 0, last_model_mat := sampleMat4 0, world_pos := sampleVec4 0 }
    m_per_view_uniforms := fun _ =>
      { view_mat := sampleMat4 0, proj_mat := sampleMat4 0, view_proj := sampleMat4 0,
        last_view_proj := sampleMat4 0, inv_proj := sampleMat4 0, inv_view := sampleMat4 0,
        inv_view_proj := sampleMat4 0, view_pos := sampleVec4 0 }
    m_per_scene_uniforms := samplePerSceneUniforms }

/-- Sixty-six distinct views, numbered through their matrices. -/
def sampleViews : List (View Int) :=
  (List.range 66).map (fun i => sampleView (Int.ofNat i) (i % 2 == 0))

/-- A renderer whose view array is full: `sampleViews` queued on `sampleRenderer`. -/
def fullRenderer : Renderer Int (Mat4 Int) :=
  queue_views id sampleViews sampleRenderer

/-- A registry with no entry and no object constructed. -/
def emptyRegistry : GlobalGraphicsResources :=
  { m_texture_map := []
    m_framebuffer_map := []
    m_program_cache := []
    m_shader_cache := []
    objects := []
    deleted := [] }

/-- A registry holding the texture "color", the cube texture "sky" and the framebuffer
"fbo", built with the create operations. -/
def sampleRegistry : GlobalGraphicsResources :=
  (create_framebuffer "fbo"
    (create_texture_cube "sky" 64 64 GL_RGB32F GL_RGB GL_FLOAT 1 1
      (create_texture_2d "color" 800 600 GL_RGB32F GL_RGB GL_FLOAT 1 1 1 emptyRegistry).2).2).2

/-- A framework in which every shader file loads except "missing.glsl". -/
def sampleFramework : Framework :=
  { path_for_resource := fun p => p
    shader_file_ok := fun _ file => file != "assets/missing.glsl" }

/-- A renderer with three active views, the second of which has culling switched off,
over the scene of `sampleRenderer`. -/
def threeViewRenderer : Renderer Int (Mat4 Int) :=
  queue_views id [sampleView 1 true, sampleView 2 false, sampleView 3 true] sampleRenderer

/-- An intersection test that fails for every box. -/
def neverIntersects : Mat4 Int → OBB Int → Bool :=
  fun _ _ => false

/-- An intersection test that passes exactly for the boxes centred at `sampleVec3 5`. -/
def centredAtFive : Mat4 Int → OBB Int → Bool :=
  fun _ obb => decide (obb.position = sampleVec3 5)

/-- The frustum of the axis-aligned cube of half-width 10 around the origin. -/
def cubeFrustum : Frustum ℚ :=
  { planes := fun p =>
      match p with
      | 0 => { n := { x := 1, y := 0, z := 0 }, d := 10 }
      | 1 => { n := { x := -1, y := 0, z := 0 }, d := 10 }
      | 2 => { n := { x := 0, y := 1, z := 0 }, d := 10 }
      | 3 => { n := { x := 0, y := -1, z := 0 }, d := 10 }
      | 4 => { n := { x := 0, y := 0, z := 1 }, d := 10 }
      | 5 => { n := { x := 0, y := 0, z := -1 }, d := 10 } }

/-- An entity with identity orientation and a box of half-width 1, at `(x, 0, 0)`; its
box starts out stale, centred at the origin. -/
def boxEntity (x : ℚ) : Entity ℚ :=
  { transform :=
      { position := { x := x, y := 0, z := 0 }
        model := Mat4.diag 1
        prev_model := Mat4.diag 1 }
    obb :=
      { min := { x := -1, y := -1, z := -1 }
        max := { x := 1, y := 1, z := 1 }
        orientation := Mat3.ofMat4 (Mat4.diag 1)
        position := { x := 0, y := 0, z := 0 } }
    visibility := 0 }

/-- A culling view over rational scalars. -/
def cubeView : View ℚ :=
  { m_enabled := true
    m_culling := true
    m_direction := { x := 0, y := 0, z := 1 }
    m_position := { x := 0, y := 0, z := 0 }
    m_view_mat := Mat4.diag 1
    m_projection_mat := Mat4.diag 1
    m_vp_mat := Mat4.diag 1
    m_prev_vp_mat := Mat4.diag 1
    m_inv_view_mat := Mat4.diag 1
    m_inv_projection_mat := Mat4.diag 1
    m_inv_vp_mat := Mat4.diag 1
    m_jitter := Vec4.splat 0
    m_dest_render_target_view := none
    m_graph := some 100
    m_scene := some 1
    m_id := 0 }

/-- A scene with a box inside the cube, a box far outside it and a box touching one of
its faces from outside. -/
def cubeScene : Scene ℚ :=
  { entities := [boxEntity 0, boxEntity 20, boxEntity 11]
    camera :=
      { m_forward := { x := 0, y := 0, z := 1 }
        m_position := { x := 0, y := 0, z := 0 }
        m_view := Mat4.diag 1
        m_projection := Mat4.diag 1
        m_view_projection := Mat4.diag 1
        m_prev_view_projection := Mat4.diag 1
        m_prev_jitter := { x := 0, y := 0 }
        m_current_jitter := { x := 0, y := 0 } }
    directional_lights := []
    spot_lights := []
    point_lights := []
    address := 1 }

/-- A renderer over `cubeScene` with one active culling view whose cached frustum is
`cubeFrustum`. -/
def cubeRenderer : Renderer ℚ (Frustum ℚ) :=
  { m_num_active_views := 1
    m_active_views := fun _ => cubeView
    m_active_frustums := fun _ => cubeFrustum
    m_scene := some cubeScene
    m_settings := { shadow_map_quality := 0, cascade_count := 4 }
    m_scene_render_graph := some 100
    m_shadow_map_render_graph := some 200
    m_per_entity_uniforms := fun _ =>
      { modal_mat := Mat4.diag 0, last_model_mat := Mat4.diag 0, world_pos := Vec4.splat 0 }
    m_per_view_uniforms := fun _ =>
      { view_mat := Mat4.diag 0, proj_mat := Mat4.diag 0, view_proj := Mat4.diag 0,
        last_view_proj := Mat4.diag 0, inv_proj := Mat4.diag 0, inv_view := Mat4.diag 0,
        inv_view_proj := Mat4.diag 0, view_pos := Vec4.splat 0 }
    m_per_scene_uniforms :=
      { directional_lights := fun _ =>
          { direction := Vec4.splat 0, color_intensity := Vec4.splat 0, casts_shadow := 0 }
        spot_lights := fun _ =>
          { direction_range := Vec4.splat 0, color_intensity := Vec4.splat 0,
            position_cone_angle := Vec4.splat 0, casts_shadow := 0 }
        point_lights := fun _ =>
          { position_range := Vec4.splat 0, color_intensity := Vec4.splat 0, casts_shadow := 0 }
        directional_light_count := 0
        spot_light_count := 0
        point_light_count := 0 } }

/-- Record sizes for a layout of 4-byte scalars. -/
def sampleSizes : UniformSizes :=
  { sizeof_PerFrameUniforms := 256
    sizeof_PerSceneUniforms := 4096
    sizeof_PerEntityUniforms := 144
    sizeof_PerViewUniforms := 464 }

/-- A stand-in for `Transform::forward()`. -/
def sampleForward : Transform Int → Vec3 Int :=
  fun t => t.position

/-- A scene with 1025 entities. -/
def overfullScene : Scene Int :=
  { sampleScene with entities := List.replicate 1025 (sampleEntity 0) }

/-- A renderer over `overfullScene`. -/
def overfullRenderer : Renderer Int (Mat4 Int) :=
  { sampleRenderer with m_scene := some overfullScene }

/-- A scene with `n` directional lights, `n` spot lights and `n` point lights. -/
def litScene (n : Nat) : Scene Int :=
  { sampleScene with
    directional_lights := List.replicate n (sampleDirectionalLight 1 false)
    spot_lights :=
      List.replicate n
        { transform :=
            { position := sampleVec3 2, model := sampleMat4 2, prev_model := sampleMat4 2 }
          color := sampleVec3 1
          intensity := 1
          range := 10
          cone_angle := 30
          casts_shadow := false }
    point_lights :=
      List.replicate n
        { transform :=
            { position := sampleVec3 3, model := sampleMat4 3, prev_model := sampleMat4 3 }
          color := sampleVec3 1
          intensity := 1
          range := 10
          casts_shadow := false } }

/-- A renderer over `litScene n`. -/
def litRenderer (n : Nat) : Renderer Int (Mat4 Int) :=
  { sampleRenderer with m_scene := some (litScene n) }

/-- The external functions used with the integer samples: the frustum of a view is
represented by its view-projection matrix and no box intersects it. -/
def sampleExternals : Externals Int (Mat4 Int) :=
  { frustum_from_matrix := id
    intersects := neverIntersects
    inverse := id
    forward := sampleForward
    unset_view_id := 0 }

/-- A scene with two shadow-casting directional lights and one that casts no shadow
between them. -/
def shadowScene : Scene Int :=
  { sampleScene with
    directional_lights :=
      [sampleDirectionalLight 1 true, sampleDirectionalLight 2 false,
        sampleDirectionalLight 3 true] }

/-- A renderer without active views over `shadowScene`, with cascade count 4. -/
def shadowRenderer : Renderer Int (Mat4 Int) :=
  { sampleRenderer with m_scene := some shadowScene }

/-- A loader for which every image file loads. -/
def everyImageLoads : String → Bool :=
  fun _ => true

/-- A run of registry operations: a texture is created and destroyed by name, then a
framebuffer, a cube texture, two shaders (one whose file is missing) and a program are
created. -/
def sampleOps : List RegistryOp :=
  [RegistryOp.create_texture_2d "color" 800 600 GL_RGB32F GL_RGB GL_FLOAT 1 1 1,
    RegistryOp.destroy_texture "color",
    RegistryOp.create_framebuffer "fbo",
    RegistryOp.create_texture_cube "sky" 64 64 GL_RGB32F GL_RGB GL_FLOAT 1 1,
    RegistryOp.load_shader 1 "a.glsl" none,
    RegistryOp.load_shader 2 "missing.glsl" none,
    RegistryOp.load_program "a.glslb.glsl" 2 [some 3, none],
    RegistryOp.destroy_framebuffer "nothing"]

/-- A renderer with four active views: an enabled one with graph 7, a disabled one with
graph 8 and id 99, an enabled one without a graph, and an enabled one with graph 9. -/
def mixedViewsRenderer : Renderer Int (Mat4 Int) :=
  queue_views id
    [{ sampleView 1 true with m_graph := some 7 },
      { sampleView 2 true with m_enabled := false, m_graph := some 8, m_id := 99 },
      { sampleView 3 true with m_graph := none },
      { sampleView 4 true with m_graph := some 9 }]
    sampleRenderer

/-- A renderer with three active views over a scene whose first entity has the
visibility bits of slots 1 and 5 set by earlier frames. -/
def staleBitsRenderer : Renderer Int (Mat4 Int) :=
  { threeViewRenderer with
    m_scene :=
      some { sampleScene with
        entities := [{ sampleEntity 5 with visibility := 34 }, sampleEntity 7] } }

/-- A texture loader without a cache: the texture of a path is named by the length of the
path. -/
def sampleLoadTexture : String → Bool → Unit → Ptr × Unit :=
  fun path _ m => (some path.length, m)

/-- The textures of a material description with one emissive texture (type 0) followed by
one custom texture (type 7). -/
def sampleTextures : List TextureDesc :=
  [ { type := 0, path := "emissive.png", srgb := true },
    { type := 7, path := "mask.png", srgb := false } ]

/-! ## Theorems -/

theorem queue_views_snoc {S F : Type} (fm : Mat4 S → F) (vs : List (View S)) (v : View S)
    (r : Renderer S F) :
    queue_views fm (vs ++ [v]) r = queue_view fm v (queue_views fm vs r) := by
  simp [queue_views, List.foldl_append]

theorem queue_view_full {S F : Type} (fm : Mat4 S → F) (v : View S) (r : Renderer S F)
    (h : r.m_num_active_views = MAX_VIEWS) : queue_view fm v r = r := by
  simp [queue_view, h]

theorem queue_view_not_full {S F : Type} (fm : Mat4 S → F) (v : View S) (r : Renderer S F)
    (h : r.m_num_active_views ≠ MAX_VIEWS) :
    queue_view fm v r =
      { r with
        m_num_active_views := (r.m_num_active_views + 1) % 2 ^ 32
        m_active_views := Function.update r.m_active_views r.m_num_active_views v
        m_active_frustums :=
          Function.update r.m_active_frustums r.m_num_active_views (fm v.m_vp_mat) } := by
  simp [queue_view, h]

/-- C1: from zero active views, after queueing the views `vs` one by one the count is
`min vs.length 64`, it never exceeds 64, and every slot below the count holds the view
queued at that position (with its frustum in the same slot of the frustum array). -/
theorem queue_views_count_and_slots {S F : Type} (fm : Mat4 S → F) (vs : List (View S))
    (r : Renderer S F) (h0 : r.m_num_active_views = 0) :
    (queue_views fm vs r).m_num_active_views = min vs.length 64 ∧
    (queue_views fm vs r).m_num_active_views ≤ 64 ∧
    ∀ i, i < min vs.length 64 →
      vs[i]? = some ((queue_views fm vs r).m_active_views i) ∧
      (vs[i]?).map (fun v => fm v.m_vp_mat) = some ((queue_views fm vs r).m_active_frustums i) := by
  induction vs using List.reverseRecOn with
  | nil => simp [queue_views, h0]
  | append_singleton l a ih =>
    obtain ⟨hc, _, hs⟩ := ih
    rw [queue_views_snoc]
    by_cases hl : l.length < 64
    · have hc' : (queue_views fm l r).m_num_active_views = l.length := by
        rw [hc]; omega
      have hne : (queue_views fm l r).m_num_active_views ≠ MAX_VIEWS := by
        rw [hc']; unfold MAX_VIEWS; omega
      rw [queue_view_not_full fm a _ hne, hc']
      simp only [List.length_append, List.length_singleton]
      refine ⟨?_, ?_, ?_⟩
      · omega
      · omega
      · intro i hi
        by_cases hil : i = l.length
        · subst hil
          simp
        · have hlt : i < l.length := by omega
          have h1 := hs i (by omega)
          rw [List.getElem?_append_left hlt]
          simpa [Function.update, hil] using h1
    · have hc' : (queue_views fm l r).m_num_active_views = MAX_VIEWS := by
        rw [hc]; unfold MAX_VIEWS; omega
      rw [queue_view_full fm a _ hc']
      simp only [List.length_append, List.length_singleton]
      refine ⟨?_, ?_, ?_⟩
      · rw [hc]; omega
      · rw [hc]; omega
      · intro i hi
        have hlt : i < l.length := by omega
        have h1 := hs i (by omega)
        rw [List.getElem?_append_left hlt]
        exact h1

theorem queue_views_count_and_slots_witness :
    sampleRenderer.m_num_active_views = 0 ∧
    (queue_views id sampleViews sampleRenderer).m_num_active_views = min sampleViews.length 64 ∧
    (queue_views id sampleViews sampleRenderer).m_num_active_views ≤ 64 ∧
    ∀ i, i < min sampleViews.length 64 →
      sampleViews[i]? = some ((queue_views id sampleViews sampleRenderer).m_active_views i) ∧
      (sampleViews[i]?).map (fun v => id v.m_vp_mat) =
        some ((queue_views id sampleViews sampleRenderer).m_active_frustums i) :=
  ⟨rfl, queue_views_count_and_slots id sampleViews sampleRenderer rfl⟩

/-- C2: when the active view count equals `MAX_VIEWS` (64), `queue_view` rejects the view
and the renderer is unchanged: same count, same entry in every slot of the view array and
of the frustum array. -/
theorem queue_view_rejects_when_full {S F : Type} (fm : Mat4 S → F) (v : View S)
    (r : Renderer S F) (h : r.m_num_active_views = MAX_VIEWS) :
    queue_view fm v r = r ∧
    (queue_view fm v r).m_num_active_views = r.m_num_active_views ∧
    (∀ i, (queue_view fm v r).m_active_views i = r.m_active_views i) ∧
    (∀ i, (queue_view fm v r).m_active_frustums i = r.m_active_frustums i) := by
  rw [queue_view_full fm v r h]
  exact ⟨rfl, rfl, fun _ => rfl, fun _ => rfl⟩

theorem fullRenderer_count : fullRenderer.m_num_active_views = MAX_VIEWS := by
  simp [fullRenderer, sampleViews, queue_views, List.range, List.range.loop, queue_view,
    MAX_VIEWS, sampleRenderer]

theorem queue_view_rejects_when_full_witness :
    fullRenderer.m_num_active_views = MAX_VIEWS ∧
    queue_view id (sampleView 99 false) fullRenderer = fullRenderer ∧
    (queue_view id (sampleView 99 false) fullRenderer).m_num_active_views =
      fullRenderer.m_num_active_views ∧
    (∀ i, (queue_view id (sampleView 99 false) fullRenderer).m_active_views i =
      fullRenderer.m_active_views i) ∧
    (∀ i, (queue_view id (sampleView 99 false) fullRenderer).m_active_frustums i =
      fullRenderer.m_active_frustums i) :=
  ⟨fullRenderer_count,
    queue_view_rejects_when_full id (sampleView 99 false) fullRenderer fullRenderer_count⟩

/-- C3: when the active view count `c` is below 64, `queue_view v` makes the count `c + 1`,
stores `v` in view slot `c` and `frustum_from_matrix v.m_vp_mat` in frustum slot `c`, and
leaves every other slot of both arrays as it was. -/
theorem queue_view_appends_when_not_full {S F : Type} (fm : Mat4 S → F) (v : View S)
    (r : Renderer S F) (h : r.m_num_active_views < 64) :
    (queue_view fm v r).m_num_active_views = r.m_num_active_views + 1 ∧
    (queue_view fm v r).m_active_views r.m_num_active_views = v ∧
    (queue_view fm v r).m_active_frustums r.m_num_active_views = fm v.m_vp_mat ∧
    (∀ i, i ≠ r.m_num_active_views →
      (queue_view fm v r).m_active_views i = r.m_active_views i ∧
      (queue_view fm v r).m_active_frustums i = r.m_active_frustums i) := by
  have hne : r.m_num_active_views ≠ MAX_VIEWS := by unfold MAX_VIEWS; omega
  rw [queue_view_not_full fm v r hne]
  refine ⟨?_, ?_, ?_, ?_⟩
  · show (r.m_num_active_views + 1) % 2 ^ 32 = r.m_num_active_views + 1
    omega
  · simp
  · simp
  · intro i hi
    simp [Function.update, hi]

theorem queue_view_appends_when_not_full_witness :
    sampleRenderer.m_num_active_views < 64 ∧
    (queue_view id (sampleView 3 true) sampleRenderer).m_num_active_views =
      sampleRenderer.m_num_active_views + 1 ∧
    (queue_view id (sampleView 3 true) sampleRenderer).m_active_views
      sampleRenderer.m_num_active_views = sampleView 3 true ∧
    (queue_view id (sampleView 3 true) sampleRenderer).m_active_frustums
      sampleRenderer.m_num_active_views = id (sampleView 3 true).m_vp_mat ∧
    (∀ i, i ≠ sampleRenderer.m_num_active_views →
      (queue_view id (sampleView 3 true) sampleRenderer).m_active_views i =
        sampleRenderer.m_active_views i ∧
      (queue_view id (sampleView 3 true) sampleRenderer).m_active_frustums i =
        sampleRenderer.m_active_frustums i) :=
  ⟨by decide, queue_view_appends_when_not_full id (sampleView 3 true) sampleRenderer (by decide)⟩

/-! ### The name maps -/

theorem NameMap.find_cons (k : String) (v : Ptr) (m : NameMap) (name : String) :
    NameMap.find ((k, v) :: m) name = if k = name then some v else NameMap.find m name :=
  rfl

theorem NameMap.find_erase_self (m : NameMap) (name : String) :
    NameMap.find (NameMap.erase m name) name = none := by
  induction m with
  | nil => rfl
  | cons e m ih =>
    obtain ⟨k, v⟩ := e
    by_cases hk : k = name
    · simpa [NameMap.erase, List.filter_cons, hk] using ih
    · simpa [NameMap.erase, List.filter_cons, hk, NameMap.find_cons] using ih

theorem NameMap.find_erase_ne (m : NameMap) (name other : String) (h : other ≠ name) :
    NameMap.find (NameMap.erase m name) other = NameMap.find m other := by
  induction m with
  | nil => rfl
  | cons e m ih =>
    obtain ⟨k, v⟩ := e
    by_cases hk : k = name
    · have hko : k ≠ other := fun hko => h (hko ▸ hk)
      simpa [NameMap.erase, List.filter_cons, hk, NameMap.find_cons, hko, Ne.symm h] using ih
    · by_cases hko : k = other
      · subst hko
        simp [NameMap.erase, List.filter_cons, hk, NameMap.find_cons]
      · simpa [NameMap.erase, List.filter_cons, hk, NameMap.find_cons, hko] using ih

theorem NameMap.find_assign_self (m : NameMap) (name : String) (v : Ptr) :
    NameMap.find (NameMap.assign m name v) name = some v := by
  simp [NameMap.assign, NameMap.find_cons]

theorem NameMap.find_assign_ne (m : NameMap) (name other : String) (v : Ptr)
    (h : other ≠ name) :
    NameMap.find (NameMap.assign m name v) other = NameMap.find m other := by
  simp [NameMap.assign, NameMap.find_cons, Ne.symm h, NameMap.find_erase_ne m name other h]

theorem NameMap.erase_erase (m : NameMap) (name : String) :
    NameMap.erase (NameMap.erase m name) name = NameMap.erase m name := by
  simp [NameMap.erase, List.filter_filter]

theorem NameMap.subscript_of_find (m : NameMap) (name : String) (p : Ptr)
    (h : NameMap.find m name = some p) : NameMap.subscript m name = (p, m) := by
  simp [NameMap.subscript, h]

/-! ### Single-step behaviour of the registry operations -/

theorem lookup_texture_eq (name : String) (g : GlobalGraphicsResources) :
    lookup_texture name g = ((NameMap.find g.m_texture_map name).getD none, g) := by
  unfold lookup_texture
  cases h : NameMap.find g.m_texture_map name with
  | none => simp
  | some p => simp [NameMap.subscript, h]

theorem lookup_framebuffer_eq (name : String) (g : GlobalGraphicsResources) :
    lookup_framebuffer name g = ((NameMap.find g.m_framebuffer_map name).getD none, g) := by
  unfold lookup_framebuffer
  cases h : NameMap.find g.m_framebuffer_map name with
  | none => simp
  | some p => simp [NameMap.subscript, h]

theorem create_texture_2d_present (name : String) (w h internal_format format type
    num_samples array_size mip_levels : Nat) (g : GlobalGraphicsResources)
    (hk : NameMap.find g.m_texture_map name ≠ none) :
    create_texture_2d name w h internal_format format type num_samples array_size mip_levels g
      = (none, g) := by
  simp [create_texture_2d, hk]

theorem create_texture_2d_absent (name : String) (w h internal_format format type
    num_samples array_size mip_levels : Nat) (g : GlobalGraphicsResources)
    (hk : NameMap.find g.m_texture_map name = none) :
    create_texture_2d name w h internal_format format type num_samples array_size mip_levels g
      = (some g.objects.length,
          { g with
            objects := g.objects ++
              [Resource.texture2d w h array_size mip_levels num_samples internal_format format
                type]
            m_texture_map := NameMap.assign g.m_texture_map name (some g.objects.length) }) := by
  simp [create_texture_2d, hk, new_object]

theorem create_texture_cube_present (name : String) (w h internal_format format type
    array_size mip_levels : Nat) (g : GlobalGraphicsResources)
    (hk : NameMap.find g.m_texture_map name ≠ none) :
    create_texture_cube name w h internal_format format type array_size mip_levels g
      = (none, g) := by
  simp [create_texture_cube, hk]

theorem create_framebuffer_present (name : String) (g : GlobalGraphicsResources)
    (hk : NameMap.find g.m_framebuffer_map name ≠ none) :
    create_framebuffer name g = (none, g) := by
  simp [create_framebuffer, hk]

theorem create_framebuffer_absent (name : String) (g : GlobalGraphicsResources)
    (hk : NameMap.find g.m_framebuffer_map name = none) :
    create_framebuffer name g
      = (some g.objects.length,
          { g with
            objects := g.objects ++ [Resource.framebuffer]
            m_framebuffer_map :=
              NameMap.assign g.m_framebuffer_map name (some g.objects.length) }) := by
  simp [create_framebuffer, hk, new_object]

theorem destroy_texture_absent (name : String) (g : GlobalGraphicsResources)
    (hk : NameMap.find g.m_texture_map name = none) : destroy_texture name g = g := by
  simp [destroy_texture, hk]

theorem destroy_texture_present (name : String) (g : GlobalGraphicsResources) (p : Ptr)
    (hk : NameMap.find g.m_texture_map name = some p) :
    destroy_texture name g =
      { g with
        m_texture_map := NameMap.erase g.m_texture_map name
        deleted := g.deleted ++ p.toList } := by
  cases p with
  | none => simp [destroy_texture, hk, NameMap.subscript, DW_SAFE_DELETE]
  | some a => simp [destroy_texture, hk, NameMap.subscript, DW_SAFE_DELETE]

theorem destroy_framebuffer_absent (name : String) (g : GlobalGraphicsResources)
    (hk : NameMap.find g.m_framebuffer_map name = none) : destroy_framebuffer name g = g := by
  simp [destroy_framebuffer, hk]

theorem destroy_framebuffer_present (name : String) (g : GlobalGraphicsResources) (p : Ptr)
    (hk : NameMap.find g.m_framebuffer_map name = some p) :
    destroy_framebuffer name g =
      { g with
        m_framebuffer_map := NameMap.erase g.m_framebuffer_map name
        deleted := g.deleted ++ p.toList } := by
  cases p with
  | none => simp [destroy_framebuffer, hk, NameMap.subscript, DW_SAFE_DELETE]
  | some a => simp [destroy_framebuffer, hk, NameMap.subscript, DW_SAFE_DELETE]

theorem destroy_texture_find_self (name : String) (g : GlobalGraphicsResources) :
    NameMap.find (destroy_texture name g).m_texture_map name = none := by
  cases h : NameMap.find g.m_texture_map name with
  | none => rw [destroy_texture_absent name g h]; exact h
  | some p => rw [destroy_texture_present name g p h]; exact NameMap.find_erase_self _ _

theorem destroy_framebuffer_find_self (name : String) (g : GlobalGraphicsResources) :
    NameMap.find (destroy_framebuffer name g).m_framebuffer_map name = none := by
  cases h : NameMap.find g.m_framebuffer_map name with
  | none => rw [destroy_framebuffer_absent name g h]; exact h
  | some p => rw [destroy_framebuffer_present name g p h]; exact NameMap.find_erase_self _ _

theorem destroy_texture_objects (name : String) (g : GlobalGraphicsResources) :
    (destroy_texture name g).objects = g.objects ∧
    (destroy_texture name g).m_framebuffer_map = g.m_framebuffer_map := by
  cases h : NameMap.find g.m_texture_map name with
  | none => rw [destroy_texture_absent name g h]; exact ⟨rfl, rfl⟩
  | some p => rw [destroy_texture_present name g p h]; exact ⟨rfl, rfl⟩

theorem destroy_framebuffer_objects (name : String) (g : GlobalGraphicsResources) :
    (destroy_framebuffer name g).objects = g.objects ∧
    (destroy_framebuffer name g).m_texture_map = g.m_texture_map := by
  cases h : NameMap.find g.m_framebuffer_map name with
  | none => rw [destroy_framebuffer_absent name g h]; exact ⟨rfl, rfl⟩
  | some p => rw [destroy_framebuffer_present name g p h]; exact ⟨rfl, rfl⟩

theorem load_program_present (name : String) (count : Nat) (shaders : List Ptr)
    (g : GlobalGraphicsResources) (p : Ptr)
    (hk : NameMap.find g.m_program_cache name = some p) :
    load_program name count shaders g = (p, g) := by
  simp [load_program, hk, NameMap.subscript]

theorem load_program_absent (name : String) (count : Nat) (shaders : List Ptr)
    (g : GlobalGraphicsResources) (hk : NameMap.find g.m_program_cache name = none) :
    load_program name count shaders g
      = (some g.objects.length,
          { g with
            objects := g.objects ++ [Resource.program count shaders]
            m_program_cache :=
              NameMap.assign g.m_program_cache name (some g.objects.length) }) := by
  simp [load_program, hk, new_object]

theorem load_program_find (name : String) (count : Nat) (shaders : List Ptr)
    (g : GlobalGraphicsResources) :
    NameMap.find (load_program name count shaders g).2.m_program_cache name
      = some (load_program name count shaders g).1 := by
  cases h : NameMap.find g.m_program_cache name with
  | none => rw [load_program_absent name count shaders g h]; exact NameMap.find_assign_self _ _ _
  | some p => rw [load_program_present name count shaders g p h]; exact h

theorem load_shader_present (fw : Framework) (type : Nat) (path : String) (mat : Ptr)
    (g : GlobalGraphicsResources) (p : Ptr)
    (hk : NameMap.find g.m_shader_cache path = some p) :
    load_shader fw type path mat g = (p, g) := by
  simp [load_shader, hk, NameMap.subscript]

theorem load_shader_find (fw : Framework) (type : Nat) (path : String) (mat : Ptr)
    (g : GlobalGraphicsResources) :
    NameMap.find (load_shader fw type path mat g).2.m_shader_cache path
      = some (load_shader fw type path mat g).1 := by
  cases h : NameMap.find g.m_shader_cache path with
  | none =>
    simp only [load_shader, h, if_true]
    exact NameMap.find_assign_self _ _ _
  | some p => rw [load_shader_present fw type path mat g p h]; exact h

/-! ### The registry contract -/

/-- C4: when the name `k` is already in the texture map, `create_texture_2d` and
`create_texture_cube` return null and leave the registry as it was (so the entry of `k`
is the very pointer stored before and no entry is added, replaced or removed, and no
object is constructed); likewise `create_framebuffer` when `k` is in the framebuffer map. -/
theorem create_rejects_existing_name (g : GlobalGraphicsResources) (k : String)
    (w h internal_format format type num_samples array_size mip_levels : Nat) :
    (NameMap.find g.m_texture_map k ≠ none →
      create_texture_2d k w h internal_format format type num_samples array_size mip_levels g
        = (none, g) ∧
      create_texture_cube k w h internal_format format type array_size mip_levels g
        = (none, g)) ∧
    (NameMap.find g.m_framebuffer_map k ≠ none → create_framebuffer k g = (none, g)) := by
  refine ⟨fun hk => ⟨?_, ?_⟩, fun hk => ?_⟩
  · exact create_texture_2d_present k w h internal_format format type num_samples array_size
      mip_levels g hk
  · exact create_texture_cube_present k w h internal_format format type array_size
      mip_levels g hk
  · exact create_framebuffer_present k g hk

theorem create_rejects_existing_name_witness :
    (NameMap.find sampleRegistry.m_texture_map "color" ≠ none ∧
      create_texture_2d "color" 4 4 GL_RGB32F GL_RGB GL_FLOAT 1 1 1 sampleRegistry
        = (none, sampleRegistry) ∧
      create_texture_cube "color" 4 4 GL_RGB32F GL_RGB GL_FLOAT 1 1 sampleRegistry
        = (none, sampleRegistry)) ∧
    (NameMap.find sampleRegistry.m_framebuffer_map "fbo" ≠ none ∧
      create_framebuffer "fbo" sampleRegistry = (none, sampleRegistry)) :=
  ⟨⟨by decide,
      (create_rejects_existing_name sampleRegistry "color" 4 4 GL_RGB32F GL_RGB GL_FLOAT
        1 1 1).1 (by decide)⟩,
    ⟨by decide,
      (create_rejects_existing_name sampleRegistry "fbo" 4 4 GL_RGB32F GL_RGB GL_FLOAT
        1 1 1).2 (by decide)⟩⟩

/-- C5: when the name `k` is absent from the texture map, `create_texture_2d` constructs
one new 2D texture with the given parameters, returns its non-null handle, stores it
under `k` (so `lookup_texture k` returns exactly that handle) and leaves the entry of
every other name, and the framebuffer map, unchanged; likewise `create_framebuffer` and
`lookup_framebuffer` for the framebuffer map. -/
theorem create_inserts_absent_name (g : GlobalGraphicsResources) (k : String)
    (w h internal_format format type num_samples array_size mip_levels : Nat) :
    (NameMap.find g.m_texture_map k = none →
      (create_texture_2d k w h internal_format format type num_samples array_size
        mip_levels g).1 = some g.objects.length ∧
      (create_texture_2d k w h internal_format format type num_samples array_size
        mip_levels g).2.objects = g.objects ++
          [Resource.texture2d w h array_size mip_levels num_samples internal_format format
            type] ∧
      (lookup_texture k (create_texture_2d k w h internal_format format type num_samples
        array_size mip_levels g).2).1 = some g.objects.length ∧
      (∀ other, other ≠ k →
        NameMap.find (create_texture_2d k w h internal_format format type num_samples
          array_size mip_levels g).2.m_texture_map other = NameMap.find g.m_texture_map other) ∧
      (create_texture_2d k w h internal_format format type num_samples array_size
        mip_levels g).2.m_framebuffer_map = g.m_framebuffer_map) ∧
    (NameMap.find g.m_framebuffer_map k = none →
      (create_framebuffer k g).1 = some g.objects.length ∧
      (create_framebuffer k g).2.objects = g.objects ++ [Resource.framebuffer] ∧
      (lookup_framebuffer k (create_framebuffer k g).2).1 = some g.objects.length ∧
      (∀ other, other ≠ k →
        NameMap.find (create_framebuffer k g).2.m_framebuffer_map other
          = NameMap.find g.m_framebuffer_map other) ∧
      (create_framebuffer k g).2.m_texture_map = g.m_texture_map) := by
  constructor
  · intro hk
    rw [create_texture_2d_absent k w h internal_format format type num_samples array_size
      mip_levels g hk]
    refine ⟨rfl, rfl, ?_, ?_, rfl⟩
    · rw [lookup_texture_eq]
      simp [NameMap.find_assign_self]
    · intro other ho
      exact NameMap.find_assign_ne _ _ _ _ ho
  · intro hk
    rw [create_framebuffer_absent k g hk]
    refine ⟨rfl, rfl, ?_, ?_, rfl⟩
    · rw [lookup_framebuffer_eq]
      simp [NameMap.find_assign_self]
    · intro other ho
      exact NameMap.find_assign_ne _ _ _ _ ho

theorem create_inserts_absent_name_witness :
    (NameMap.find sampleRegistry.m_texture_map "depth" = none ∧
      (create_texture_2d "depth" 4 4 GL_RGB32F GL_RGB GL_FLOAT 1 1 1 sampleRegistry).1
        = some 3 ∧
      (lookup_texture "depth"
        (create_texture_2d "depth" 4 4 GL_RGB32F GL_RGB GL_FLOAT 1 1 1 sampleRegistry).2).1
        = some 3 ∧
      NameMap.find (create_texture_2d "depth" 4 4 GL_RGB32F GL_RGB GL_FLOAT 1 1 1
        sampleRegistry).2.m_texture_map "color" = some (some 0)) ∧
    (NameMap.find sampleRegistry.m_framebuffer_map "depth" = none ∧
      (create_framebuffer "depth" sampleRegistry).1 = some 3 ∧
      (lookup_framebuffer "depth" (create_framebuffer "depth" sampleRegistry).2).1 = some 3 ∧
      NameMap.find (create_framebuffer "depth" sampleRegistry).2.m_framebuffer_map "fbo"
        = some (some 2)) :=
  have ht := (create_inserts_absent_name sampleRegistry "depth" 4 4 GL_RGB32F GL_RGB GL_FLOAT
    1 1 1).1 (by decide)
  have hf := (create_inserts_absent_name sampleRegistry "depth" 4 4 GL_RGB32F GL_RGB GL_FLOAT
    1 1 1).2 (by decide)
  ⟨⟨by decide, ht.1, ht.2.2.1, (ht.2.2.2.1 "color" (by decide)).trans (by decide)⟩,
    ⟨by decide, hf.1, hf.2.2.1, (hf.2.2.2.1 "fbo" (by decide)).trans (by decide)⟩⟩

/-- C6: from every registry state and for every name `k`, `destroy_texture k` followed by
`create_texture_2d k` succeeds: it constructs one new texture, returns its non-null handle
and that handle is the entry stored under `k`; likewise `destroy_framebuffer k` followed by
`create_framebuffer k`. Hence `MotionBlur::on_window_resized` never dereferences a null
handle: it returns with both of its handles non-null and registered under their names. -/
theorem destroy_then_create_succeeds (g : GlobalGraphicsResources) (k : String)
    (w h internal_format format type num_samples array_size mip_levels : Nat) :
    ((create_texture_2d k w h internal_format format type num_samples array_size mip_levels
        (destroy_texture k g)).1 = some g.objects.length ∧
      (create_texture_2d k w h internal_format format type num_samples array_size mip_levels
        (destroy_texture k g)).2.objects = g.objects ++
          [Resource.texture2d w h array_size mip_levels num_samples internal_format format
            type] ∧
      NameMap.find (create_texture_2d k w h internal_format format type num_samples array_size
        mip_levels (destroy_texture k g)).2.m_texture_map k = some (some g.objects.length)) ∧
    ((create_framebuffer k (destroy_framebuffer k g)).1 = some g.objects.length ∧
      (create_framebuffer k (destroy_framebuffer k g)).2.objects
        = g.objects ++ [Resource.framebuffer] ∧
      NameMap.find (create_framebuffer k (destroy_framebuffer k g)).2.m_framebuffer_map k
        = some (some g.objects.length)) ∧
    (∀ (fb rt : String) (mb : MotionBlur), ∃ g2,
      MotionBlur.on_window_resized fb rt num_samples array_size mip_levels w h mb g
        = some ({ m_motion_blur_rt := some g.objects.length,
                  m_motion_blur_fbo := some (g.objects.length + 1) }, g2) ∧
      NameMap.find g2.m_texture_map rt = some (some g.objects.length) ∧
      NameMap.find g2.m_framebuffer_map fb = some (some (g.objects.length + 1))) := by
  refine ⟨?_, ?_, ?_⟩
  · rw [create_texture_2d_absent k w h internal_format format type num_samples array_size
      mip_levels _ (destroy_texture_find_self k g)]
    refine ⟨?_, ?_, ?_⟩ <;>
      simp [(destroy_texture_objects k g).1, NameMap.find_assign_self]
  · rw [create_framebuffer_absent k _ (destroy_framebuffer_find_self k g)]
    refine ⟨?_, ?_, ?_⟩ <;>
      simp [(destroy_framebuffer_objects k g).1, NameMap.find_assign_self]
  · intro fb rt mb
    have h1 : NameMap.find (destroy_texture rt (destroy_framebuffer fb g)).m_texture_map rt
        = none := destroy_texture_find_self rt _
    have h2 : (destroy_texture rt (destroy_framebuffer fb g)).objects = g.objects := by
      rw [(destroy_texture_objects rt _).1, (destroy_framebuffer_objects fb g).1]
    have h3 : NameMap.find
        (destroy_texture rt (destroy_framebuffer fb g)).m_framebuffer_map fb = none := by
      rw [(destroy_texture_objects rt _).2]
      exact destroy_framebuffer_find_self fb g
    unfold MotionBlur.on_window_resized
    simp only [create_texture_2d_absent rt w h GL_RGB32F GL_RGB GL_FLOAT num_samples
      array_size mip_levels _ h1]
    simp only [create_framebuffer, new_object, h3, if_true, h2, List.length_append,
      List.length_singleton]
    exact ⟨_, rfl, NameMap.find_assign_self _ _ _, NameMap.find_assign_self _ _ _⟩

/-- C7: `destroy_texture` is idempotent. Destroying an absent name leaves the registry
unchanged; destroying a present name releases the stored resource once (one `delete` of
the stored pointer, none if a null pointer was stored), removes exactly that entry (lookup
of the name then returns not-found, every other name keeps its entry) and constructs
nothing; destroying twice gives the same registry as destroying once. The same holds for
`destroy_framebuffer`. -/
theorem destroy_is_idempotent (g : GlobalGraphicsResources) (k : String) :
    ((NameMap.find g.m_texture_map k = none → destroy_texture k g = g) ∧
      (∀ p, NameMap.find g.m_texture_map k = some p →
        (destroy_texture k g).deleted = g.deleted ++ p.toList ∧
        NameMap.find (destroy_texture k g).m_texture_map k = none ∧
        (lookup_texture k (destroy_texture k g)).1 = none ∧
        (∀ other, other ≠ k →
          NameMap.find (destroy_texture k g).m_texture_map other
            = NameMap.find g.m_texture_map other) ∧
        (destroy_texture k g).objects = g.objects ∧
        (destroy_texture k g).m_framebuffer_map = g.m_framebuffer_map) ∧
      destroy_texture k (destroy_texture k g) = destroy_texture k g) ∧
    ((NameMap.find g.m_framebuffer_map k = none → destroy_framebuffer k g = g) ∧
      (∀ p, NameMap.find g.m_framebuffer_map k = some p →
        (destroy_framebuffer k g).deleted = g.deleted ++ p.toList ∧
        NameMap.find (destroy_framebuffer k g).m_framebuffer_map k = none ∧
        (lookup_framebuffer k (destroy_framebuffer k g)).1 = none ∧
        (∀ other, other ≠ k →
          NameMap.find (destroy_framebuffer k g).m_framebuffer_map other
            = NameMap.find g.m_framebuffer_map other) ∧
        (destroy_framebuffer k g).objects = g.objects ∧
        (destroy_framebuffer k g).m_texture_map = g.m_texture_map) ∧
      destroy_framebuffer k (destroy_framebuffer k g) = destroy_framebuffer k g) := by
  refine ⟨⟨destroy_texture_absent k g, ?_, ?_⟩, ⟨destroy_framebuffer_absent k g, ?_, ?_⟩⟩
  · intro p hp
    refine ⟨?_, destroy_texture_find_self k g, ?_, ?_, (destroy_texture_objects k g).1,
      (destroy_texture_objects k g).2⟩
    · rw [destroy_texture_present k g p hp]
    · rw [lookup_texture_eq, destroy_texture_find_self k g]
      rfl
    · intro other ho
      rw [destroy_texture_present k g p hp]
      exact NameMap.find_erase_ne _ _ _ ho
  · exact destroy_texture_absent k _ (destroy_texture_find_self k g)
  · intro p hp
    refine ⟨?_, destroy_framebuffer_find_self k g, ?_, ?_, (destroy_framebuffer_objects k g).1,
      (destroy_framebuffer_objects k g).2⟩
    · rw [destroy_framebuffer_present k g p hp]
    · rw [lookup_framebuffer_eq, destroy_framebuffer_find_self k g]
      rfl
    · intro other ho
      rw [destroy_framebuffer_present k g p hp]
      exact NameMap.find_erase_ne _ _ _ ho
  · exact destroy_framebuffer_absent k _ (destroy_framebuffer_find_self k g)

theorem destroy_is_idempotent_witness :
    (NameMap.find sampleRegistry.m_texture_map "depth" = none ∧
      destroy_texture "depth" sampleRegistry = sampleRegistry) ∧
    (NameMap.find sampleRegistry.m_texture_map "color" = some (some 0) ∧
      (destroy_texture "color" sampleRegistry).deleted = sampleRegistry.deleted ++ [0] ∧
      NameMap.find (destroy_texture "color" sampleRegistry).m_texture_map "color" = none ∧
      NameMap.find (destroy_texture "color" sampleRegistry).m_texture_map "sky"
        = NameMap.find sampleRegistry.m_texture_map "sky") ∧
    (NameMap.find sampleRegistry.m_framebuffer_map "fbo" = some (some 2) ∧
      (destroy_framebuffer "fbo" sampleRegistry).deleted = sampleRegistry.deleted ++ [2] ∧
      NameMap.find (destroy_framebuffer "fbo" sampleRegistry).m_framebuffer_map "fbo" = none) :=
  have ht := (destroy_is_idempotent sampleRegistry "color").1.2.1 (some 0) (by decide)
  have hf := (destroy_is_idempotent sampleRegistry "fbo").2.2.1 (some 2) (by decide)
  ⟨⟨by decide, (destroy_is_idempotent sampleRegistry "depth").1.1 (by decide)⟩,
    ⟨by decide, ht.1, ht.2.1, ht.2.2.2.1 "sky" (by decide)⟩,
    ⟨by decide, hf.1, hf.2.1⟩⟩

/-- C8: `lookup_texture` and `lookup_framebuffer` are pure reads: the registry after the
call is the registry before it (an absent name is not inserted as a null entry), the
result is null when the name is absent and the stored handle when it is present. -/
theorem lookup_is_pure_read (g : GlobalGraphicsResources) (k : String) :
    ((lookup_texture k g).2 = g ∧
      (NameMap.find g.m_texture_map k = none → (lookup_texture k g).1 = none) ∧
      (∀ p, NameMap.find g.m_texture_map k = some p → (lookup_texture k g).1 = p)) ∧
    ((lookup_framebuffer k g).2 = g ∧
      (NameMap.find g.m_framebuffer_map k = none → (lookup_framebuffer k g).1 = none) ∧
      (∀ p, NameMap.find g.m_framebuffer_map k = some p → (lookup_framebuffer k g).1 = p)) := by
  rw [lookup_texture_eq, lookup_framebuffer_eq]
  refine ⟨⟨rfl, ?_, ?_⟩, ⟨rfl, ?_, ?_⟩⟩
  · intro hk
    simp [hk]
  · intro p hk
    simp [hk]
  · intro hk
    simp [hk]
  · intro p hk
    simp [hk]

theorem lookup_is_pure_read_witness :
    ((lookup_texture "depth" sampleRegistry).2 = sampleRegistry ∧
      NameMap.find sampleRegistry.m_texture_map "depth" = none ∧
      (lookup_texture "depth" sampleRegistry).1 = none) ∧
    ((lookup_texture "sky" sampleRegistry).2 = sampleRegistry ∧
      NameMap.find sampleRegistry.m_texture_map "sky" = some (some 1) ∧
      (lookup_texture "sky" sampleRegistry).1 = some 1) ∧
    ((lookup_framebuffer "sky" sampleRegistry).2 = sampleRegistry ∧
      NameMap.find sampleRegistry.m_framebuffer_map "sky" = none ∧
      (lookup_framebuffer "sky" sampleRegistry).1 = none) ∧
    ((lookup_framebuffer "fbo" sampleRegistry).2 = sampleRegistry ∧
      NameMap.find sampleRegistry.m_framebuffer_map "fbo" = some (some 2) ∧
      (lookup_framebuffer "fbo" sampleRegistry).1 = some 2) :=
  ⟨⟨(lookup_is_pure_read sampleRegistry "depth").1.1, by decide,
      (lookup_is_pure_read sampleRegistry "depth").1.2.1 (by decide)⟩,
    ⟨(lookup_is_pure_read sampleRegistry "sky").1.1, by decide,
      (lookup_is_pure_read sampleRegistry "sky").1.2.2 (some 1) (by decide)⟩,
    ⟨(lookup_is_pure_read sampleRegistry "sky").2.1, by decide,
      (lookup_is_pure_read sampleRegistry "sky").2.2.1 (by decide)⟩,
    ⟨(lookup_is_pure_read sampleRegistry "fbo").2.1, by decide,
      (lookup_is_pure_read sampleRegistry "fbo").2.2.2 (some 2) (by decide)⟩⟩

/-- C9: two `load_program` calls with the same key return the same handle, and the
second call leaves the whole registry as the first call left it: the program cache is
unchanged and no object is constructed. Only the first call can construct: when the key
was absent it constructs exactly one program. The same holds for two `load_shader` calls
with the same path (where the one construction happens when the shader file loads). -/
theorem load_twice_returns_cached (fw : Framework) (g : GlobalGraphicsResources)
    (key : String) (count : Nat) (shaders : List Ptr) (type : Nat) (mat : Ptr) :
    (load_program key count shaders (load_program key count shaders g).2
        = ((load_program key count shaders g).1, (load_program key count shaders g).2) ∧
      (NameMap.find g.m_program_cache key = none →
        (load_program key count shaders g).1 = some g.objects.length ∧
        (load_program key count shaders g).2.objects
          = g.objects ++ [Resource.program count shaders])) ∧
    (load_shader fw type key mat (load_shader fw type key mat g).2
        = ((load_shader fw type key mat g).1, (load_shader fw type key mat g).2) ∧
      (NameMap.find g.m_shader_cache key = none →
        fw.shader_file_ok type (fw.path_for_resource ("assets/" ++ key)) = true →
        (load_shader fw type key mat g).1 = some g.objects.length ∧
        (load_shader fw type key mat g).2.objects
          = g.objects ++
            [Resource.shader type (fw.path_for_resource ("assets/" ++ key))])) := by
  refine ⟨⟨?_, ?_⟩, ⟨?_, ?_⟩⟩
  · exact load_program_present key count shaders _ _ (load_program_find key count shaders g)
  · intro hk
    rw [load_program_absent key count shaders g hk]
    exact ⟨rfl, rfl⟩
  · exact load_shader_present fw type key mat _ _ (load_shader_find fw type key mat g)
  · intro hk hok
    simp [load_shader, hk, create_from_file, hok, new_object]

theorem load_twice_returns_cached_witness :
    (NameMap.find sampleRegistry.m_program_cache "a.glslb.glsl" = none ∧
      (load_program "a.glslb.glsl" 2 [some 3, some 4] sampleRegistry).1 = some 3 ∧
      load_program "a.glslb.glsl" 2 [some 3, some 4]
          (load_program "a.glslb.glsl" 2 [some 3, some 4] sampleRegistry).2
        = ((load_program "a.glslb.glsl" 2 [some 3, some 4] sampleRegistry).1,
            (load_program "a.glslb.glsl" 2 [some 3, some 4] sampleRegistry).2)) ∧
    (NameMap.find sampleRegistry.m_shader_cache "a.glsl" = none ∧
      sampleFramework.shader_file_ok 1
        (sampleFramework.path_for_resource ("assets/" ++ "a.glsl")) = true ∧
      (load_shader sampleFramework 1 "a.glsl" none sampleRegistry).1 = some 3 ∧
      load_shader sampleFramework 1 "a.glsl" none
          (load_shader sampleFramework 1 "a.glsl" none sampleRegistry).2
        = ((load_shader sampleFramework 1 "a.glsl" none sampleRegistry).1,
            (load_shader sampleFramework 1 "a.glsl" none sampleRegistry).2)) :=
  have h := load_twice_returns_cached sampleFramework sampleRegistry
  ⟨⟨by decide, ((h "a.glslb.glsl" 2 [some 3, some 4] 1 none).1.2 (by decide)).1,
      (h "a.glslb.glsl" 2 [some 3, some 4] 1 none).1.1⟩,
    ⟨by decide, by decide,
      ((h "a.glsl" 2 [some 3, some 4] 1 none).2.2 (by decide) (by decide)).1,
      (h "a.glsl" 2 [some 3, some 4] 1 none).2.1⟩⟩

/-! ### Visibility bits and culling -/

theorem Entity.is_visible_set_visible_self {S : Type} (e : Entity S) (j : Nat) (hj : j < 64) :
    (e.set_visible j).is_visible j = true := by
  show ((e.visibility ||| 2 ^ j) % 2 ^ 64).testBit j = true
  rw [Nat.testBit_mod_two_pow, Nat.testBit_or, Nat.testBit_two_pow]
  simp [hj]

theorem Entity.is_visible_set_visible_ne {S : Type} (e : Entity S) (j k : Nat) (hj : j < 64)
    (hk : k ≠ j) : (e.set_visible k).is_visible j = e.is_visible j := by
  show ((e.visibility ||| 2 ^ k) % 2 ^ 64).testBit j = e.visibility.testBit j
  rw [Nat.testBit_mod_two_pow, Nat.testBit_or, Nat.testBit_two_pow]
  simp [hj, hk]

theorem Entity.is_visible_set_invisible_ne {S : Type} (e : Entity S) (j k : Nat) (hj : j < 64)
    (hk : k ≠ j) : (e.set_invisible k).is_visible j = e.is_visible j := by
  show ((e.visibility &&& ((2 ^ 64 - 1) ^^^ (2 ^ k % 2 ^ 64))) % 2 ^ 64).testBit j
    = e.visibility.testBit j
  rw [Nat.testBit_mod_two_pow, Nat.testBit_and, Nat.testBit_xor, Nat.testBit_two_pow_sub_one,
    Nat.testBit_mod_two_pow, Nat.testBit_two_pow]
  simp [hj, hk]

theorem cull_view_step_other_bit {S F : Type} (intersects : F → OBB S → Bool)
    (r : Renderer S F) (e : Entity S) (j k : Nat) (hj : j < 64) (hk : k ≠ j) :
    (cull_view_step intersects r e k).is_visible j = e.is_visible j := by
  unfold cull_view_step
  split
  · split
    · exact Entity.is_visible_set_visible_ne e j k hj hk
    · exact Entity.is_visible_set_invisible_ne e j k hj hk
  · exact Entity.is_visible_set_visible_ne e j k hj hk

theorem cull_view_step_unculled {S F : Type} (intersects : F → OBB S → Bool)
    (r : Renderer S F) (e : Entity S) (j : Nat) (hj : j < 64)
    (hc : (r.m_active_views j).m_culling = false) :
    (cull_view_step intersects r e j).is_visible j = true := by
  simp only [cull_view_step, hc]
  exact Entity.is_visible_set_visible_self e j hj

theorem cull_views_loop_unculled {S F : Type} (intersects : F → OBB S → Bool)
    (r : Renderer S F) (j : Nat) (hj : j < 64)
    (hc : (r.m_active_views j).m_culling = false) (n : Nat) :
    ∀ e : Entity S, j < n →
      (((List.range n).foldl (cull_view_step intersects r) e).is_visible j = true) := by
  induction n with
  | zero => intro e h; omega
  | succ n ih =>
    intro e h
    rw [List.range_succ, List.foldl_append]
    simp only [List.foldl_cons, List.foldl_nil]
    by_cases hjn : j = n
    · subst hjn
      exact cull_view_step_unculled intersects r _ j hj hc
    · rw [cull_view_step_other_bit intersects r _ j n hj (Ne.symm hjn)]
      exact ih e (by omega)

theorem cull_entity_step_of_get {S F : Type} (intersects : F → OBB S → Bool)
    (r : Renderer S F) (es : List (Entity S)) (i : Nat) (e : Entity S)
    (h : es[i]? = some e) :
    cull_entity_step intersects r es i = es.set i (cull_entity intersects r e) := by
  simp [cull_entity_step, h]

theorem cull_entity_loop_get {S F : Type} (intersects : F → OBB S → Bool) (r : Renderer S F)
    (es : List (Entity S)) (n : Nat) (hn : n ≤ es.length) :
    ((List.range n).foldl (cull_entity_step intersects r) es).length = es.length ∧
    ∀ k, ((List.range n).foldl (cull_entity_step intersects r) es)[k]?
      = if k < n then (es[k]?).map (cull_entity intersects r) else es[k]? := by
  induction n with
  | zero => simp
  | succ n ih =>
    obtain ⟨hlen, hget⟩ := ih (by omega)
    rw [List.range_succ, List.foldl_append]
    simp only [List.foldl_cons, List.foldl_nil]
    have hn' : n < es.length := by omega
    have hcur : ((List.range n).foldl (cull_entity_step intersects r) es)[n]? = some es[n] := by
      rw [hget n]
      simp [hn']
    rw [cull_entity_step_of_get intersects r _ n _ hcur]
    refine ⟨by simp [hlen], ?_⟩
    intro k
    rw [List.getElem?_set, hlen]
    by_cases hk : n = k
    · subst hk
      simp [hn']
    · rw [if_neg hk, hget k]
      by_cases hkn : k < n
      · have : k < n + 1 := by omega
        simp [hkn, this]
      · have : ¬ k < n + 1 := by omega
        simp [hkn, this]

theorem cull_scene_entities {S F : Type} (intersects : F → OBB S → Bool) (r : Renderer S F)
    (scene : Scene S) (hs : r.m_scene = some scene) :
    (cull_scene intersects r).m_scene
      = some { scene with entities := scene.entities.map (cull_entity intersects r) } := by
  have h := cull_entity_loop_get intersects r scene.entities scene.entities.length (le_refl _)
  have hl : (List.range scene.entities.length).foldl (cull_entity_step intersects r)
      scene.entities = scene.entities.map (cull_entity intersects r) := by
    apply List.ext_getElem?
    intro k
    rw [h.2 k, List.getElem?_map]
    by_cases hk : k < scene.entities.length
    · simp [hk]
    · have : scene.entities[k]? = none := List.getElem?_eq_none (by omega)
      simp [hk, this]
  simp only [cull_scene, hs, hl]

/-- C10: for every scene, every entity index `i` and every active view slot `j` (below the
active view count, which is at most `MAX_VIEWS`) whose view has culling switched off, after
`cull_scene` the visibility bit `j` of entity `i` is set, whatever the transform and the
bounding box of the entity, the frustum cached for the slot and the intersection test. -/
theorem cull_scene_unculled_view_visible {S F : Type} (intersects : F → OBB S → Bool)
    (r : Renderer S F) (scene : Scene S) (i j : Nat) (hs : r.m_scene = some scene)
    (hcap : r.m_num_active_views ≤ MAX_VIEWS) (hi : i < scene.entities.length)
    (hj : j < r.m_num_active_views) (hc : (r.m_active_views j).m_culling = false) :
    ∃ scene2 entity2, (cull_scene intersects r).m_scene = some scene2 ∧
      scene2.entities.length = scene.entities.length ∧
      scene2.entities[i]? = some entity2 ∧
      entity2.is_visible j = true := by
  have hj64 : j < 64 := by unfold MAX_VIEWS at hcap; omega
  refine ⟨_, cull_entity intersects r scene.entities[i],
    cull_scene_entities intersects r scene hs, by simp, by simp [hi], ?_⟩
  exact cull_views_loop_unculled intersects r j hj64 hc r.m_num_active_views _ hj

theorem threeViewRenderer_count : threeViewRenderer.m_num_active_views = 3 := by
  simp [threeViewRenderer, queue_views, queue_view, MAX_VIEWS, sampleRenderer]

theorem cull_scene_unculled_view_visible_witness :
    threeViewRenderer.m_scene = some sampleScene ∧
    threeViewRenderer.m_num_active_views ≤ MAX_VIEWS ∧
    1 < sampleScene.entities.length ∧
    1 < threeViewRenderer.m_num_active_views ∧
    (threeViewRenderer.m_active_views 1).m_culling = false ∧
    ∃ scene2 entity2, (cull_scene neverIntersects threeViewRenderer).m_scene = some scene2 ∧
      scene2.entities.length = sampleScene.entities.length ∧
      scene2.entities[1]? = some entity2 ∧
      entity2.is_visible 1 = true :=
  ⟨rfl, by rw [threeViewRenderer_count]; decide, by decide,
    by rw [threeViewRenderer_count]; decide, rfl,
    cull_scene_unculled_view_visible neverIntersects threeViewRenderer
      sampleScene 1 1 rfl
      (by rw [threeViewRenderer_count]; decide) (by decide)
      (by rw [threeViewRenderer_count]; decide) rfl⟩

/-! ### Culling views: the refreshed box and the intersection test -/

theorem Entity.is_visible_set_invisible_self {S : Type} (e : Entity S) (j : Nat) :
    (e.set_invisible j).is_visible j = false := by
  show ((e.visibility &&& ((2 ^ 64 - 1) ^^^ (2 ^ j % 2 ^ 64))) % 2 ^ 64).testBit j = false
  rw [Nat.testBit_mod_two_pow, Nat.testBit_and, Nat.testBit_xor, Nat.testBit_two_pow_sub_one,
    Nat.testBit_mod_two_pow, Nat.testBit_two_pow]
  simp

theorem cull_view_step_obb {S F : Type} (intersects : F → OBB S → Bool) (r : Renderer S F)
    (e : Entity S) (j : Nat) :
    (cull_view_step intersects r e j).obb = e.obb ∧
    (cull_view_step intersects r e j).transform = e.transform := by
  unfold cull_view_step
  split
  · split <;> exact ⟨rfl, rfl⟩
  · exact ⟨rfl, rfl⟩

theorem cull_views_loop_obb {S F : Type} (intersects : F → OBB S → Bool) (r : Renderer S F)
    (n : Nat) (e : Entity S) :
    ((List.range n).foldl (cull_view_step intersects r) e).obb = e.obb ∧
    ((List.range n).foldl (cull_view_step intersects r) e).transform = e.transform := by
  induction n with
  | zero => exact ⟨rfl, rfl⟩
  | succ n ih =>
    rw [List.range_succ, List.foldl_append]
    simp only [List.foldl_cons, List.foldl_nil]
    have h := cull_view_step_obb intersects r
      ((List.range n).foldl (cull_view_step intersects r) e) n
    exact ⟨h.1.trans ih.1, h.2.trans ih.2⟩

theorem cull_view_step_culled {S F : Type} (intersects : F → OBB S → Bool)
    (r : Renderer S F) (e : Entity S) (j : Nat) (hj : j < 64)
    (hc : (r.m_active_views j).m_culling = true) :
    (cull_view_step intersects r e j).is_visible j = intersects (r.m_active_frustums j) e.obb := by
  simp only [cull_view_step, hc, if_true]
  cases h : intersects (r.m_active_frustums j) e.obb with
  | true => simpa using Entity.is_visible_set_visible_self e j hj
  | false => simpa using Entity.is_visible_set_invisible_self e j

theorem cull_views_loop_culled {S F : Type} (intersects : F → OBB S → Bool)
    (r : Renderer S F) (j : Nat) (hj : j < 64)
    (hc : (r.m_active_views j).m_culling = true) (n : Nat) (e : Entity S) (hn : j < n) :
    ((List.range n).foldl (cull_view_step intersects r) e).is_visible j
      = intersects (r.m_active_frustums j) e.obb := by
  induction n with
  | zero => omega
  | succ n ih =>
    rw [List.range_succ, List.foldl_append]
    simp only [List.foldl_cons, List.foldl_nil]
    by_cases hjn : j = n
    · subst hjn
      rw [cull_view_step_culled intersects r _ j hj hc, (cull_views_loop_obb intersects r j e).1]
    · rw [cull_view_step_other_bit intersects r _ j n hj (Ne.symm hjn)]
      exact ih (by omega)

theorem cull_entity_obb {S F : Type} (intersects : F → OBB S → Bool) (r : Renderer S F)
    (e : Entity S) :
    (cull_entity intersects r e).obb =
      { e.obb with
        position := e.transform.position
        orientation := Mat3.ofMat4 e.transform.model } ∧
    (cull_entity intersects r e).transform = e.transform := by
  unfold cull_entity cull_entity_views
  exact cull_views_loop_obb intersects r _ _

theorem cull_entity_culled_bit {S F : Type} (intersects : F → OBB S → Bool)
    (r : Renderer S F) (e : Entity S) (j : Nat) (hj64 : j < 64)
    (hj : j < r.m_num_active_views) (hc : (r.m_active_views j).m_culling = true) :
    (cull_entity intersects r e).is_visible j
      = intersects (r.m_active_frustums j) (cull_entity intersects r e).obb := by
  rw [(cull_entity_obb intersects r e).1]
  unfold cull_entity cull_entity_views
  exact cull_views_loop_culled intersects r j hj64 hc _ _ hj

theorem cull_scene_get {S F : Type} (intersects : F → OBB S → Bool) (r : Renderer S F)
    (scene : Scene S) (hs : r.m_scene = some scene) (i : Nat) (e : Entity S)
    (he : scene.entities[i]? = some e) :
    ∃ scene2, (cull_scene intersects r).m_scene = some scene2 ∧
      scene2.entities.length = scene.entities.length ∧
      scene2.entities[i]? = some (cull_entity intersects r e) :=
  ⟨_, cull_scene_entities intersects r scene hs, by simp, by simp [he]⟩

/-- C19: for every scene, entity `i` and active view slot `j` whose view has culling
switched on, after `cull_scene` the bounding box of the entity has its centre at the
entity's current world position and its orientation equal to the upper 3×3 block of the
model matrix (extents and transform untouched), and visibility bit `j` of the entity is
the result of `intersects` applied to the frustum cached for slot `j` and that refreshed
box. -/
theorem cull_scene_culled_view_bit {S F : Type} (intersects : F → OBB S → Bool)
    (r : Renderer S F) (scene : Scene S) (i j : Nat) (e : Entity S)
    (hs : r.m_scene = some scene) (hcap : r.m_num_active_views ≤ MAX_VIEWS)
    (he : scene.entities[i]? = some e) (hj : j < r.m_num_active_views)
    (hc : (r.m_active_views j).m_culling = true) :
    ∃ scene2 e2, (cull_scene intersects r).m_scene = some scene2 ∧
      scene2.entities[i]? = some e2 ∧
      e2.obb.position = e.transform.position ∧
      e2.obb.orientation = Mat3.ofMat4 e.transform.model ∧
      e2.obb.min = e.obb.min ∧ e2.obb.max = e.obb.max ∧
      e2.transform = e.transform ∧
      e2.is_visible j = intersects (r.m_active_frustums j) e2.obb := by
  have hj64 : j < 64 := by unfold MAX_VIEWS at hcap; omega
  obtain ⟨scene2, h1, _, h3⟩ := cull_scene_get intersects r scene hs i e he
  have hobb := cull_entity_obb intersects r e
  refine ⟨scene2, _, h1, h3, ?_, ?_, ?_, ?_, hobb.2,
    cull_entity_culled_bit intersects r e j hj64 hj hc⟩ <;> rw [hobb.1]

theorem cull_scene_culled_view_bit_witness :
    threeViewRenderer.m_scene = some sampleScene ∧
    threeViewRenderer.m_num_active_views ≤ MAX_VIEWS ∧
    sampleScene.entities[0]? = some (sampleEntity 5) ∧
    2 < threeViewRenderer.m_num_active_views ∧
    (threeViewRenderer.m_active_views 2).m_culling = true ∧
    ∃ scene2 e2, (cull_scene centredAtFive threeViewRenderer).m_scene = some scene2 ∧
      scene2.entities[0]? = some e2 ∧
      e2.obb.position = (sampleEntity 5).transform.position ∧
      e2.obb.orientation = Mat3.ofMat4 (sampleEntity 5).transform.model ∧
      e2.obb.min = (sampleEntity 5).obb.min ∧ e2.obb.max = (sampleEntity 5).obb.max ∧
      e2.transform = (sampleEntity 5).transform ∧
      e2.is_visible 2 = centredAtFive (threeViewRenderer.m_active_frustums 2) e2.obb :=
  ⟨rfl, by rw [threeViewRenderer_count]; decide, rfl,
    by rw [threeViewRenderer_count]; decide, rfl,
    cull_scene_culled_view_bit centredAtFive threeViewRenderer sampleScene 0 2
      (sampleEntity 5) rfl (by rw [threeViewRenderer_count]; decide) rfl
      (by rw [threeViewRenderer_count]; decide) rfl⟩

/-! ### The plane/box test against the corners of the box -/

theorem side_sign_mul_le_abs {S : Type} [LinearOrderedField S] (b : Bool) (t : S) :
    side_sign b * t ≤ |t| := by
  cases b
  · simpa [side_sign] using neg_le_abs t
  · simpa [side_sign] using le_abs_self t

theorem side_sign_mul_eq_abs {S : Type} [LinearOrderedField S] (t : S) :
    side_sign (decide (0 ≤ t)) * t = |t| := by
  by_cases h : 0 ≤ t
  · simp [side_sign, h, abs_of_nonneg h]
  · have h2 : t < 0 := lt_of_not_le h
    simp [side_sign, h, abs_of_neg h2]

theorem corner_signed_distance {S : Type} [LinearOrderedField S] (p : Plane S) (obb : OBB S)
    (s0 s1 s2 : Bool) :
    p.signed_distance (obb.corner s0 s1 s2) =
      p.signed_distance obb.position +
        (side_sign s0 * (obb.half_extents.x * Vec3.dot p.n obb.orientation.c0) +
          side_sign s1 * (obb.half_extents.y * Vec3.dot p.n obb.orientation.c1) +
          side_sign s2 * (obb.half_extents.z * Vec3.dot p.n obb.orientation.c2)) := by
  simp only [Plane.signed_distance, OBB.corner, Vec3.dot, Vec3.add, Vec3.smul]
  ring

theorem plane_outside_iff {S : Type} [LinearOrderedField S] (p : Plane S) (obb : OBB S) :
    p.signed_distance obb.position < -(obb.projected_radius p.n) ↔
      ∀ s0 s1 s2, p.signed_distance (obb.corner s0 s1 s2) < 0 := by
  constructor
  · intro h s0 s1 s2
    rw [corner_signed_distance]
    have h0 := side_sign_mul_le_abs s0 (obb.half_extents.x * Vec3.dot p.n obb.orientation.c0)
    have h1 := side_sign_mul_le_abs s1 (obb.half_extents.y * Vec3.dot p.n obb.orientation.c1)
    have h2 := side_sign_mul_le_abs s2 (obb.half_extents.z * Vec3.dot p.n obb.orientation.c2)
    unfold OBB.projected_radius at h
    linarith
  · intro h
    have hc := h
      (decide (0 ≤ obb.half_extents.x * Vec3.dot p.n obb.orientation.c0))
      (decide (0 ≤ obb.half_extents.y * Vec3.dot p.n obb.orientation.c1))
      (decide (0 ≤ obb.half_extents.z * Vec3.dot p.n obb.orientation.c2))
    rw [corner_signed_distance, side_sign_mul_eq_abs, side_sign_mul_eq_abs,
      side_sign_mul_eq_abs] at hc
    unfold OBB.projected_radius
    linarith

theorem intersects_obb_eq_true_iff {S : Type} [LinearOrderedField S] (f : Frustum S)
    (obb : OBB S) :
    intersects_obb f obb = true ↔
      ∀ p : Fin 6, ∃ s0 s1 s2, 0 ≤ (f.planes p).signed_distance (obb.corner s0 s1 s2) := by
  unfold intersects_obb
  rw [List.all_eq_true]
  constructor
  · intro h p
    have hp := h p (List.mem_finRange p)
    simp only [Bool.not_eq_true', decide_eq_false_iff_not] at hp
    rw [plane_outside_iff] at hp
    push_neg at hp
    exact hp
  · intro h p _
    simp only [Bool.not_eq_true', decide_eq_false_iff_not]
    rw [plane_outside_iff]
    push_neg
    exact h p

theorem intersects_obb_eq_false_iff {S : Type} [LinearOrderedField S] (f : Frustum S)
    (obb : OBB S) :
    intersects_obb f obb = false ↔
      ∃ p : Fin 6, ∀ s0 s1 s2, (f.planes p).signed_distance (obb.corner s0 s1 s2) < 0 := by
  rw [← Bool.not_eq_true, intersects_obb_eq_true_iff]
  push_neg
  rfl

/-- C11: with the frustum/box test of the culling engine (modelled from the spec over
exact arithmetic), for every entity and every active view slot `j` with culling switched
on, after `cull_scene` the entity carries its refreshed box and: if all eight corners of
that box are on the negative side of one of the six planes of the frustum cached for the
slot, visibility bit `j` is off; if for each of the six planes some corner of the box is
on the plane or on its positive side (the box intersects, touches or lies inside every
half-space), bit `j` is on. -/
theorem cull_scene_frustum_planes {S : Type} [LinearOrderedField S]
    (r : Renderer S (Frustum S)) (scene : Scene S) (i j : Nat) (e : Entity S)
    (hs : r.m_scene = some scene) (hcap : r.m_num_active_views ≤ MAX_VIEWS)
    (he : scene.entities[i]? = some e) (hj : j < r.m_num_active_views)
    (hc : (r.m_active_views j).m_culling = true) :
    ∃ scene2 e2, (cull_scene intersects_obb r).m_scene = some scene2 ∧
      scene2.entities[i]? = some e2 ∧
      e2.obb = e.refreshed_obb ∧
      ((∃ p : Fin 6, ∀ s0 s1 s2,
          ((r.m_active_frustums j).planes p).signed_distance
            (e.refreshed_obb.corner s0 s1 s2) < 0) →
        e2.is_visible j = false) ∧
      ((∀ p : Fin 6, ∃ s0 s1 s2,
          0 ≤ ((r.m_active_frustums j).planes p).signed_distance
            (e.refreshed_obb.corner s0 s1 s2)) →
        e2.is_visible j = true) := by
  have hj64 : j < 64 := by unfold MAX_VIEWS at hcap; omega
  obtain ⟨scene2, h1, _, h3⟩ := cull_scene_get intersects_obb r scene hs i e he
  have hobb : (cull_entity intersects_obb r e).obb = e.refreshed_obb :=
    (cull_entity_obb intersects_obb r e).1
  have hbit := cull_entity_culled_bit intersects_obb r e j hj64 hj hc
  rw [hobb] at hbit
  refine ⟨scene2, _, h1, h3, hobb, ?_, ?_⟩
  · intro hout
    rw [hbit]
    exact (intersects_obb_eq_false_iff _ _).2 hout
  · intro hin
    rw [hbit]
    exact (intersects_obb_eq_true_iff _ _).2 hin

theorem cubeScene_far_box_outside :
    ∃ p : Fin 6, ∀ s0 s1 s2,
      ((cubeRenderer.m_active_frustums 0).planes p).signed_distance
        ((boxEntity 20).refreshed_obb.corner s0 s1 s2) < 0 := by
  refine ⟨1, ?_⟩
  intro s0 s1 s2
  cases s0 <;> cases s1 <;> cases s2 <;>
    norm_num [cubeRenderer, cubeFrustum, Plane.signed_distance, Entity.refreshed_obb,
      boxEntity, OBB.corner, OBB.half_extents, Vec3.dot, Vec3.add, Vec3.smul, side_sign,
      Mat3.ofMat4, Mat4.diag]

theorem cubeScene_touching_box_inside :
    ∀ p : Fin 6, ∃ s0 s1 s2,
      0 ≤ ((cubeRenderer.m_active_frustums 0).planes p).signed_distance
        ((boxEntity 11).refreshed_obb.corner s0 s1 s2) := by
  intro p
  refine ⟨false, false, false, ?_⟩
  fin_cases p <;>
    norm_num [cubeRenderer, cubeFrustum, Plane.signed_distance, Entity.refreshed_obb,
      boxEntity, OBB.corner, OBB.half_extents, Vec3.dot, Vec3.add, Vec3.smul, side_sign,
      Mat3.ofMat4, Mat4.diag]

theorem cull_scene_frustum_planes_witness :
    (cubeRenderer.m_scene = some cubeScene ∧ cubeRenderer.m_num_active_views ≤ MAX_VIEWS ∧
      0 < cubeRenderer.m_num_active_views ∧
      (cubeRenderer.m_active_views 0).m_culling = true) ∧
    (cubeScene.entities[1]? = some (boxEntity 20) ∧
      ∃ scene2 e2, (cull_scene intersects_obb cubeRenderer).m_scene = some scene2 ∧
        scene2.entities[1]? = some e2 ∧ e2.is_visible 0 = false) ∧
    (cubeScene.entities[2]? = some (boxEntity 11) ∧
      ∃ scene2 e2, (cull_scene intersects_obb cubeRenderer).m_scene = some scene2 ∧
        scene2.entities[2]? = some e2 ∧ e2.is_visible 0 = true) := by
  refine ⟨⟨rfl, by decide, by decide, rfl⟩, ⟨rfl, ?_⟩, ⟨rfl, ?_⟩⟩
  · obtain ⟨scene2, e2, h1, h2, _, hout, _⟩ :=
      cull_scene_frustum_planes cubeRenderer cubeScene 1 0 (boxEntity 20) rfl (by decide) rfl
        (by decide) rfl
    exact ⟨scene2, e2, h1, h2, hout cubeScene_far_box_outside⟩
  · obtain ⟨scene2, e2, h1, h2, _, _, hin⟩ :=
      cull_scene_frustum_planes cubeRenderer cubeScene 2 0 (boxEntity 11) rfl (by decide) rfl
        (by decide) rfl
    exact ⟨scene2, e2, h1, h2, hin cubeScene_touching_box_inside⟩

/-! ### Uniform synchronisation -/

theorem store_records_loop {B : Type} (src : Nat → Option B) (records : Nat → B) (n : Nat) :
    (store_records n src records).2 = (List.range n).filter (fun i => (src i).isSome) ∧
    ∀ k, (store_records n src records).1 k
      = if k < n then (src k).getD (records k) else records k := by
  unfold store_records
  induction n with
  | zero => simp
  | succ n ih =>
    obtain ⟨hlog, hget⟩ := ih
    rw [List.range_succ, List.foldl_append]
    simp only [List.foldl_cons, List.foldl_nil, List.filter_append]
    cases hsrc : src n with
    | none =>
      refine ⟨by simp [hlog, hsrc], ?_⟩
      intro k
      rw [hget k]
      by_cases hk : k < n
      · have : k < n + 1 := by omega
        simp [hk, this]
      · by_cases hkn : k = n
        · subst hkn
          simp [hsrc]
        · have : ¬ k < n + 1 := by omega
          simp [hk, this]
    | some b =>
      refine ⟨by simp [hlog, hsrc], ?_⟩
      intro k
      by_cases hkn : k = n
      · subst hkn
        simp [hsrc]
      · simp only [Function.update, hkn, dite_false]
        rw [hget k]
        by_cases hk : k < n
        · have : k < n + 1 := by omega
          simp [hk, this]
        · have : ¬ k < n + 1 := by omega
          simp [hk, this]

theorem store_records_list {A B : Type} (f : A → B) (l : List A) (records : Nat → B) :
    (store_records l.length (fun i => (l[i]?).map f) records).2 = List.range l.length ∧
    ∀ k a, l[k]? = some a →
      (store_records l.length (fun i => (l[i]?).map f) records).1 k = f a := by
  have h := store_records_loop (fun i => (l[i]?).map f) records l.length
  refine ⟨?_, ?_⟩
  · rw [h.1]
    apply List.filter_eq_self.2
    intro i hi
    have hlt : i < l.length := List.mem_range.1 hi
    simp [hlt]
  · intro k a hk
    have hlt : k < l.length := by
      by_contra hcon
      rw [List.getElem?_eq_none (by omega)] at hk
      exact Option.noConfusion hk
    rw [h.2 k]
    simp [hlt, hk]

theorem store_records_total {B : Type} (src : Nat → B) (records : Nat → B) (n : Nat) :
    (store_records n (fun i => some (src i)) records).2 = List.range n ∧
    ∀ k, k < n → (store_records n (fun i => some (src i)) records).1 k = src k := by
  have h := store_records_loop (fun i => some (src i)) records n
  refine ⟨?_, ?_⟩
  · rw [h.1]
    apply List.filter_eq_self.2
    intro i _
    rfl
  · intro k hk
    rw [h.2 k]
    simp [hk]

theorem update_uniforms_of_scene {S F : Type} [Zero S] (forward : Transform S → Vec3 S)
    (sizes : UniformSizes) (r : Renderer S F) (scene : Scene S)
    (hs : r.m_scene = some scene) :
    (update_uniforms forward sizes r).2.per_entity_writes = List.range scene.entities.length ∧
    (update_uniforms forward sizes r).2.per_entity_bytes
      = sizes.sizeof_PerEntityUniforms * scene.entities.length ∧
    (update_uniforms forward sizes r).2.per_view_writes = List.range r.m_num_active_views ∧
    (update_uniforms forward sizes r).2.per_view_bytes
      = sizes.sizeof_PerViewUniforms * r.m_num_active_views ∧
    (update_uniforms forward sizes r).2.directional_writes
      = List.range scene.directional_lights.length ∧
    (update_uniforms forward sizes r).2.spot_writes = List.range scene.spot_lights.length ∧
    (update_uniforms forward sizes r).2.point_writes = List.range scene.point_lights.length := by
  simp only [update_uniforms, hs]
  exact ⟨(store_records_list _ _ _).1, trivial, (store_records_total _ _ _).1, trivial,
    (store_records_list _ _ _).1, (store_records_list _ _ _).1, (store_records_list _ _ _).1⟩

theorem update_uniforms_counts {S F : Type} [Zero S] (forward : Transform S → Vec3 S)
    (sizes : UniformSizes) (r : Renderer S F) (scene : Scene S)
    (hs : r.m_scene = some scene) :
    (update_uniforms forward sizes r).1.m_per_scene_uniforms.directional_light_count
      = scene.directional_lights.length ∧
    (update_uniforms forward sizes r).1.m_per_scene_uniforms.spot_light_count
      = scene.spot_lights.length ∧
    (update_uniforms forward sizes r).1.m_per_scene_uniforms.point_light_count
      = scene.point_lights.length ∧
    (update_uniforms forward sizes r).1.m_num_active_views = r.m_num_active_views ∧
    (update_uniforms forward sizes r).1.m_active_views = r.m_active_views ∧
    (update_uniforms forward sizes r).1.m_scene = r.m_scene := by
  simp [update_uniforms, hs]

theorem update_uniforms_frame {S F : Type} [Zero S] (forward : Transform S → Vec3 S)
    (sizes : UniformSizes) (r : Renderer S F) :
    (update_uniforms forward sizes r).1.m_num_active_views = r.m_num_active_views ∧
    (update_uniforms forward sizes r).1.m_active_views = r.m_active_views ∧
    (update_uniforms forward sizes r).1.m_scene = r.m_scene := by
  cases hs : r.m_scene with
  | none => simp [update_uniforms, hs]
  | some scene =>
    have h := update_uniforms_counts forward sizes r scene hs
    exact ⟨h.2.2.2.1, h.2.2.2.2.1, h.2.2.2.2.2.trans hs⟩

theorem overfullScene_length : overfullScene.entities.length = 1025 :=
  List.length_replicate 1025 (sampleEntity 0)

theorem overfullRenderer_upload :
    (update_uniforms sampleForward sampleSizes overfullRenderer).2.per_entity_writes
      = List.range 1025 ∧
    (update_uniforms sampleForward sampleSizes overfullRenderer).2.per_entity_bytes
      = 144 * 1025 := by
  have h := update_uniforms_of_scene sampleForward sampleSizes overfullRenderer overfullScene rfl
  rw [overfullScene_length] at h
  exact ⟨h.1, h.2.1⟩

/-- Counterexample to C12: for a scene with 1025 entities `update_uniforms` writes staging
index 1024 and copies 1025 records, more than the 1024 records the per-entity buffer was
created for; nothing is clamped. -/
theorem update_uniforms_entities_not_clamped :
    overfullRenderer.m_scene = some overfullScene ∧
    overfullScene.entities.length = 1025 ∧
    1024 ∈ (update_uniforms sampleForward sampleSizes overfullRenderer).2.per_entity_writes ∧
    ¬ (∀ i ∈ (update_uniforms sampleForward sampleSizes overfullRenderer).2.per_entity_writes,
        i < 1024) ∧
    ¬ ((update_uniforms sampleForward sampleSizes overfullRenderer).2.per_entity_bytes
        ≤ 1024 * sampleSizes.sizeof_PerEntityUniforms) := by
  have hmem : 1024 ∈
      (update_uniforms sampleForward sampleSizes overfullRenderer).2.per_entity_writes := by
    rw [overfullRenderer_upload.1]
    exact List.mem_range.2 (by decide)
  refine ⟨rfl, overfullScene_length, hmem, ?_, ?_⟩
  · intro hall
    exact absurd (hall 1024 hmem) (by decide)
  · rw [overfullRenderer_upload.2]
    decide

/-- C12 (amended): `update_uniforms` writes one per-entity record per entity of the scene,
at the staging indices `0 .. entity_count - 1` in order, and copies `entity_count` records
(`entity_count × sizeof(PerEntityUniforms)` bytes) into the per-entity buffer, without
clamping. Hence, when `entity_count ≤ 1024`, every index written is below 1024 and the
copy stays within `1024 × sizeof(PerEntityUniforms)` bytes. -/
theorem update_uniforms_per_entity_bounds {S F : Type} [Zero S]
    (forward : Transform S → Vec3 S) (sizes : UniformSizes) (r : Renderer S F)
    (scene : Scene S) (hs : r.m_scene = some scene) :
    (update_uniforms forward sizes r).2.per_entity_writes = List.range scene.entities.length ∧
    (update_uniforms forward sizes r).2.per_entity_bytes
      = sizes.sizeof_PerEntityUniforms * scene.entities.length ∧
    (scene.entities.length ≤ 1024 →
      (∀ i ∈ (update_uniforms forward sizes r).2.per_entity_writes, i < 1024) ∧
      (update_uniforms forward sizes r).2.per_entity_bytes
        ≤ 1024 * sizes.sizeof_PerEntityUniforms) := by
  have h := update_uniforms_of_scene forward sizes r scene hs
  refine ⟨h.1, h.2.1, ?_⟩
  intro hle
  rw [h.1, h.2.1]
  refine ⟨?_, ?_⟩
  · intro i hi
    have := List.mem_range.1 hi
    omega
  · rw [Nat.mul_comm 1024]
    exact Nat.mul_le_mul_left _ hle

theorem update_uniforms_per_entity_bounds_witness :
    sampleRenderer.m_scene = some sampleScene ∧
    sampleScene.entities.length ≤ 1024 ∧
    (update_uniforms sampleForward sampleSizes sampleRenderer).2.per_entity_writes
      = List.range sampleScene.entities.length ∧
    (∀ i ∈ (update_uniforms sampleForward sampleSizes sampleRenderer).2.per_entity_writes,
      i < 1024) ∧
    (update_uniforms sampleForward sampleSizes sampleRenderer).2.per_entity_bytes
      ≤ 1024 * sampleSizes.sizeof_PerEntityUniforms :=
  have h := update_uniforms_per_entity_bounds sampleForward sampleSizes sampleRenderer
    sampleScene rfl
  ⟨rfl, by decide, h.1, (h.2.2 (by decide)).1, (h.2.2 (by decide)).2⟩

theorem litRenderer_upload (n : Nat) :
    (update_uniforms sampleForward sampleSizes (litRenderer n)).2.directional_writes
      = List.range n ∧
    (update_uniforms sampleForward sampleSizes (litRenderer n)).2.spot_writes = List.range n ∧
    (update_uniforms sampleForward sampleSizes (litRenderer n)).2.point_writes
      = List.range n := by
  have h := update_uniforms_of_scene sampleForward sampleSizes (litRenderer n) (litScene n) rfl
  have hd : (litScene n).directional_lights.length = n := List.length_replicate _ _
  have hsp : (litScene n).spot_lights.length = n := List.length_replicate _ _
  have hp : (litScene n).point_lights.length = n := List.length_replicate _ _
  rw [hd, hsp, hp] at h
  exact ⟨h.2.2.2.2.1, h.2.2.2.2.2.1, h.2.2.2.2.2.2⟩

/-- Counterexample to C14: no capacity bounds the light indices that `update_uniforms`
writes. For a scene with 9 lights of each category the indices 0..8 are written in all
three arrays (index 8 included), and for every capacity `cap` the scene with `cap + 1`
directional lights makes it write index `cap`: the population is never truncated. -/
theorem update_uniforms_lights_not_truncated :
    ((update_uniforms sampleForward sampleSizes (litRenderer 9)).2.directional_writes
        = [0, 1, 2, 3, 4, 5, 6, 7, 8] ∧
      (update_uniforms sampleForward sampleSizes (litRenderer 9)).2.spot_writes
        = [0, 1, 2, 3, 4, 5, 6, 7, 8] ∧
      (update_uniforms sampleForward sampleSizes (litRenderer 9)).2.point_writes
        = [0, 1, 2, 3, 4, 5, 6, 7, 8]) ∧
    ¬ ∃ cap : Nat, ∀ n : Nat,
      ∀ i ∈ (update_uniforms sampleForward sampleSizes (litRenderer n)).2.directional_writes,
        i < cap := by
  refine ⟨?_, ?_⟩
  · have h := litRenderer_upload 9
    rw [h.1, h.2.1, h.2.2]
    exact ⟨by decide, by decide, by decide⟩
  · rintro ⟨cap, hcap⟩
    have hmem : cap ∈
        (update_uniforms sampleForward sampleSizes (litRenderer (cap + 1))).2.directional_writes := by
      rw [(litRenderer_upload (cap + 1)).1]
      exact List.mem_range.2 (Nat.lt_succ_self cap)
    exact absurd (hcap (cap + 1) cap hmem) (Nat.lt_irrefl cap)

/-- C14 (amended): for each light category (directional, spot, point) `update_uniforms`
copies every light of the scene, one record per light at the indices `0 .. count - 1` in
order, without truncation, and the count stored in the per-scene structure is the number of
lights of the scene, which is the number of records populated. Hence, when the scene holds
at most `cap` lights of a category, no index at or beyond `cap` is written for it. -/
theorem update_uniforms_light_population {S F : Type} [Zero S]
    (forward : Transform S → Vec3 S) (sizes : UniformSizes) (r : Renderer S F)
    (scene : Scene S) (cap_directional cap_spot cap_point : Nat)
    (hs : r.m_scene = some scene) :
    ((update_uniforms forward sizes r).2.directional_writes
        = List.range scene.directional_lights.length ∧
      (update_uniforms forward sizes r).1.m_per_scene_uniforms.directional_light_count
        = (update_uniforms forward sizes r).2.directional_writes.length ∧
      (scene.directional_lights.length ≤ cap_directional →
        ∀ i ∈ (update_uniforms forward sizes r).2.directional_writes, i < cap_directional)) ∧
    ((update_uniforms forward sizes r).2.spot_writes = List.range scene.spot_lights.length ∧
      (update_uniforms forward sizes r).1.m_per_scene_uniforms.spot_light_count
        = (update_uniforms forward sizes r).2.spot_writes.length ∧
      (scene.spot_lights.length ≤ cap_spot →
        ∀ i ∈ (update_uniforms forward sizes r).2.spot_writes, i < cap_spot)) ∧
    ((update_uniforms forward sizes r).2.point_writes = List.range scene.point_lights.length ∧
      (update_uniforms forward sizes r).1.m_per_scene_uniforms.point_light_count
        = (update_uniforms forward sizes r).2.point_writes.length ∧
      (scene.point_lights.length ≤ cap_point →
        ∀ i ∈ (update_uniforms forward sizes r).2.point_writes, i < cap_point)) := by
  have h := update_uniforms_of_scene forward sizes r scene hs
  have hc := update_uniforms_counts forward sizes r scene hs
  obtain ⟨_, _, _, _, hd, hsp, hp⟩ := h
  obtain ⟨cd, csp, cp, _⟩ := hc
  rw [hd, hsp, hp, cd, csp, cp]
  simp only [List.length_range, true_and]
  refine ⟨?_, ?_, ?_⟩ <;>
  · intro hle i hi
    have := List.mem_range.1 hi
    omega

theorem update_uniforms_light_population_witness :
    (litRenderer 3).m_scene = some (litScene 3) ∧
    ((litScene 3).directional_lights.length ≤ 8 ∧
      (update_uniforms sampleForward sampleSizes (litRenderer 3)).1.m_per_scene_uniforms.directional_light_count
        = (update_uniforms sampleForward sampleSizes (litRenderer 3)).2.directional_writes.length ∧
      ∀ i ∈ (update_uniforms sampleForward sampleSizes (litRenderer 3)).2.directional_writes,
        i < 8) ∧
    ((litScene 3).spot_lights.length ≤ 8 ∧
      ∀ i ∈ (update_uniforms sampleForward sampleSizes (litRenderer 3)).2.spot_writes, i < 8) ∧
    ((litScene 3).point_lights.length ≤ 8 ∧
      ∀ i ∈ (update_uniforms sampleForward sampleSizes (litRenderer 3)).2.point_writes, i < 8) :=
  have h := update_uniforms_light_population sampleForward sampleSizes (litRenderer 3)
    (litScene 3) 8 8 8 rfl
  ⟨rfl, ⟨by decide, h.1.2.1, h.1.2.2 (by decide)⟩, ⟨by decide, h.2.1.2.2 (by decide)⟩,
    ⟨by decide, h.2.2.2.2 (by decide)⟩⟩

theorem map_range_getElem? {B : Type} (f : Nat → B) (n i : Nat) (hi : i < n) :
    ((List.range n).map f)[i]? = some (f i) := by
  rw [List.getElem?_map, List.getElem?_range hi]
  rfl

/-- C20: after `update_uniforms` on a renderer with a scene, for every entity index `i`
the per-entity record `i` (in the staging array and in the data copied to the buffer)
holds the model matrix, the previous model matrix and the world position, with fourth
component 0, of entity `i`; and for every view index `i` below the active view count the
per-view record `i` holds the view, projection, view-projection and previous
view-projection matrices, the three inverses and the position, with fourth component 0,
of the view queued at index `i`. -/
theorem update_uniforms_records {S F : Type} [Zero S] (forward : Transform S → Vec3 S)
    (sizes : UniformSizes) (r : Renderer S F) (scene : Scene S)
    (hs : r.m_scene = some scene) :
    (∀ i e, scene.entities[i]? = some e →
      (update_uniforms forward sizes r).1.m_per_entity_uniforms i =
        { modal_mat := e.transform.model
          last_model_mat := e.transform.prev_model
          world_pos :=
            { x := e.transform.position.x, y := e.transform.position.y,
              z := e.transform.position.z, w := 0 } } ∧
      (update_uniforms forward sizes r).2.per_entity_data[i]? =
        some ((update_uniforms forward sizes r).1.m_per_entity_uniforms i)) ∧
    (∀ i, i < r.m_num_active_views →
      (update_uniforms forward sizes r).1.m_per_view_uniforms i =
        { view_mat := (r.m_active_views i).m_view_mat
          proj_mat := (r.m_active_views i).m_projection_mat
          view_proj := (r.m_active_views i).m_vp_mat
          last_view_proj := (r.m_active_views i).m_prev_vp_mat
          inv_proj := (r.m_active_views i).m_inv_projection_mat
          inv_view := (r.m_active_views i).m_inv_view_mat
          inv_view_proj := (r.m_active_views i).m_inv_vp_mat
          view_pos :=
            { x := (r.m_active_views i).m_position.x, y := (r.m_active_views i).m_position.y,
              z := (r.m_active_views i).m_position.z, w := 0 } } ∧
      (update_uniforms forward sizes r).2.per_view_data[i]? =
        some ((update_uniforms forward sizes r).1.m_per_view_uniforms i)) := by
  simp only [update_uniforms, hs]
  refine ⟨?_, ?_⟩
  · intro i e he
    have hlt : i < scene.entities.length := by
      by_contra hcon
      rw [List.getElem?_eq_none (by omega)] at he
      exact Option.noConfusion he
    exact ⟨(store_records_list per_entity_record scene.entities _).2 i e he,
      map_range_getElem? _ _ i hlt⟩
  · intro i hi
    exact ⟨(store_records_total _ _ _).2 i hi, map_range_getElem? _ _ i hi⟩

theorem update_uniforms_records_witness :
    threeViewRenderer.m_scene = some sampleScene ∧
    (sampleScene.entities[1]? = some (sampleEntity 7) ∧
      (update_uniforms sampleForward sampleSizes threeViewRenderer).1.m_per_entity_uniforms 1 =
        { modal_mat := sampleMat4 7
          last_model_mat := sampleMat4 7
          world_pos := { x := 7, y := 7, z := 7, w := 0 } }) ∧
    (2 < threeViewRenderer.m_num_active_views ∧
      ((update_uniforms sampleForward sampleSizes threeViewRenderer).1.m_per_view_uniforms
        2).view_proj = (threeViewRenderer.m_active_views 2).m_vp_mat ∧
      ((update_uniforms sampleForward sampleSizes threeViewRenderer).1.m_per_view_uniforms
        2).view_pos.w = 0) :=
  have h := update_uniforms_records sampleForward sampleSizes threeViewRenderer sampleScene rfl
  have h2 := (h.2 2 (by rw [threeViewRenderer_count]; decide)).1
  ⟨rfl, ⟨rfl, (h.1 1 (sampleEntity 7) rfl).1⟩,
    ⟨by rw [threeViewRenderer_count]; decide, by rw [h2], by rw [h2]⟩⟩

/-! ### The frame: reachable states -/

theorem queue_view_count_le {S F : Type} (fm : Mat4 S → F) (v : View S) (r : Renderer S F)
    (h : r.m_num_active_views ≤ MAX_VIEWS) :
    (queue_view fm v r).m_num_active_views ≤ MAX_VIEWS := by
  by_cases hfull : r.m_num_active_views = MAX_VIEWS
  · rw [queue_view_full fm v r hfull]
    exact h
  · rw [queue_view_not_full fm v r hfull]
    show (r.m_num_active_views + 1) % 2 ^ 32 ≤ MAX_VIEWS
    unfold MAX_VIEWS at *
    omega

theorem queue_default_views_eq {S F : Type} (ext : Externals S F) (r : Renderer S F) :
    queue_default_views ext r = r ∨
      ∃ v, queue_default_views ext r = queue_view ext.frustum_from_matrix v r := by
  unfold queue_default_views
  cases r.m_scene with
  | none => exact Or.inl rfl
  | some scene => exact Or.inr ⟨_, rfl⟩

theorem render_count {S F : Type} [Zero S] (ext : Externals S F) (sizes : UniformSizes)
    (r : Renderer S F) : (render ext sizes r).renderer.m_num_active_views = 0 :=
  rfl

theorem reachable_count_le {S F : Type} [Zero S] (ext : Externals S F) (sizes : UniformSizes)
    (r : Renderer S F) (h : Reachable ext sizes r) : r.m_num_active_views ≤ MAX_VIEWS := by
  induction h with
  | start r h0 => rw [h0]; exact Nat.zero_le _
  | queue r v _ ih => exact queue_view_count_le _ v r ih
  | clear r _ _ => exact Nat.zero_le _
  | scene r sc _ ih => exact ih
  | frame r _ _ => exact Nat.zero_le _

theorem reachable_queue_default_views {S F : Type} [Zero S] (ext : Externals S F)
    (sizes : UniformSizes) (r : Renderer S F) (h : Reachable ext sizes r) :
    Reachable ext sizes (queue_default_views ext r) := by
  rcases queue_default_views_eq ext r with h1 | ⟨v, h1⟩
  · rw [h1]; exact h
  · rw [h1]; exact Reachable.queue r v h

theorem reachable_queue_views {S F : Type} [Zero S] (ext : Externals S F)
    (sizes : UniformSizes) (vs : List (View S)) (r : Renderer S F)
    (h : Reachable ext sizes r) :
    Reachable ext sizes (queue_views ext.frustum_from_matrix vs r) := by
  induction vs using List.reverseRecOn with
  | nil => exact h
  | append_singleton l a ih =>
    rw [queue_views_snoc]
    exact Reachable.queue _ a ih

theorem update_uniforms_per_view {S F : Type} [Zero S] (forward : Transform S → Vec3 S)
    (sizes : UniformSizes) (r : Renderer S F) :
    (∀ i ∈ (update_uniforms forward sizes r).2.per_view_writes, i < r.m_num_active_views) ∧
    (update_uniforms forward sizes r).2.per_view_bytes
      ≤ sizes.sizeof_PerViewUniforms * r.m_num_active_views := by
  cases hs : r.m_scene with
  | none => simp [update_uniforms, hs, UniformUpload.nothing]
  | some scene =>
    have h := update_uniforms_of_scene forward sizes r scene hs
    rw [h.2.2.1, h.2.2.2.1]
    exact ⟨fun i hi => List.mem_range.1 hi, le_refl _⟩

/-- C13: in every renderer state reachable through `queue_view`, `clear_all_views`,
`set_scene` and `render`, a call of `update_uniforms` (and likewise the call that `render`
makes after queueing the default views) writes per-view staging indices below 64 only and
copies at most `64 × sizeof(PerViewUniforms)` bytes into the per-view buffer. -/
theorem update_uniforms_per_view_bounds {S F : Type} [Zero S] (ext : Externals S F)
    (sizes : UniformSizes) (r : Renderer S F) (h : Reachable ext sizes r) :
    ((∀ i ∈ (update_uniforms ext.forward sizes r).2.per_view_writes, i < 64) ∧
      (update_uniforms ext.forward sizes r).2.per_view_bytes
        ≤ 64 * sizes.sizeof_PerViewUniforms) ∧
    ((∀ i ∈ (render ext sizes r).upload.per_view_writes, i < 64) ∧
      (render ext sizes r).upload.per_view_bytes ≤ 64 * sizes.sizeof_PerViewUniforms) := by
  have key : ∀ q : Renderer S F, Reachable ext sizes q →
      (∀ i ∈ (update_uniforms ext.forward sizes q).2.per_view_writes, i < 64) ∧
      (update_uniforms ext.forward sizes q).2.per_view_bytes
        ≤ 64 * sizes.sizeof_PerViewUniforms := by
    intro q hq
    have hle : q.m_num_active_views ≤ 64 := reachable_count_le ext sizes q hq
    have hu := update_uniforms_per_view ext.forward sizes q
    refine ⟨fun i hi => lt_of_lt_of_le (hu.1 i hi) hle, ?_⟩
    calc (update_uniforms ext.forward sizes q).2.per_view_bytes
        ≤ sizes.sizeof_PerViewUniforms * q.m_num_active_views := hu.2
      _ ≤ sizes.sizeof_PerViewUniforms * 64 := Nat.mul_le_mul_left _ hle
      _ = 64 * sizes.sizeof_PerViewUniforms := Nat.mul_comm _ _
  exact ⟨key r h, key (queue_default_views ext r) (reachable_queue_default_views ext sizes r h)⟩

theorem fullRenderer_reachable : Reachable sampleExternals sampleSizes fullRenderer :=
  reachable_queue_views sampleExternals sampleSizes sampleViews sampleRenderer
    (Reachable.start sampleRenderer rfl)

theorem update_uniforms_per_view_bounds_witness :
    Reachable sampleExternals sampleSizes fullRenderer ∧
    fullRenderer.m_num_active_views = 64 ∧
    (∀ i ∈ (update_uniforms sampleExternals.forward sampleSizes fullRenderer).2.per_view_writes,
      i < 64) ∧
    (update_uniforms sampleExternals.forward sampleSizes fullRenderer).2.per_view_bytes
      ≤ 64 * sampleSizes.sizeof_PerViewUniforms ∧
    (∀ i ∈ (render sampleExternals sampleSizes fullRenderer).upload.per_view_writes, i < 64) :=
  have h := update_uniforms_per_view_bounds sampleExternals sampleSizes fullRenderer
    fullRenderer_reachable
  ⟨fullRenderer_reachable, fullRenderer_count, h.1.1, h.1.2, h.2.1⟩

/-- C16: after `clear_all_views` the active view count is 0, and so it is after every
`render` call, whatever the renderer state (scene, settings, views queued before the
frame) it starts from. -/
theorem render_resets_view_count {S F : Type} [Zero S] (ext : Externals S F)
    (sizes : UniformSizes) (r : Renderer S F) :
    (clear_all_views r).m_num_active_views = 0 ∧
    (render ext sizes r).renderer.m_num_active_views = 0 ∧
    (render ext sizes r).renderer
      = clear_all_views
          (render_all_views
            (cull_scene ext.intersects
              (update_uniforms ext.forward sizes (queue_default_views ext r)).1)).1 :=
  ⟨rfl, rfl, rfl⟩

/-! ### Shadow views of the directional lights -/

theorem queue_views_from_zero {S F : Type} (fm : Mat4 S → F) (vs : List (View S))
    (r : Renderer S F) (h0 : r.m_num_active_views = 0) :
    (queue_views fm vs r).m_num_active_views = min vs.length 64 ∧
    (queue_views fm vs r).m_num_active_views ≤ 64 ∧
    ∀ i, i < min vs.length 64 →
      vs[i]? = some ((queue_views fm vs r).m_active_views i) ∧
      (vs[i]?).map (fun v => fm v.m_vp_mat) = some ((queue_views fm vs r).m_active_frustums i) := by
  induction vs using List.reverseRecOn with
  | nil => simp [queue_views, h0]
  | append_singleton l a ih =>
    obtain ⟨hc, _, hs⟩ := ih
    rw [queue_views_snoc]
    by_cases hl : l.length < 64
    · have hc' : (queue_views fm l r).m_num_active_views = l.length := by
        rw [hc]; omega
      have hne : (queue_views fm l r).m_num_active_views ≠ MAX_VIEWS := by
        rw [hc']; unfold MAX_VIEWS; omega
      rw [queue_view_not_full fm a _ hne, hc']
      simp only [List.length_append, List.length_singleton]
      refine ⟨?_, ?_, ?_⟩
      · omega
      · omega
      · intro i hi
        by_cases hil : i = l.length
        · subst hil
          simp
        · have hlt : i < l.length := by omega
          have h1 := hs i (by omega)
          rw [List.getElem?_append_left hlt]
          simpa [Function.update, hil] using h1
    · have hc' : (queue_views fm l r).m_num_active_views = MAX_VIEWS := by
        rw [hc]; unfold MAX_VIEWS; omega
      rw [queue_view_full fm a _ hc']
      simp only [List.length_append, List.length_singleton]
      refine ⟨?_, ?_, ?_⟩
      · rw [hc]; omega
      · rw [hc]; omega
      · intro i hi
        have hlt : i < l.length := by omega
        have h1 := hs i (by omega)
        rw [List.getElem?_append_left hlt]
        exact h1

theorem queue_view_fields {S F : Type} (fm : Mat4 S → F) (v : View S) (r : Renderer S F) :
    (queue_view fm v r).m_settings = r.m_settings ∧
    (queue_view fm v r).m_shadow_map_render_graph = r.m_shadow_map_render_graph ∧
    (queue_view fm v r).m_scene_render_graph = r.m_scene_render_graph ∧
    (queue_view fm v r).m_scene = r.m_scene := by
  unfold queue_view
  split <;> exact ⟨rfl, rfl, rfl, rfl⟩

theorem queue_views_fields {S F : Type} (fm : Mat4 S → F) (vs : List (View S))
    (r : Renderer S F) :
    (queue_views fm vs r).m_settings = r.m_settings ∧
    (queue_views fm vs r).m_shadow_map_render_graph = r.m_shadow_map_render_graph ∧
    (queue_views fm vs r).m_scene_render_graph = r.m_scene_render_graph ∧
    (queue_views fm vs r).m_scene = r.m_scene := by
  induction vs using List.reverseRecOn with
  | nil => exact ⟨rfl, rfl, rfl, rfl⟩
  | append_singleton l a ih =>
    rw [queue_views_snoc]
    have h := queue_view_fields fm a (queue_views fm l r)
    exact ⟨h.1.trans ih.1, h.2.1.trans ih.2.1, h.2.2.1.trans ih.2.2.1, h.2.2.2.trans ih.2.2.2⟩

theorem queue_views_append {S F : Type} (fm : Mat4 S → F) (l1 l2 : List (View S))
    (r : Renderer S F) :
    queue_views fm (l1 ++ l2) r = queue_views fm l2 (queue_views fm l1 r) := by
  simp [queue_views, List.foldl_append]

theorem push_cascade_loop {S F : Type} [Zero S] [One S] (ext : Externals S F)
    (scene : Scene S) (light : DirectionalLight S) (s : Nat) (r : Renderer S F) (n : Nat) :
    (List.range n).foldl
      (fun acc cascade_idx =>
        queue_view ext.frustum_from_matrix
          (light_view ext acc.m_settings.cascade_count acc.m_shadow_map_render_graph scene
            light s cascade_idx)
          acc)
      r
    = queue_views ext.frustum_from_matrix
        ((List.range n).map
          (light_view ext r.m_settings.cascade_count r.m_shadow_map_render_graph scene light s))
        r := by
  induction n with
  | zero => rfl
  | succ n ih =>
    rw [List.range_succ, List.foldl_append, List.map_append, queue_views_append, ih]
    simp only [List.foldl_cons, List.foldl_nil, List.map_cons, List.map_nil]
    have h := queue_views_fields ext.frustum_from_matrix
      ((List.range n).map
        (light_view ext r.m_settings.cascade_count r.m_shadow_map_render_graph scene light s)) r
    rw [h.1, h.2.1]
    rfl

theorem push_cascade_views_eq {S F : Type} [Zero S] [One S] (ext : Externals S F)
    (scene : Scene S) (light : DirectionalLight S) (s : Nat) (r : Renderer S F) :
    push_cascade_views ext scene light s r
      = queue_views ext.frustum_from_matrix
          (cascade_views ext r.m_settings.cascade_count r.m_shadow_map_render_graph scene
            light s) r :=
  push_cascade_loop ext scene light s r r.m_settings.cascade_count

theorem push_lights_loop_eq {S F : Type} [Zero S] [One S] (cap : Nat) (ext : Externals S F)
    (scene : Scene S) (hcap2 : 2 ≤ cap) (hcap : cap < 2 ^ 32) (lights : List (DirectionalLight S)) :
    ∀ (idx : Nat) (r : Renderer S F), idx < cap - 1 →
      push_lights_loop cap ext scene lights idx r
        = queue_views ext.frustum_from_matrix
            (shadow_views ext r.m_settings.cascade_count r.m_shadow_map_render_graph scene
              ((lights.filter (fun l => l.casts_shadow)).take (cap - 1 - idx)) idx) r := by
  have hmod : (cap + 2 ^ 32 - 1) % 2 ^ 32 = cap - 1 := by omega
  induction lights with
  | nil =>
    intro idx r _
    simp [push_lights_loop, shadow_views, queue_views]
  | cons light rest ih =>
    intro idx r hidx
    unfold push_lights_loop
    rw [hmod]
    by_cases hshadow : light.casts_shadow = true
    · have hidx1 : (idx + 1) % 2 ^ 32 = idx + 1 := by omega
      have htake : cap - 1 - idx = (cap - 1 - (idx + 1)) + 1 := by omega
      simp only [hshadow, if_true, hidx1, List.filter_cons_of_pos]
      rw [htake, List.take_succ_cons]
      simp only [shadow_views]
      rw [queue_views_append, ← push_cascade_views_eq]
      by_cases hstop : idx + 1 = cap - 1
      · have hzero : cap - 1 - (idx + 1) = 0 := by omega
        simp [hstop, hzero, shadow_views, queue_views]
      · rw [if_neg hstop, ih (idx + 1) _ (by omega)]
        rw [push_cascade_views_eq]
        have h := queue_views_fields ext.frustum_from_matrix
          (cascade_views ext r.m_settings.cascade_count r.m_shadow_map_render_graph scene
            light idx) r
        rw [h.1, h.2.1]
    · have hfalse : light.casts_shadow = false := by
        cases hb : light.casts_shadow with
        | true => exact absurd hb hshadow
        | false => rfl
      have hne : idx ≠ cap - 1 := by omega
      simp only [hfalse, Bool.false_eq_true, if_false, hne]
      rw [ih idx r hidx]
      have hf : (light :: rest).filter (fun l => l.casts_shadow)
          = rest.filter (fun l => l.casts_shadow) := by
        simp [List.filter_cons, hfalse]
      rw [hf]

theorem cascade_views_length {S F : Type} [Zero S] [One S] (ext : Externals S F) (c : Nat)
    (g : Ptr) (scene : Scene S) (light : DirectionalLight S) (s : Nat) :
    (cascade_views ext c g scene light s).length = c := by
  simp [cascade_views]

theorem shadow_views_length {S F : Type} [Zero S] [One S] (ext : Externals S F) (c : Nat)
    (g : Ptr) (scene : Scene S) (casters : List (DirectionalLight S)) :
    ∀ s, (shadow_views ext c g scene casters s).length = c * casters.length := by
  induction casters with
  | nil => intro s; simp [shadow_views]
  | cons light rest ih =>
    intro s
    simp only [shadow_views, List.length_append, cascade_views_length, ih (s + 1),
      List.length_cons]
    rw [Nat.mul_succ, Nat.add_comm]

theorem default_and_light_views_eq {S F : Type} [Zero S] [One S] (cap : Nat)
    (ext : Externals S F) (dv : View S) (r : Renderer S F) (scene : Scene S)
    (hcap2 : 2 ≤ cap) (hcap : cap < 2 ^ 32) (hs : r.m_scene = some scene) :
    push_directional_light_views cap ext dv (queue_default_views ext r)
      = queue_views ext.frustum_from_matrix
          (scene_view ext r scene ::
            shadow_views ext r.m_settings.cascade_count r.m_shadow_map_render_graph scene
              ((scene.directional_lights.filter (fun l => l.casts_shadow)).take (cap - 1)) 0)
          r := by
  have hq : queue_default_views ext r
      = queue_views ext.frustum_from_matrix [scene_view ext r scene] r := by
    simp [queue_default_views, hs, scene_view, queue_views]
  have hf := queue_views_fields ext.frustum_from_matrix [scene_view ext r scene] r
  rw [hq]
  unfold push_directional_light_views
  rw [hf.2.2.2, hs]
  simp only
  rw [push_lights_loop_eq cap ext scene hcap2 hcap scene.directional_lights 0 _ (by omega),
    hf.1, hf.2.1, ← queue_views_append]
  rfl

/-- C15 (the code at the failing input): for a cap `MAX_SHADOW_CASTING_DIRECTIONAL_LIGHTS`
of at least 2, starting from zero active views, `queue_default_views` followed by
`push_directional_light_views` queues the scene view and then the cascade views of the
first `cap - 1` shadow-casting lights only: with `k` shadow-casting lights and cascade
count `c` the active view count is `min (1 + c * min k (cap - 1)) 64`, so a scene with
`k = cap` shadow-casting lights gets `1 + (cap - 1) * c` views and not `1 + k * c`. Each
slot below the count holds the corresponding view of that list. -/
theorem directional_light_views_stop_one_early {S F : Type} [Zero S] [One S] (cap : Nat)
    (ext : Externals S F) (dv : View S) (r : Renderer S F) (scene : Scene S)
    (hcap2 : 2 ≤ cap) (hcap : cap < 2 ^ 32) (h0 : r.m_num_active_views = 0)
    (hs : r.m_scene = some scene) :
    (push_directional_light_views cap ext dv (queue_default_views ext r)).m_num_active_views
      = min (1 + r.m_settings.cascade_count *
          min (scene.directional_lights.filter (fun l => l.casts_shadow)).length (cap - 1)) 64 ∧
    ∀ i, i < min (1 + r.m_settings.cascade_count *
          min (scene.directional_lights.filter (fun l => l.casts_shadow)).length (cap - 1)) 64 →
      (scene_view ext r scene ::
          shadow_views ext r.m_settings.cascade_count r.m_shadow_map_render_graph scene
            ((scene.directional_lights.filter (fun l => l.casts_shadow)).take (cap - 1)) 0)[i]?
        = some ((push_directional_light_views cap ext dv
            (queue_default_views ext r)).m_active_views i) := by
  rw [default_and_light_views_eq cap ext dv r scene hcap2 hcap hs]
  have h := queue_views_from_zero ext.frustum_from_matrix
    (scene_view ext r scene ::
      shadow_views ext r.m_settings.cascade_count r.m_shadow_map_render_graph scene
        ((scene.directional_lights.filter (fun l => l.casts_shadow)).take (cap - 1)) 0) r h0
  have hlen : (scene_view ext r scene ::
      shadow_views ext r.m_settings.cascade_count r.m_shadow_map_render_graph scene
        ((scene.directional_lights.filter (fun l => l.casts_shadow)).take (cap - 1)) 0).length
      = 1 + r.m_settings.cascade_count *
          min (scene.directional_lights.filter (fun l => l.casts_shadow)).length (cap - 1) := by
    rw [List.length_cons, shadow_views_length, List.length_take, Nat.add_comm,
      Nat.min_comm]
  rw [hlen] at h
  exact ⟨h.1, fun i hi => (h.2.2 i hi).1⟩

theorem directional_light_views_stop_one_early_witness :
    shadowRenderer.m_num_active_views = 0 ∧
    shadowRenderer.m_scene = some shadowScene ∧
    (shadowScene.directional_lights.filter (fun l => l.casts_shadow)).length = 2 ∧
    shadowRenderer.m_settings.cascade_count = 4 ∧
    (push_directional_light_views 2 sampleExternals (sampleView 0 true)
      (queue_default_views sampleExternals shadowRenderer)).m_num_active_views = 5 ∧
    (push_directional_light_views 3 sampleExternals (sampleView 0 true)
      (queue_default_views sampleExternals shadowRenderer)).m_num_active_views = 9 :=
  ⟨rfl, rfl, by decide, rfl,
    (directional_light_views_stop_one_early 2 sampleExternals (sampleView 0 true)
      shadowRenderer shadowScene (by decide) (by decide) rfl rfl).1.trans (by decide),
    (directional_light_views_stop_one_early 3 sampleExternals (sampleView 0 true)
      shadowRenderer shadowScene (by decide) (by decide) rfl rfl).1.trans (by decide)⟩

/-! ### Registry start-up and teardown -/

theorem DW_SAFE_DELETE_eq (p : Ptr) (g : GlobalGraphicsResources) :
    DW_SAFE_DELETE p g = { g with deleted := g.deleted ++ p.toList } := by
  cases p with
  | none => simp [DW_SAFE_DELETE]
  | some a => simp [DW_SAFE_DELETE]

theorem delete_entries_eq (m : NameMap) :
    ∀ g : GlobalGraphicsResources,
      delete_entries m g = { g with deleted := g.deleted ++ NameMap.handles m } := by
  induction m with
  | nil => intro g; simp [delete_entries, NameMap.handles]
  | cons e m ih =>
    intro g
    obtain ⟨k, p⟩ := e
    have hstep : delete_entries ((k, p) :: m) g = delete_entries m (DW_SAFE_DELETE p g) := rfl
    rw [hstep, ih]
    cases p with
    | none => simp [DW_SAFE_DELETE, NameMap.handles]
    | some a => simp [DW_SAFE_DELETE, NameMap.handles]

theorem shutdown_eq (g : GlobalGraphicsResources) :
    shutdown g =
      { g with
        deleted := g.deleted ++ live_handles g
        m_quad_vao := none
        m_quad_vbo := none
        m_cube_vao := none
        m_cube_vbo := none
        m_per_frame := none
        m_per_scene := none
        m_per_entity := none } := by
  unfold shutdown
  simp only [delete_entries_eq, DW_SAFE_DELETE_eq, live_handles, fixed_handles,
    List.append_assoc]

theorem initialize_registry_eq (image_loads : String → Bool) (sizes : UniformSizes)
    (name : String) (g : GlobalGraphicsResources)
    (hload : image_loads "texture/brdfLUT.trm" = true) :
    initialize_registry image_loads sizes name g =
      some
        { g with
          m_texture_map := NameMap.assign g.m_texture_map name (some g.objects.length)
          objects := g.objects ++
            [Resource.image "texture/brdfLUT.trm" GL_RG16F GL_RG GL_HALF_FLOAT,
              Resource.uniformBuffer GL_DYNAMIC_DRAW sizes.sizeof_PerFrameUniforms,
              Resource.uniformBuffer GL_DYNAMIC_DRAW sizes.sizeof_PerSceneUniforms,
              Resource.uniformBuffer GL_DYNAMIC_DRAW (1024 * sizes.sizeof_PerEntityUniforms),
              Resource.vertexBuffer GL_STATIC_DRAW (4 * 30),
              Resource.vertexArray (some (g.objects.length + 4)) none (4 * 5) 2,
              Resource.vertexBuffer GL_STATIC_DRAW (4 * 288),
              Resource.vertexArray (some (g.objects.length + 6)) none (4 * 8) 3]
          m_per_frame := some (g.objects.length + 1)
          m_per_scene := some (g.objects.length + 2)
          m_per_entity := some (g.objects.length + 3)
          m_quad_vbo := some (g.objects.length + 4)
          m_quad_vao := some (g.objects.length + 5)
          m_cube_vbo := some (g.objects.length + 6)
          m_cube_vao := some (g.objects.length + 7) } := by
  simp [initialize_registry, hload, new_object, create_quad, create_cube]

theorem initialize_registry_some (image_loads : String → Bool) (sizes : UniformSizes)
    (name : String) (g g1 : GlobalGraphicsResources)
    (h : initialize_registry image_loads sizes name g = some g1) :
    image_loads "texture/brdfLUT.trm" = true := by
  by_contra hcon
  simp [initialize_registry, hcon] at h

/-- Counterexample to C17: after `initialize` on the empty registry the fixed objects have
been created in the order per-frame, per-scene, per-entity buffer, quad vertex buffer,
quad vertex array, cube vertex buffer, cube vertex array (objects 1 to 7), and `shutdown`
releases them in the order 5, 4, 7, 6, 1, 2, 3, which is not the creation order reversed. -/
theorem shutdown_not_reverse_of_initialize :
    ∃ g1, initialize_registry everyImageLoads sampleSizes "brdf_lut" emptyRegistry = some g1 ∧
      [g1.m_per_frame, g1.m_per_scene, g1.m_per_entity, g1.m_quad_vbo, g1.m_quad_vao,
          g1.m_cube_vbo, g1.m_cube_vao]
        = [some 1, some 2, some 3, some 4, some 5, some 6, some 7] ∧
      (shutdown g1).deleted.filter (fun a => decide (a ∈ [1, 2, 3, 4, 5, 6, 7]))
        = [5, 4, 7, 6, 1, 2, 3] ∧
      (shutdown g1).deleted.filter (fun a => decide (a ∈ [1, 2, 3, 4, 5, 6, 7]))
        ≠ [1, 2, 3, 4, 5, 6, 7].reverse := by
  refine ⟨_, initialize_registry_eq everyImageLoads sampleSizes "brdf_lut" emptyRegistry rfl,
    ?_, ?_, ?_⟩
  · rfl
  · rw [shutdown_eq]
    decide
  · rw [shutdown_eq]
    decide

/-- C17 (amended): `initialize` creates, after the BRDF texture, the per-frame, per-scene
and per-entity buffers, then the quad vertex buffer and vertex array, then the cube vertex
buffer and vertex array; `shutdown` releases these fixed objects first and in the order
quad vertex array, quad vertex buffer, cube vertex array, cube vertex buffer, per-frame,
per-scene, per-entity buffer (the geometry before the uniform buffers and each vertex
array before its vertex buffer, but the quad before the cube and the uniform buffers in
their creation order), and then the entries of the framebuffer, texture, program and
shader maps. -/
theorem shutdown_order_after_initialize (image_loads : String → Bool) (sizes : UniformSizes)
    (name : String) (g g1 : GlobalGraphicsResources)
    (h : initialize_registry image_loads sizes name g = some g1) :
    [g1.m_per_frame, g1.m_per_scene, g1.m_per_entity, g1.m_quad_vbo, g1.m_quad_vao,
        g1.m_cube_vbo, g1.m_cube_vao]
      = [some (g.objects.length + 1), some (g.objects.length + 2), some (g.objects.length + 3),
          some (g.objects.length + 4), some (g.objects.length + 5),
          some (g.objects.length + 6), some (g.objects.length + 7)] ∧
    g1.objects.length = g.objects.length + 8 ∧
    (shutdown g1).deleted
      = g1.deleted ++
          [g.objects.length + 5, g.objects.length + 4, g.objects.length + 7,
            g.objects.length + 6, g.objects.length + 1, g.objects.length + 2,
            g.objects.length + 3] ++
          NameMap.handles g1.m_framebuffer_map ++ NameMap.handles g1.m_texture_map ++
          NameMap.handles g1.m_program_cache ++ NameMap.handles g1.m_shader_cache := by
  have hload := initialize_registry_some image_loads sizes name g g1 h
  rw [initialize_registry_eq image_loads sizes name g hload] at h
  have hg1 := (Option.some.inj h).symm
  subst hg1
  rw [shutdown_eq]
  simp [live_handles, fixed_handles]

theorem shutdown_order_after_initialize_witness :
    ∃ g1, initialize_registry everyImageLoads sampleSizes "brdf_lut" sampleRegistry = some g1 ∧
      g1.objects.length = sampleRegistry.objects.length + 8 ∧
      (shutdown g1).deleted = [8, 7, 10, 9, 4, 5, 6, 2, 3, 1, 0] := by
  have hinit := initialize_registry_eq everyImageLoads sampleSizes "brdf_lut" sampleRegistry rfl
  refine ⟨_, hinit, ?_⟩
  have h := shutdown_order_after_initialize everyImageLoads sampleSizes "brdf_lut"
    sampleRegistry _ hinit
  refine ⟨h.2.1, ?_⟩
  rw [h.2.2]
  decide

/-! ### Every resource is released once -/

theorem NameMap.find_eq_none_iff (m : NameMap) (name : String) :
    NameMap.find m name = none ↔ name ∉ NameMap.keys m := by
  induction m with
  | nil => simp [NameMap.find, NameMap.keys]
  | cons e m ih =>
    obtain ⟨k, v⟩ := e
    by_cases hk : k = name
    · simp [NameMap.find_cons, NameMap.keys, hk]
    · have hk2 : ¬ name = k := fun h => hk h.symm
      simpa [NameMap.find_cons, NameMap.keys, hk, hk2] using ih

theorem NameMap.erase_of_find_none (m : NameMap) (name : String)
    (h : NameMap.find m name = none) : NameMap.erase m name = m := by
  rw [NameMap.find_eq_none_iff] at h
  unfold NameMap.erase
  apply List.filter_eq_self.2
  intro e he
  have : e.1 ∈ NameMap.keys m := List.mem_map_of_mem _ he
  simp only [decide_eq_true_eq]
  intro heq
  exact h (heq ▸ this)

theorem NameMap.keys_erase_nodup (m : NameMap) (name : String)
    (h : (NameMap.keys m).Nodup) : (NameMap.keys (NameMap.erase m name)).Nodup := by
  unfold NameMap.keys NameMap.erase
  exact List.Nodup.sublist (List.Sublist.map _ (List.filter_sublist m)) h

theorem NameMap.keys_assign_nodup (m : NameMap) (name : String) (v : Ptr)
    (h : (NameMap.keys m).Nodup) : (NameMap.keys (NameMap.assign m name v)).Nodup := by
  have h1 := NameMap.keys_erase_nodup m name h
  have h2 : name ∉ NameMap.keys (NameMap.erase m name) :=
    (NameMap.find_eq_none_iff _ _).1 (NameMap.find_erase_self m name)
  show (name :: NameMap.keys (NameMap.erase m name)).Nodup
  exact List.nodup_cons.2 ⟨h2, h1⟩

theorem NameMap.handles_cons (k : String) (p : Ptr) (m : NameMap) :
    NameMap.handles ((k, p) :: m) = p.toList ++ NameMap.handles m := by
  cases p with
  | none => simp [NameMap.handles]
  | some a => simp [NameMap.handles]

theorem NameMap.handles_assign (m : NameMap) (name : String) (v : Ptr) :
    NameMap.handles (NameMap.assign m name v)
      = v.toList ++ NameMap.handles (NameMap.erase m name) :=
  NameMap.handles_cons name v _

theorem NameMap.handles_count_erase (m : NameMap) (name : String) (p : Ptr)
    (hnd : (NameMap.keys m).Nodup) (hf : NameMap.find m name = some p) (a : Nat) :
    (NameMap.handles m).count a
      = p.toList.count a + (NameMap.handles (NameMap.erase m name)).count a := by
  induction m with
  | nil => simp [NameMap.find] at hf
  | cons e m ih =>
    obtain ⟨k, v⟩ := e
    have hnd2 : k ∉ NameMap.keys m ∧ (NameMap.keys m).Nodup := List.nodup_cons.1 hnd
    by_cases hk : k = name
    · subst hk
      have hv : v = p := by simpa [NameMap.find_cons] using hf
      subst hv
      have hnone : NameMap.find m k = none := (NameMap.find_eq_none_iff m k).2 hnd2.1
      have he : NameMap.erase ((k, v) :: m) k = m := by
        have h1 : NameMap.erase ((k, v) :: m) k = NameMap.erase m k := by
          simp [NameMap.erase, List.filter_cons]
        rw [h1, NameMap.erase_of_find_none m k hnone]
      rw [he, NameMap.handles_cons, List.count_append]
    · have hf2 : NameMap.find m name = some p := by
        simpa [NameMap.find_cons, hk] using hf
      have he : NameMap.erase ((k, v) :: m) name = (k, v) :: NameMap.erase m name := by
        simp [NameMap.erase, List.filter_cons, hk]
      rw [he, NameMap.handles_cons, NameMap.handles_cons, List.count_append, List.count_append,
        ih hnd2.2 hf2]
      omega

theorem count_live (g : GlobalGraphicsResources) (a : Nat) :
    (live_handles g ++ g.deleted).count a
      = (fixed_handles g).count a + (NameMap.handles g.m_framebuffer_map).count a +
          (NameMap.handles g.m_texture_map).count a +
          (NameMap.handles g.m_program_cache).count a +
          (NameMap.handles g.m_shader_cache).count a + g.deleted.count a := by
  simp only [live_handles, List.count_append]

theorem count_new (n a : Nat) : ([n] : List Nat).count a = if a = n then 1 else 0 := by
  by_cases h : a = n
  · subst h
    simp
  · have h2 : ¬ n = a := fun e => h e.symm
    simp [List.count_singleton, h, h2]

theorem RegistryInv.texture_insert (g : GlobalGraphicsResources) (name : String)
    (res : Resource) (hinv : RegistryInv g) (hk : NameMap.find g.m_texture_map name = none) :
    RegistryInv
      { g with
        objects := g.objects ++ [res]
        m_texture_map := NameMap.assign g.m_texture_map name (some g.objects.length) } := by
  obtain ⟨ht, hf, hp, hs, hc⟩ := hinv
  refine ⟨NameMap.keys_assign_nodup _ _ _ ht, hf, hp, hs, ?_⟩
  intro a
  have h := hc a
  rw [count_live] at h ⊢
  simp only [fixed_handles, NameMap.handles_assign, NameMap.erase_of_find_none _ _ hk,
    List.count_append, Option.toList_some, count_new, List.length_append,
    List.length_singleton] at h ⊢
  split_ifs at h ⊢ <;> omega

theorem RegistryInv.framebuffer_insert (g : GlobalGraphicsResources) (name : String)
    (res : Resource) (hinv : RegistryInv g)
    (hk : NameMap.find g.m_framebuffer_map name = none) :
    RegistryInv
      { g with
        objects := g.objects ++ [res]
        m_framebuffer_map := NameMap.assign g.m_framebuffer_map name (some g.objects.length) } := by
  obtain ⟨ht, hf, hp, hs, hc⟩ := hinv
  refine ⟨ht, NameMap.keys_assign_nodup _ _ _ hf, hp, hs, ?_⟩
  intro a
  have h := hc a
  rw [count_live] at h ⊢
  simp only [fixed_handles, NameMap.handles_assign, NameMap.erase_of_find_none _ _ hk,
    List.count_append, Option.toList_some, count_new, List.length_append,
    List.length_singleton] at h ⊢
  split_ifs at h ⊢ <;> omega

theorem RegistryInv.program_insert (g : GlobalGraphicsResources) (name : String)
    (res : Resource) (hinv : RegistryInv g)
    (hk : NameMap.find g.m_program_cache name = none) :
    RegistryInv
      { g with
        objects := g.objects ++ [res]
        m_program_cache := NameMap.assign g.m_program_cache name (some g.objects.length) } := by
  obtain ⟨ht, hf, hp, hs, hc⟩ := hinv
  refine ⟨ht, hf, NameMap.keys_assign_nodup _ _ _ hp, hs, ?_⟩
  intro a
  have h := hc a
  rw [count_live] at h ⊢
  simp only [fixed_handles, NameMap.handles_assign, NameMap.erase_of_find_none _ _ hk,
    List.count_append, Option.toList_some, count_new, List.length_append,
    List.length_singleton] at h ⊢
  split_ifs at h ⊢ <;> omega

theorem RegistryInv.shader_insert (g : GlobalGraphicsResources) (name : String)
    (res : Resource) (hinv : RegistryInv g)
    (hk : NameMap.find g.m_shader_cache name = none) :
    RegistryInv
      { g with
        objects := g.objects ++ [res]
        m_shader_cache := NameMap.assign g.m_shader_cache name (some g.objects.length) } := by
  obtain ⟨ht, hf, hp, hs, hc⟩ := hinv
  refine ⟨ht, hf, hp, NameMap.keys_assign_nodup _ _ _ hs, ?_⟩
  intro a
  have h := hc a
  rw [count_live] at h ⊢
  simp only [fixed_handles, NameMap.handles_assign, NameMap.erase_of_find_none _ _ hk,
    List.count_append, Option.toList_some, count_new, List.length_append,
    List.length_singleton] at h ⊢
  split_ifs at h ⊢ <;> omega

theorem RegistryInv.shader_insert_null (g : GlobalGraphicsResources) (name : String)
    (hinv : RegistryInv g) (hk : NameMap.find g.m_shader_cache name = none) :
    RegistryInv { g with m_shader_cache := NameMap.assign g.m_shader_cache name none } := by
  obtain ⟨ht, hf, hp, hs, hc⟩ := hinv
  refine ⟨ht, hf, hp, NameMap.keys_assign_nodup _ _ _ hs, ?_⟩
  intro a
  have h := hc a
  rw [count_live] at h ⊢
  simp only [fixed_handles, NameMap.handles_assign, NameMap.erase_of_find_none _ _ hk,
    List.count_append, Option.toList_none, List.count_nil] at h ⊢
  omega

theorem RegistryInv.texture_erase (g : GlobalGraphicsResources) (name : String) (p : Ptr)
    (hinv : RegistryInv g) (hk : NameMap.find g.m_texture_map name = some p) :
    RegistryInv
      { g with
        m_texture_map := NameMap.erase g.m_texture_map name
        deleted := g.deleted ++ p.toList } := by
  obtain ⟨ht, hf, hp, hs, hc⟩ := hinv
  refine ⟨NameMap.keys_erase_nodup _ _ ht, hf, hp, hs, ?_⟩
  intro a
  have h := hc a
  have he := NameMap.handles_count_erase g.m_texture_map name p ht hk a
  rw [count_live] at h ⊢
  simp only [fixed_handles, List.count_append] at h ⊢
  omega

theorem RegistryInv.framebuffer_erase (g : GlobalGraphicsResources) (name : String) (p : Ptr)
    (hinv : RegistryInv g) (hk : NameMap.find g.m_framebuffer_map name = some p) :
    RegistryInv
      { g with
        m_framebuffer_map := NameMap.erase g.m_framebuffer_map name
        deleted := g.deleted ++ p.toList } := by
  obtain ⟨ht, hf, hp, hs, hc⟩ := hinv
  refine ⟨ht, NameMap.keys_erase_nodup _ _ hf, hp, hs, ?_⟩
  intro a
  have h := hc a
  have he := NameMap.handles_count_erase g.m_framebuffer_map name p hf hk a
  rw [count_live] at h ⊢
  simp only [fixed_handles, List.count_append] at h ⊢
  omega

theorem create_texture_cube_absent (name : String) (w h internal_format format type
    array_size mip_levels : Nat) (g : GlobalGraphicsResources)
    (hk : NameMap.find g.m_texture_map name = none) :
    create_texture_cube name w h internal_format format type array_size mip_levels g
      = (some g.objects.length,
          { g with
            objects := g.objects ++
              [Resource.textureCube w h array_size mip_levels internal_format format type]
            m_texture_map := NameMap.assign g.m_texture_map name (some g.objects.length) }) := by
  simp [create_texture_cube, hk, new_object]

theorem load_shader_absent_ok (fw : Framework) (type : Nat) (path : String) (mat : Ptr)
    (g : GlobalGraphicsResources) (hk : NameMap.find g.m_shader_cache path = none)
    (hok : fw.shader_file_ok type (fw.path_for_resource ("assets/" ++ path)) = true) :
    load_shader fw type path mat g
      = (some g.objects.length,
          { g with
            objects := g.objects ++
              [Resource.shader type (fw.path_for_resource ("assets/" ++ path))]
            m_shader_cache := NameMap.assign g.m_shader_cache path (some g.objects.length) }) := by
  simp [load_shader, hk, create_from_file, hok, new_object]

theorem load_shader_absent_fail (fw : Framework) (type : Nat) (path : String) (mat : Ptr)
    (g : GlobalGraphicsResources) (hk : NameMap.find g.m_shader_cache path = none)
    (hok : fw.shader_file_ok type (fw.path_for_resource ("assets/" ++ path)) = false) :
    load_shader fw type path mat g
      = (none, { g with m_shader_cache := NameMap.assign g.m_shader_cache path none }) := by
  simp [load_shader, hk, create_from_file, hok]

theorem RegistryOp.run_inv (fw : Framework) (op : RegistryOp) (g : GlobalGraphicsResources)
    (hinv : RegistryInv g) : RegistryInv (RegistryOp.run fw op g) := by
  cases op with
  | create_texture_2d name w h internal_format format type num_samples array_size mip_levels =>
    show RegistryInv (Nimble.create_texture_2d name w h internal_format format type
      num_samples array_size mip_levels g).2
    cases hk : NameMap.find g.m_texture_map name with
    | none =>
      rw [create_texture_2d_absent name w h internal_format format type num_samples
        array_size mip_levels g hk]
      exact RegistryInv.texture_insert g name _ hinv hk
    | some p =>
      rw [create_texture_2d_present name w h internal_format format type num_samples
        array_size mip_levels g (by rw [hk]; exact Option.some_ne_none p)]
      exact hinv
  | create_texture_cube name w h internal_format format type array_size mip_levels =>
    show RegistryInv (Nimble.create_texture_cube name w h internal_format format type
      array_size mip_levels g).2
    cases hk : NameMap.find g.m_texture_map name with
    | none =>
      rw [create_texture_cube_absent name w h internal_format format type array_size
        mip_levels g hk]
      exact RegistryInv.texture_insert g name _ hinv hk
    | some p =>
      rw [create_texture_cube_present name w h internal_format format type array_size
        mip_levels g (by rw [hk]; exact Option.some_ne_none p)]
      exact hinv
  | create_framebuffer name =>
    show RegistryInv (Nimble.create_framebuffer name g).2
    cases hk : NameMap.find g.m_framebuffer_map name with
    | none =>
      rw [create_framebuffer_absent name g hk]
      exact RegistryInv.framebuffer_insert g name _ hinv hk
    | some p =>
      rw [create_framebuffer_present name g (by rw [hk]; exact Option.some_ne_none p)]
      exact hinv
  | destroy_texture name =>
    show RegistryInv (Nimble.destroy_texture name g)
    cases hk : NameMap.find g.m_texture_map name with
    | none => rw [destroy_texture_absent name g hk]; exact hinv
    | some p =>
      rw [destroy_texture_present name g p hk]
      exact RegistryInv.texture_erase g name p hinv hk
  | destroy_framebuffer name =>
    show RegistryInv (Nimble.destroy_framebuffer name g)
    cases hk : NameMap.find g.m_framebuffer_map name with
    | none => rw [destroy_framebuffer_absent name g hk]; exact hinv
    | some p =>
      rw [destroy_framebuffer_present name g p hk]
      exact RegistryInv.framebuffer_erase g name p hinv hk
  | load_shader type path mat =>
    show RegistryInv (Nimble.load_shader fw type path mat g).2
    cases hk : NameMap.find g.m_shader_cache path with
    | none =>
      cases hok : fw.shader_file_ok type (fw.path_for_resource ("assets/" ++ path)) with
      | true =>
        rw [load_shader_absent_ok fw type path mat g hk hok]
        exact RegistryInv.shader_insert g path _ hinv hk
      | false =>
        rw [load_shader_absent_fail fw type path mat g hk hok]
        exact RegistryInv.shader_insert_null g path hinv hk
    | some p =>
      rw [load_shader_present fw type path mat g p hk]
      exact hinv
  | load_program combined_name count shaders =>
    show RegistryInv (Nimble.load_program combined_name count shaders g).2
    cases hk : NameMap.find g.m_program_cache combined_name with
    | none =>
      rw [load_program_absent combined_name count shaders g hk]
      exact RegistryInv.program_insert g combined_name _ hinv hk
    | some p =>
      rw [load_program_present combined_name count shaders g p hk]
      exact hinv

theorem run_ops_inv (fw : Framework) (ops : List RegistryOp) :
    ∀ g : GlobalGraphicsResources, RegistryInv g → RegistryInv (run_ops fw ops g) := by
  induction ops with
  | nil => intro g h; exact h
  | cons op rest ih =>
    intro g h
    exact ih _ (RegistryOp.run_inv fw op g h)

theorem emptyRegistry_inv : RegistryInv emptyRegistry := by
  refine ⟨List.nodup_nil, List.nodup_nil, List.nodup_nil, List.nodup_nil, ?_⟩
  intro a
  simp [emptyRegistry, live_handles, fixed_handles, NameMap.handles]

theorem initialize_empty_inv (image_loads : String → Bool) (sizes : UniformSizes)
    (name : String) (g1 : GlobalGraphicsResources)
    (h : initialize_registry image_loads sizes name emptyRegistry = some g1) :
    RegistryInv g1 := by
  have hload := initialize_registry_some image_loads sizes name emptyRegistry g1 h
  rw [initialize_registry_eq image_loads sizes name emptyRegistry hload] at h
  have hg1 := (Option.some.inj h).symm
  subst hg1
  refine ⟨?_, List.nodup_nil, List.nodup_nil, List.nodup_nil, ?_⟩
  · simp [emptyRegistry, NameMap.assign, NameMap.erase, NameMap.keys]
  · intro a
    have he : NameMap.handles (NameMap.erase ([] : NameMap) name) = [] := rfl
    have hn : NameMap.handles ([] : NameMap) = [] := rfl
    rw [count_live]
    simp only [emptyRegistry, fixed_handles, NameMap.handles_assign, he, hn,
      List.count_append, Option.toList_some, count_new, List.count_nil, List.length_append,
      List.length_nil, List.length_cons, Nat.zero_add]
    split_ifs <;> omega

theorem shutdown_releases_once (g : GlobalGraphicsResources) (hinv : RegistryInv g) (a : Nat) :
    (shutdown g).deleted.count a = if a < (shutdown g).objects.length then 1 else 0 := by
  have h := hinv.2.2.2.2 a
  rw [shutdown_eq]
  show (g.deleted ++ live_handles g).count a = if a < g.objects.length then 1 else 0
  rw [List.count_append] at h ⊢
  omega

/-- Counterexample to C18: `shutdown` does not remove the entries it releases, and a second
`initialize` overwrites the fixed pointers. After `create_framebuffer "fbo"` and
`shutdown`, the framebuffer (object 0) has been released, yet `lookup_framebuffer "fbo"`
still returns it and a second `shutdown` releases it a second time; and after two
`initialize` calls and `shutdown` the first per-frame buffer (object 1) is never
released. -/
theorem shutdown_keeps_released_entries :
    ((create_framebuffer "fbo" emptyRegistry).2.objects.length = 1 ∧
      (shutdown (create_framebuffer "fbo" emptyRegistry).2).deleted = [0] ∧
      (lookup_framebuffer "fbo" (shutdown (create_framebuffer "fbo" emptyRegistry).2)).1
        = some 0 ∧
      (shutdown (shutdown (create_framebuffer "fbo" emptyRegistry).2)).deleted.count 0 = 2) ∧
    ∃ g1 g2, initialize_registry everyImageLoads sampleSizes "brdf_lut" emptyRegistry = some g1 ∧
      initialize_registry everyImageLoads sampleSizes "brdf_lut" g1 = some g2 ∧
      g1.m_per_frame = some 1 ∧
      (shutdown g2).deleted.count 1 = 0 := by
  refine ⟨⟨by decide, by decide, by decide, by decide⟩, _, _,
    initialize_registry_eq everyImageLoads sampleSizes "brdf_lut" emptyRegistry rfl,
    initialize_registry_eq everyImageLoads sampleSizes "brdf_lut" _ rfl, rfl, ?_⟩
  rw [shutdown_eq]
  decide

/-- C18 (amended): for every run that starts from the empty registry, optionally calls
`initialize` once at the start, then performs any sequence of create, destroy,
`load_shader` and `load_program` operations and ends with one `shutdown`, every resource
that the registry created is released exactly once over the whole run (so a resource
released by destroy-by-name is not released again by `shutdown`, and every object still
held at `shutdown` is released by it once), and nothing else is released. -/
theorem registry_run_releases_once (fw : Framework) (image_loads : String → Bool)
    (sizes : UniformSizes) (name : String) (ops : List RegistryOp) :
    (∀ a, (shutdown (run_ops fw ops emptyRegistry)).deleted.count a
      = if a < (shutdown (run_ops fw ops emptyRegistry)).objects.length then 1 else 0) ∧
    (image_loads "texture/brdfLUT.trm" = true →
      ∃ g1, initialize_registry image_loads sizes name emptyRegistry = some g1 ∧
        ∀ a, (shutdown (run_ops fw ops g1)).deleted.count a
          = if a < (shutdown (run_ops fw ops g1)).objects.length then 1 else 0) := by
  refine ⟨?_, ?_⟩
  · intro a
    exact shutdown_releases_once _ (run_ops_inv fw ops _ emptyRegistry_inv) a
  · intro hload
    have hinit := initialize_registry_eq image_loads sizes name emptyRegistry hload
    refine ⟨_, hinit, ?_⟩
    intro a
    exact shutdown_releases_once _
      (run_ops_inv fw ops _ (initialize_empty_inv image_loads sizes name _ hinit)) a

theorem registry_run_releases_once_witness :
    everyImageLoads "texture/brdfLUT.trm" = true ∧
    ∃ g1, initialize_registry everyImageLoads sampleSizes "brdf_lut" emptyRegistry = some g1 ∧
      (shutdown (run_ops sampleFramework sampleOps g1)).objects.length = 13 ∧
      (shutdown (run_ops sampleFramework sampleOps g1)).deleted.count 8 = 1 ∧
      (shutdown (run_ops sampleFramework sampleOps g1)).deleted.count 12 = 1 ∧
      (shutdown (run_ops sampleFramework sampleOps g1)).deleted.count 13 = 0 := by
  refine ⟨rfl, ?_⟩
  obtain ⟨g1, hinit, hcount⟩ :=
    (registry_run_releases_once sampleFramework everyImageLoads sampleSizes "brdf_lut"
      sampleOps).2 rfl
  have hlen : (shutdown (run_ops sampleFramework sampleOps g1)).objects.length = 13 := by
    rw [initialize_registry_eq everyImageLoads sampleSizes "brdf_lut" emptyRegistry rfl] at hinit
    have hg1 := (Option.some.inj hinit).symm
    subst hg1
    rw [shutdown_eq]
    decide
  refine ⟨g1, hinit, hlen, ?_, ?_, ?_⟩
  · rw [hcount 8, hlen]; decide
  · rw [hcount 12, hlen]; decide
  · rw [hcount 13, hlen]; decide

/-! ### Executing the views -/

theorem render_view_step_disabled {S F : Type} (st : Renderer S F × List (Nat × View S))
    (i : Nat) (h : (st.1.m_active_views i).m_enabled = false) : render_view_step st i = st := by
  simp [render_view_step, h]

theorem render_view_step_graph {S F : Type} (st : Renderer S F × List (Nat × View S))
    (i g : Nat) (h : (st.1.m_active_views i).m_enabled = true)
    (hg : (st.1.m_active_views i).m_graph = some g) :
    render_view_step st i =
      ({ st.1 with
          m_active_views :=
            Function.update st.1.m_active_views i { st.1.m_active_views i with m_id := i } },
        st.2 ++ [(g, { st.1.m_active_views i with m_id := i })]) := by
  simp [render_view_step, h, hg]

theorem render_view_step_no_graph {S F : Type} (st : Renderer S F × List (Nat × View S))
    (i : Nat) (h : (st.1.m_active_views i).m_enabled = true)
    (hg : (st.1.m_active_views i).m_graph = none) :
    render_view_step st i =
      ({ st.1 with
          m_active_views :=
            Function.update st.1.m_active_views i { st.1.m_active_views i with m_id := i } },
        st.2) := by
  simp [render_view_step, h, hg]

theorem render_views_loop {S F : Type} (r : Renderer S F) (n : Nat) :
    ((List.range n).foldl render_view_step (r, [])).2
      = (List.range n).filterMap (due_execution r) ∧
    ((List.range n).foldl render_view_step (r, [])).1.m_num_active_views
      = r.m_num_active_views ∧
    ∀ i, ((List.range n).foldl render_view_step (r, [])).1.m_active_views i
      = if i < n ∧ (r.m_active_views i).m_enabled = true then
          { r.m_active_views i with m_id := i }
        else r.m_active_views i := by
  induction n with
  | zero => simp
  | succ n ih =>
    obtain ⟨hlog, hcount, hviews⟩ := ih
    rw [List.range_succ, List.foldl_append, List.filterMap_append]
    simp only [List.foldl_cons, List.foldl_nil, List.filterMap_cons, List.filterMap_nil]
    have hn : ((List.range n).foldl render_view_step (r, [])).1.m_active_views n
        = r.m_active_views n := by
      rw [hviews n]
      simp
    cases hen : (r.m_active_views n).m_enabled with
    | false =>
      rw [render_view_step_disabled _ n (by rw [hn]; exact hen)]
      refine ⟨?_, hcount, ?_⟩
      · simp [due_execution, hen, hlog]
      · intro i
        rw [hviews i]
        by_cases hi : i = n
        · subst hi
          simp [hen]
        · have h1 : i < n + 1 ↔ i < n := by omega
          simp [h1]
    | true =>
      have hview2 : ∀ i, (Function.update
            ((List.range n).foldl render_view_step (r, [])).1.m_active_views n
            { r.m_active_views n with m_id := n }) i
          = if i < n + 1 ∧ (r.m_active_views i).m_enabled = true then
              { r.m_active_views i with m_id := i }
            else r.m_active_views i := by
        intro i
        by_cases hi : i = n
        · subst hi
          simp [hen]
        · have h1 : i < n + 1 ↔ i < n := by omega
          simp only [Function.update, hi, dite_false, h1]
          exact hviews i
      cases hg : (r.m_active_views n).m_graph with
      | none =>
        rw [render_view_step_no_graph _ n (by rw [hn]; exact hen) (by rw [hn]; exact hg)]
        refine ⟨?_, hcount, ?_⟩
        · simp [due_execution, hen, hg, hlog]
        · intro i
          rw [hn]
          exact hview2 i
      | some g =>
        rw [render_view_step_graph _ n g (by rw [hn]; exact hen) (by rw [hn]; exact hg)]
        refine ⟨?_, hcount, ?_⟩
        · simp [due_execution, hen, hg, hlog, hn]
        · intro i
          rw [hn]
          exact hview2 i

/-- C22: `render_all_views` executes the render graph exactly once for each active view
that is enabled and has a graph attached, in increasing queue index order, passing the
view with its id set to its queue index; it leaves the active view count alone; a
disabled view causes no execution and keeps its id; an enabled view without a graph
causes no execution (its id is set all the same) and the views after it are still
executed. -/
theorem render_all_views_executions {S F : Type} (r : Renderer S F) :
    (render_all_views r).2
      = (List.range r.m_num_active_views).filterMap
          (fun i =>
            if (r.m_active_views i).m_enabled then
              (r.m_active_views i).m_graph.map
                (fun graph => (graph, { r.m_active_views i with m_id := i }))
            else none) ∧
    (render_all_views r).1.m_num_active_views = r.m_num_active_views ∧
    (∀ i, (r.m_active_views i).m_enabled = false →
      (render_all_views r).1.m_active_views i = r.m_active_views i) ∧
    (∀ i, i < r.m_num_active_views → (r.m_active_views i).m_enabled = true →
      (render_all_views r).1.m_active_views i = { r.m_active_views i with m_id := i }) := by
  have h := render_views_loop r r.m_num_active_views
  refine ⟨h.1, h.2.1, ?_, ?_⟩
  · intro i hi
    have := h.2.2 i
    simpa [render_all_views, hi] using this
  · intro i hlt hi
    have := h.2.2 i
    simpa [render_all_views, hlt, hi] using this

theorem mixedViewsRenderer_count : mixedViewsRenderer.m_num_active_views = 4 := by
  simp [mixedViewsRenderer, queue_views, queue_view, MAX_VIEWS, sampleRenderer]

theorem render_all_views_executions_witness :
    (mixedViewsRenderer.m_active_views 1).m_enabled = false ∧
    (render_all_views mixedViewsRenderer).1.m_active_views 1
      = mixedViewsRenderer.m_active_views 1 ∧
    (3 < mixedViewsRenderer.m_num_active_views ∧
      (mixedViewsRenderer.m_active_views 3).m_enabled = true ∧
      (render_all_views mixedViewsRenderer).1.m_active_views 3
        = { mixedViewsRenderer.m_active_views 3 with m_id := 3 }) ∧
    (render_all_views mixedViewsRenderer).2.map (fun e => (e.1, e.2.m_id)) = [(7, 0), (9, 3)] := by
  have h := render_all_views_executions mixedViewsRenderer
  refine ⟨rfl, h.2.2.1 1 rfl, ⟨by rw [mixedViewsRenderer_count]; decide, rfl,
    h.2.2.2 3 (by rw [mixedViewsRenderer_count]; decide) rfl⟩, ?_⟩
  rw [h.1, mixedViewsRenderer_count]
  rfl

/-! ### Culling leaves the bits of inactive slots alone -/

theorem cull_view_step_wf {S F : Type} (intersects : F → OBB S → Bool) (r : Renderer S F)
    (e : Entity S) (j : Nat) : (cull_view_step intersects r e j).visibility < 2 ^ 64 := by
  unfold cull_view_step
  split
  · split
    · exact Nat.mod_lt _ (by decide)
    · exact Nat.mod_lt _ (by decide)
  · exact Nat.mod_lt _ (by decide)

theorem cull_views_loop_wf {S F : Type} (intersects : F → OBB S → Bool) (r : Renderer S F)
    (n : Nat) (e : Entity S) (hwf : e.visibility < 2 ^ 64) :
    ((List.range n).foldl (cull_view_step intersects r) e).visibility < 2 ^ 64 := by
  cases n with
  | zero => exact hwf
  | succ n =>
    rw [List.range_succ, List.foldl_append]
    exact cull_view_step_wf intersects r _ n

theorem high_bit_clear (v j : Nat) (hv : v < 2 ^ 64) (hj : 64 ≤ j) : v.testBit j = false := by
  apply Nat.testBit_eq_false_of_lt
  exact lt_of_lt_of_le hv (Nat.pow_le_pow_right (by decide) hj)

theorem cull_views_loop_inactive {S F : Type} (intersects : F → OBB S → Bool)
    (r : Renderer S F) (j : Nat) (hj : j < 64) (n : Nat) (e : Entity S) (hn : n ≤ j) :
    ((List.range n).foldl (cull_view_step intersects r) e).is_visible j = e.is_visible j := by
  induction n with
  | zero => rfl
  | succ n ih =>
    rw [List.range_succ, List.foldl_append]
    simp only [List.foldl_cons, List.foldl_nil]
    rw [cull_view_step_other_bit intersects r _ j n hj (by omega)]
    exact ih (by omega)

theorem cull_entity_inactive_bit {S F : Type} (intersects : F → OBB S → Bool)
    (r : Renderer S F) (e : Entity S) (hwf : e.visibility < 2 ^ 64) (j : Nat)
    (hj : r.m_num_active_views ≤ j) :
    (cull_entity intersects r e).is_visible j = e.is_visible j := by
  unfold cull_entity cull_entity_views
  by_cases h64 : j < 64
  · exact cull_views_loop_inactive intersects r j h64 _ _ hj
  · have h1 := cull_views_loop_wf intersects r r.m_num_active_views
      { e with
        obb :=
          { e.obb with
            position := e.transform.position
            orientation := Mat3.ofMat4 e.transform.model } } hwf
    show Nat.testBit _ j = Nat.testBit _ j
    rw [high_bit_clear _ j h1 (by omega), high_bit_clear _ j hwf (by omega)]

theorem cull_entity_unculled_bit {S F : Type} (intersects : F → OBB S → Bool)
    (r : Renderer S F) (e : Entity S) (j : Nat) (hj64 : j < 64)
    (hj : j < r.m_num_active_views) (hc : (r.m_active_views j).m_culling = false) :
    (cull_entity intersects r e).is_visible j = true := by
  unfold cull_entity cull_entity_views
  exact cull_views_loop_unculled intersects r j hj64 hc _ _ hj

/-- C26: `cull_scene` writes the visibility bits of the active view slots only. For every
entity (whose mask is a 64-bit value) and every slot `j` at or above the active view
count, bit `j` after `cull_scene` is the bit before it; and, the active view count being
at most `MAX_VIEWS`, for every slot `j` below it bit `j` is overwritten with the result
of this frame: the intersection test against the refreshed box for a culling view, and
visible for a view without culling. -/
theorem cull_scene_writes_active_slots_only {S F : Type} (intersects : F → OBB S → Bool)
    (r : Renderer S F) (scene : Scene S) (i : Nat) (e : Entity S)
    (hs : r.m_scene = some scene) (he : scene.entities[i]? = some e)
    (hwf : e.visibility < 2 ^ 64) :
    ∃ scene2 e2, (cull_scene intersects r).m_scene = some scene2 ∧
      scene2.entities[i]? = some e2 ∧
      (∀ j, r.m_num_active_views ≤ j → e2.is_visible j = e.is_visible j) ∧
      (r.m_num_active_views ≤ MAX_VIEWS → ∀ j, j < r.m_num_active_views →
        e2.is_visible j =
          if (r.m_active_views j).m_culling then intersects (r.m_active_frustums j) e2.obb
          else true) := by
  obtain ⟨scene2, h1, _, h3⟩ := cull_scene_get intersects r scene hs i e he
  refine ⟨scene2, _, h1, h3, ?_, ?_⟩
  · intro j hj
    exact cull_entity_inactive_bit intersects r e hwf j hj
  · intro hcap j hj
    have hj64 : j < 64 := by unfold MAX_VIEWS at hcap; omega
    cases hc : (r.m_active_views j).m_culling with
    | true =>
      simp only [if_true]
      exact cull_entity_culled_bit intersects r e j hj64 hj hc
    | false =>
      simp only [Bool.false_eq_true, if_false]
      exact cull_entity_unculled_bit intersects r e j hj64 hj hc

theorem staleBitsRenderer_count : staleBitsRenderer.m_num_active_views = 3 :=
  threeViewRenderer_count

theorem cull_scene_writes_active_slots_only_witness :
    ∃ scene2 e2, (cull_scene neverIntersects staleBitsRenderer).m_scene = some scene2 ∧
      scene2.entities[0]? = some e2 ∧
      e2.is_visible 5 = true ∧ e2.is_visible 4 = false ∧
      e2.is_visible 1 = true ∧ e2.is_visible 0 = false := by
  obtain ⟨scene2, e2, h1, h2, hkeep, hwrite⟩ :=
    cull_scene_writes_active_slots_only neverIntersects staleBitsRenderer
      { sampleScene with entities := [{ sampleEntity 5 with visibility := 34 }, sampleEntity 7] }
      0 { sampleEntity 5 with visibility := 34 } rfl rfl (by decide)
  have hw := hwrite (by rw [staleBitsRenderer_count]; decide)
  refine ⟨scene2, e2, h1, h2, ?_, ?_, ?_, ?_⟩
  · rw [hkeep 5 (by rw [staleBitsRenderer_count]; decide)]; decide
  · rw [hkeep 4 (by rw [staleBitsRenderer_count]; decide)]; decide
  · rw [hw 1 (by rw [staleBitsRenderer_count]; decide)]; rfl
  · rw [hw 0 (by rw [staleBitsRenderer_count]; decide)]; rfl

/-! ### Name spaces of the registry and cache keys -/

theorem create_texture_2d_frame (name : String) (w h internal_format format type
    num_samples array_size mip_levels : Nat) (g : GlobalGraphicsResources) :
    NameMap.find (create_texture_2d name w h internal_format format type num_samples
      array_size mip_levels g).2.m_texture_map name ≠ none ∧
    (create_texture_2d name w h internal_format format type num_samples array_size
      mip_levels g).2.m_framebuffer_map = g.m_framebuffer_map := by
  cases hk : NameMap.find g.m_texture_map name with
  | none =>
    rw [create_texture_2d_absent name w h internal_format format type num_samples array_size
      mip_levels g hk]
    refine ⟨?_, rfl⟩
    show NameMap.find (NameMap.assign g.m_texture_map name (some g.objects.length)) name ≠ none
    rw [NameMap.find_assign_self]
    exact Option.some_ne_none _
  | some p =>
    rw [create_texture_2d_present name w h internal_format format type num_samples array_size
      mip_levels g (by rw [hk]; exact Option.some_ne_none p)]
    exact ⟨by rw [hk]; exact Option.some_ne_none p, rfl⟩

theorem create_texture_cube_frame (name : String) (w h internal_format format type
    array_size mip_levels : Nat) (g : GlobalGraphicsResources) :
    NameMap.find (create_texture_cube name w h internal_format format type array_size
      mip_levels g).2.m_texture_map name ≠ none ∧
    (create_texture_cube name w h internal_format format type array_size
      mip_levels g).2.m_framebuffer_map = g.m_framebuffer_map := by
  cases hk : NameMap.find g.m_texture_map name with
  | none =>
    rw [create_texture_cube_absent name w h internal_format format type array_size
      mip_levels g hk]
    refine ⟨?_, rfl⟩
    show NameMap.find (NameMap.assign g.m_texture_map name (some g.objects.length)) name ≠ none
    rw [NameMap.find_assign_self]
    exact Option.some_ne_none _
  | some p =>
    rw [create_texture_cube_present name w h internal_format format type array_size
      mip_levels g (by rw [hk]; exact Option.some_ne_none p)]
    exact ⟨by rw [hk]; exact Option.some_ne_none p, rfl⟩

theorem create_framebuffer_frame (name : String) (g : GlobalGraphicsResources) :
    (create_framebuffer name g).2.m_texture_map = g.m_texture_map := by
  cases hk : NameMap.find g.m_framebuffer_map name with
  | none => rw [create_framebuffer_absent name g hk]
  | some p =>
    rw [create_framebuffer_present name g (by rw [hk]; exact Option.some_ne_none p)]

/-- C24: 2D and cube textures share one name space and framebuffers have their own. After
`create_texture_2d k` (whether it created the texture or found the name taken)
`create_texture_cube k` is rejected, and after `create_texture_cube k` so is
`create_texture_2d k`; `create_framebuffer k` succeeds whenever `k` is absent from the
framebuffer map, also right after a texture named `k` was created; and no texture
operation (create, destroy) changes the framebuffer map, nor any framebuffer operation
the texture map. -/
theorem texture_and_framebuffer_name_spaces (g : GlobalGraphicsResources) (k : String)
    (w h internal_format format type num_samples array_size mip_levels : Nat)
    (w2 h2 internal_format2 format2 type2 num_samples2 array_size2 mip_levels2 : Nat) :
    (create_texture_cube k w2 h2 internal_format2 format2 type2 array_size2 mip_levels2
        (create_texture_2d k w h internal_format format type num_samples array_size
          mip_levels g).2).1 = none ∧
    (create_texture_2d k w2 h2 internal_format2 format2 type2 num_samples2 array_size2
        mip_levels2
        (create_texture_cube k w h internal_format format type array_size mip_levels g).2).1
      = none ∧
    (NameMap.find g.m_framebuffer_map k = none →
      (create_framebuffer k
        (create_texture_2d k w h internal_format format type num_samples array_size
          mip_levels g).2).1 = some (create_texture_2d k w h internal_format format type
            num_samples array_size mip_levels g).2.objects.length) ∧
    ((create_texture_2d k w h internal_format format type num_samples array_size
        mip_levels g).2.m_framebuffer_map = g.m_framebuffer_map ∧
      (create_texture_cube k w h internal_format format type array_size
        mip_levels g).2.m_framebuffer_map = g.m_framebuffer_map ∧
      (destroy_texture k g).m_framebuffer_map = g.m_framebuffer_map) ∧
    ((create_framebuffer k g).2.m_texture_map = g.m_texture_map ∧
      (destroy_framebuffer k g).m_texture_map = g.m_texture_map) := by
  have h2d := create_texture_2d_frame k w h internal_format format type num_samples array_size
    mip_levels g
  have hcube := create_texture_cube_frame k w h internal_format format type array_size
    mip_levels g
  refine ⟨?_, ?_, ?_, ⟨h2d.2, hcube.2, (destroy_texture_objects k g).2⟩,
    ⟨create_framebuffer_frame k g, (destroy_framebuffer_objects k g).2⟩⟩
  · rw [create_texture_cube_present k w2 h2 internal_format2 format2 type2 array_size2
      mip_levels2 _ h2d.1]
  · rw [create_texture_2d_present k w2 h2 internal_format2 format2 type2 num_samples2
      array_size2 mip_levels2 _ hcube.1]
  · intro hk
    rw [create_framebuffer_absent k _ (by rw [h2d.2]; exact hk)]

theorem texture_and_framebuffer_name_spaces_witness :
    NameMap.find sampleRegistry.m_framebuffer_map "color" = none ∧
    NameMap.find sampleRegistry.m_texture_map "color" = some (some 0) ∧
    (create_texture_cube "color" 4 4 GL_RGB32F GL_RGB GL_FLOAT 1 1
      (create_texture_2d "color" 8 8 GL_RGB32F GL_RGB GL_FLOAT 1 1 1 sampleRegistry).2).1
      = none ∧
    (create_framebuffer "color"
      (create_texture_2d "color" 8 8 GL_RGB32F GL_RGB GL_FLOAT 1 1 1 sampleRegistry).2).1
      = some 3 :=
  have h := texture_and_framebuffer_name_spaces sampleRegistry "color" 8 8 GL_RGB32F GL_RGB
    GL_FLOAT 1 1 1 4 4 GL_RGB32F GL_RGB GL_FLOAT 1 1 1
  ⟨by decide, by decide, h.1, (h.2.2.1 (by decide)).trans (by decide)⟩

/-- C25: the shader and program caches identify an entry by its key alone. A `load_shader`
call for a path after an earlier one for the same path returns the earlier shader and
leaves the registry as it was, whatever shader type (and material) it asks for; a
`load_program` call for a key after an earlier one returns the earlier program and leaves
the registry as it was, whatever shader count and shader list it passes. -/
theorem cache_keyed_by_string_alone (fw : Framework) (g : GlobalGraphicsResources)
    (key : String) (type type2 : Nat) (mat mat2 : Ptr) (count count2 : Nat)
    (shaders shaders2 : List Ptr) :
    load_shader fw type2 key mat2 (load_shader fw type key mat g).2
      = ((load_shader fw type key mat g).1, (load_shader fw type key mat g).2) ∧
    load_program key count2 shaders2 (load_program key count shaders g).2
      = ((load_program key count shaders g).1, (load_program key count shaders g).2) := by
  refine ⟨?_, ?_⟩
  · exact load_shader_present fw type2 key mat2 _ _ (load_shader_find fw type key mat g)
  · exact load_program_present key count2 shaders2 _ _ (load_program_find key count shaders g)

/-! ### The cap on shadow-casting lights -/

/-- C21 (the code at the failing input): for a cap `MAX_SHADOW_CASTING_DIRECTIONAL_LIGHTS`
of at least 2 and a scene with `k` shadow-casting directional lights, in any positions
among the others, `push_directional_light_views` builds and queues the cascade views,
`c` each, of the first `min k (cap - 1)` shadow-casting lights and of no other light: it
stops once `cap - 1` shadow-casting lights have been queued, one short of the cap. -/
theorem push_directional_light_views_stops_below_cap {S F : Type} [Zero S] [One S]
    (cap : Nat) (ext : Externals S F) (dv : View S) (r : Renderer S F) (scene : Scene S)
    (hcap2 : 2 ≤ cap) (hcap : cap < 2 ^ 32) (hs : r.m_scene = some scene) :
    push_directional_light_views cap ext dv r
      = queue_views ext.frustum_from_matrix
          (shadow_views ext r.m_settings.cascade_count r.m_shadow_map_render_graph scene
            ((scene.directional_lights.filter (fun l => l.casts_shadow)).take (cap - 1)) 0) r ∧
    ((scene.directional_lights.filter (fun l => l.casts_shadow)).take (cap - 1)).length
      = min (scene.directional_lights.filter (fun l => l.casts_shadow)).length (cap - 1) ∧
    (shadow_views ext r.m_settings.cascade_count r.m_shadow_map_render_graph scene
        ((scene.directional_lights.filter (fun l => l.casts_shadow)).take (cap - 1)) 0).length
      = r.m_settings.cascade_count *
          min (scene.directional_lights.filter (fun l => l.casts_shadow)).length (cap - 1) := by
  refine ⟨?_, ?_, ?_⟩
  · unfold push_directional_light_views
    rw [hs]
    simp only
    rw [push_lights_loop_eq cap ext scene hcap2 hcap scene.directional_lights 0 r (by omega)]
    rfl
  · rw [List.length_take, Nat.min_comm]
  · rw [shadow_views_length, List.length_take, Nat.min_comm]

theorem push_directional_light_views_stops_below_cap_witness :
    shadowRenderer.m_scene = some shadowScene ∧
    (shadowScene.directional_lights.filter (fun l => l.casts_shadow)).length = 2 ∧
    shadowRenderer.m_settings.cascade_count = 4 ∧
    (push_directional_light_views 2 sampleExternals (sampleView 0 true)
      shadowRenderer).m_num_active_views = 4 ∧
    ((push_directional_light_views 2 sampleExternals (sampleView 0 true)
      shadowRenderer).m_active_views 3).m_dest_render_target_view = some 3 := by
  have h := (push_directional_light_views_stops_below_cap 2 sampleExternals (sampleView 0 true)
    shadowRenderer shadowScene (by decide) (by decide) rfl).1
  refine ⟨rfl, by decide, rfl, ?_, ?_⟩
  · rw [h]
    simp [shadowRenderer, shadowScene, sampleRenderer, shadow_views, cascade_views, queue_views,
      queue_view, MAX_VIEWS, List.range, List.range.loop, sampleDirectionalLight]
  · rw [h]
    simp [shadowRenderer, shadowScene, sampleRenderer, shadow_views, cascade_views, queue_views,
      queue_view, MAX_VIEWS, List.range, List.range.loop, sampleDirectionalLight, light_view,
      Function.update]

/-! ### Render-target views after (re-)initialisation -/

theorem push_back_loop {A : Type} (f : Nat → A) (n : Nat) (l : List A) :
    (List.range n).foldl (fun views i => views ++ [f i]) l = l ++ (List.range n).map f := by
  induction n with
  | zero => simp
  | succ n ih =>
    rw [List.range_succ, List.foldl_append, ih]
    simp

theorem push_back_lists_loop {A : Type} (g : Nat → List A) (m : Nat) (l : List A) :
    (List.range m).foldl (fun views i => views ++ g i) l = l ++ (List.range m).flatMap g := by
  induction m with
  | zero => simp
  | succ m ih =>
    rw [List.range_succ, List.foldl_append, ih]
    simp [List.flatMap_append]

theorem flatMap_range_length {A : Type} (f : Nat → Nat → A) (m n : Nat) :
    ((List.range m).flatMap (fun i => (List.range n).map (f i))).length = m * n := by
  induction m with
  | zero => simp
  | succ m ih =>
    rw [List.range_succ, List.flatMap_append, List.length_append, ih]
    simp [Nat.succ_mul]

theorem flatMap_range_getElem? {A : Type} (f : Nat → Nat → A) (m n i j : Nat) (hi : i < m)
    (hj : j < n) :
    ((List.range m).flatMap (fun i => (List.range n).map (f i)))[i * n + j]? = some (f i j) := by
  induction m with
  | zero => omega
  | succ m ih =>
    rw [List.range_succ, List.flatMap_append]
    by_cases him : i < m
    · have hlt : i * n + j < m * n := by
        calc i * n + j < i * n + n := by omega
          _ = (i + 1) * n := by rw [Nat.succ_mul]
          _ ≤ m * n := Nat.mul_le_mul_right n him
      rw [List.getElem?_append_left (by rw [flatMap_range_length]; exact hlt)]
      exact ih him
    · have hie : i = m := by omega
      subst hie
      rw [List.getElem?_append_right (by rw [flatMap_range_length]; omega),
        flatMap_range_length]
      simp only [List.flatMap_cons, List.flatMap_nil, List.append_nil,
        Nat.add_sub_cancel_left]
      exact map_range_getElem? (f i) n j hj

theorem initialize_renderer_lists {S F : Type} (capD capS capP : Nat) (r : Renderer S F) :
    (initialize_renderer capD capS capP r).m_directionl_light_rt_views
      = r.m_directionl_light_rt_views ++
          directional_rt_views capD r.m_settings.cascade_count (some r.render_targets.length) ∧
    (initialize_renderer capD capS capP r).m_spot_light_rt_views
      = r.m_spot_light_rt_views ++ spot_rt_views capS (some (r.render_targets.length + 1)) ∧
    (initialize_renderer capD capS capP r).m_point_light_rt_views
      = r.m_point_light_rt_views ++ point_rt_views capP (some (r.render_targets.length + 2)) ∧
    (initialize_renderer capD capS capP r).m_settings = r.m_settings ∧
    (initialize_renderer capD capS capP r).m_scene = r.m_scene ∧
    (initialize_renderer capD capS capP r).m_shadow_map_render_graph
      = r.m_shadow_map_render_graph := by
  unfold initialize_renderer
  simp only [request_general_render_target, push_back_loop, push_back_lists_loop,
    List.length_append, List.length_singleton]
  exact ⟨rfl, rfl, rfl, trivial, trivial, trivial⟩

theorem directional_rt_views_length (cap c : Nat) (t : Ptr) :
    (directional_rt_views cap c t).length = cap * c :=
  flatMap_range_length _ cap c

theorem spot_rt_views_length (cap : Nat) (t : Ptr) : (spot_rt_views cap t).length = cap := by
  simp [spot_rt_views]

theorem point_rt_views_length (cap : Nat) (t : Ptr) :
    (point_rt_views cap t).length = 6 * cap := by
  rw [Nat.mul_comm]
  exact flatMap_range_length _ cap 6

/-- C28 (the code at the failing input): `Renderer::initialize` appends its
render-target views to the three lists and never clears them. On a fresh renderer (empty
lists) the first `initialize` leaves the lists as the claim says: `cap × cascade_count`
directional entries, entry `i * c + j` targeting layer `i * c + j`, `cap` spot entries
and `6 × cap` point entries, entry `6 * i + j` targeting face `j` of layer `i`. A following
`set_settings s` (which calls `initialize` again) appends a second set: the directional
list then has `cap × c + cap × s.cascade_count` entries, the spot list `2 × cap` and the
point list `12 × cap`, and the old entries are still at the front. -/
theorem rt_view_lists_grow_on_reinitialize {S F : Type} (capD capS capP : Nat)
    (settings : Settings) (r : Renderer S F)
    (hd : r.m_directionl_light_rt_views = []) (hsp : r.m_spot_light_rt_views = [])
    (hp : r.m_point_light_rt_views = []) :
    ((initialize_renderer capD capS capP r).m_directionl_light_rt_views.length
        = capD * r.m_settings.cascade_count ∧
      (initialize_renderer capD capS capP r).m_spot_light_rt_views.length = capS ∧
      (initialize_renderer capD capS capP r).m_point_light_rt_views.length = 6 * capP ∧
      (∀ i j, i < capD → j < r.m_settings.cascade_count →
        (initialize_renderer capD capS capP r).m_directionl_light_rt_views[
            i * r.m_settings.cascade_count + j]?
          = some { face := 0, layer := (i * r.m_settings.cascade_count + j) % 2 ^ 32,
                   mip_level := 0, texture := some r.render_targets.length }) ∧
      (∀ i, i < capS →
        (initialize_renderer capD capS capP r).m_spot_light_rt_views[i]?
          = some { face := 0, layer := i, mip_level := 0,
                   texture := some (r.render_targets.length + 1) }) ∧
      (∀ i j, i < capP → j < 6 →
        (initialize_renderer capD capS capP r).m_point_light_rt_views[i * 6 + j]?
          = some { face := j, layer := i, mip_level := 0,
                   texture := some (r.render_targets.length + 2) })) ∧
    ((set_settings capD capS capP settings
        (initialize_renderer capD capS capP r)).m_directionl_light_rt_views.length
        = capD * r.m_settings.cascade_count + capD * settings.cascade_count ∧
      (set_settings capD capS capP settings
        (initialize_renderer capD capS capP r)).m_spot_light_rt_views.length = 2 * capS ∧
      (set_settings capD capS capP settings
        (initialize_renderer capD capS capP r)).m_point_light_rt_views.length = 12 * capP ∧
      (set_settings capD capS capP settings
          (initialize_renderer capD capS capP r)).m_directionl_light_rt_views.take
          (capD * r.m_settings.cascade_count)
        = (initialize_renderer capD capS capP r).m_directionl_light_rt_views) := by
  have h1 := initialize_renderer_lists capD capS capP r
  have h2 := initialize_renderer_lists capD capS capP
    { initialize_renderer capD capS capP r with m_settings := settings }
  obtain ⟨h1d, h1s, h1p, _⟩ := h1
  obtain ⟨h2d, h2s, h2p, _⟩ := h2
  rw [hd, List.nil_append] at h1d
  rw [hsp, List.nil_append] at h1s
  rw [hp, List.nil_append] at h1p
  have hlen : (initialize_renderer capD capS capP r).m_directionl_light_rt_views.length
      = capD * r.m_settings.cascade_count := by
    rw [h1d, directional_rt_views_length]
  refine ⟨⟨hlen, ?_, ?_, ?_, ?_, ?_⟩, ⟨?_, ?_, ?_, ?_⟩⟩
  · rw [h1s, spot_rt_views_length]
  · rw [h1p, point_rt_views_length]
  · intro i j hi hj
    rw [h1d]
    exact flatMap_range_getElem? _ capD r.m_settings.cascade_count i j hi hj
  · intro i hi
    rw [h1s]
    exact map_range_getElem? _ capS i hi
  · intro i j hi hj
    rw [h1p]
    exact flatMap_range_getElem? _ capP 6 i j hi hj
  · show (initialize_renderer capD capS capP
      { initialize_renderer capD capS capP r with
        m_settings := settings }).m_directionl_light_rt_views.length = _
    rw [h2d, List.length_append, directional_rt_views_length]
    show (initialize_renderer capD capS capP r).m_directionl_light_rt_views.length + _ = _
    rw [hlen]
  · show (initialize_renderer capD capS capP
      { initialize_renderer capD capS capP r with
        m_settings := settings }).m_spot_light_rt_views.length = _
    rw [h2s, List.length_append, spot_rt_views_length]
    show (initialize_renderer capD capS capP r).m_spot_light_rt_views.length + _ = _
    rw [h1s, spot_rt_views_length]
    omega
  · show (initialize_renderer capD capS capP
      { initialize_renderer capD capS capP r with
        m_settings := settings }).m_point_light_rt_views.length = _
    rw [h2p, List.length_append, point_rt_views_length]
    show (initialize_renderer capD capS capP r).m_point_light_rt_views.length + _ = _
    rw [h1p, point_rt_views_length]
    omega
  · show (initialize_renderer capD capS capP
      { initialize_renderer capD capS capP r with
        m_settings := settings }).m_directionl_light_rt_views.take _ = _
    rw [h2d]
    show ((initialize_renderer capD capS capP r).m_directionl_light_rt_views ++ _).take _ = _
    rw [← hlen, List.take_left]

theorem rt_view_lists_grow_on_reinitialize_witness :
    sampleRenderer.m_directionl_light_rt_views = [] ∧
    sampleRenderer.m_settings.cascade_count = 4 ∧
    (initialize_renderer 2 2 2 sampleRenderer).m_directionl_light_rt_views.length = 8 ∧
    (set_settings 2 2 2 { shadow_map_quality := 0, cascade_count := 4 }
      (initialize_renderer 2 2 2 sampleRenderer)).m_directionl_light_rt_views.length = 16 ∧
    (set_settings 2 2 2 { shadow_map_quality := 0, cascade_count := 4 }
      (initialize_renderer 2 2 2 sampleRenderer)).m_spot_light_rt_views.length = 4 ∧
    (set_settings 2 2 2 { shadow_map_quality := 0, cascade_count := 4 }
      (initialize_renderer 2 2 2 sampleRenderer)).m_point_light_rt_views.length = 24 :=
  have h := rt_view_lists_grow_on_reinitialize 2 2 2
    { shadow_map_quality := 0, cascade_count := 4 } sampleRenderer rfl rfl rfl
  ⟨rfl, rfl, h.1.1, h.2.1, h.2.2.1, h.2.2.2.1⟩

/-! ### Destination indices of the shadow views -/

theorem push_lights_loop_views {S F : Type} [Zero S] [One S] (cap : Nat) (ext : Externals S F)
    (scene : Scene S) (lights : List (DirectionalLight S)) :
    ∀ (idx : Nat) (r : Renderer S F),
      push_lights_loop cap ext scene lights idx r
        = queue_views ext.frustum_from_matrix
            (light_loop_views cap ext r.m_settings.cascade_count r.m_shadow_map_render_graph
              scene lights idx) r := by
  induction lights with
  | nil =>
    intro idx r
    simp [push_lights_loop, light_loop_views, queue_views]
  | cons light rest ih =>
    intro idx r
    unfold push_lights_loop light_loop_views
    cases hshadow : light.casts_shadow with
    | false =>
      simp only [Bool.false_eq_true, if_false]
      by_cases hstop : idx = (cap + 2 ^ 32 - 1) % 2 ^ 32
      · simp [hstop, queue_views]
      · rw [if_neg hstop, if_neg hstop, ih idx r]
        simp
    | true =>
      simp only [if_true]
      have hf := queue_views_fields ext.frustum_from_matrix
        (cascade_views ext r.m_settings.cascade_count r.m_shadow_map_render_graph scene
          light idx) r
      by_cases hstop : (idx + 1) % 2 ^ 32 = (cap + 2 ^ 32 - 1) % 2 ^ 32
      · rw [if_pos hstop, if_pos hstop, push_cascade_views_eq]
      · rw [if_neg hstop, if_neg hstop, ih, push_cascade_views_eq, hf.1, hf.2.1,
          ← queue_views_append]

theorem cascade_views_dest {S F : Type} [Zero S] [One S] (ext : Externals S F) (c : Nat)
    (g : Ptr) (scene : Scene S) (light : DirectionalLight S) (s : Nat) (v : View S)
    (hv : v ∈ cascade_views ext c g scene light s) :
    ∃ n, v.m_dest_render_target_view = some n ∧ n < (s + 1) * c := by
  unfold cascade_views at hv
  obtain ⟨j, hj, hjv⟩ := List.mem_map.1 hv
  have hjc : j < c := List.mem_range.1 hj
  refine ⟨(s * c + j) % 2 ^ 32, by rw [← hjv]; rfl, ?_⟩
  calc (s * c + j) % 2 ^ 32 ≤ s * c + j := Nat.mod_le _ _
    _ < s * c + c := by omega
    _ = (s + 1) * c := by rw [Nat.succ_mul]

theorem light_loop_views_dest {S F : Type} [Zero S] [One S] (cap : Nat) (ext : Externals S F)
    (c : Nat) (g : Ptr) (scene : Scene S) (hcap2 : 2 ≤ cap) (hcap : cap < 2 ^ 32)
    (lights : List (DirectionalLight S)) :
    ∀ idx, idx < cap - 1 → ∀ v ∈ light_loop_views cap ext c g scene lights idx,
      ∃ n, v.m_dest_render_target_view = some n ∧ n < cap * c := by
  have hmod : (cap + 2 ^ 32 - 1) % 2 ^ 32 = cap - 1 := by omega
  induction lights with
  | nil =>
    intro idx _ v hv
    simp [light_loop_views] at hv
  | cons light rest ih =>
    intro idx hidx v hv
    unfold light_loop_views at hv
    rw [hmod] at hv
    cases hshadow : light.casts_shadow with
    | false =>
      simp only [hshadow, Bool.false_eq_true, if_false, List.nil_append] at hv
      have hne : idx ≠ cap - 1 := by omega
      rw [if_neg hne] at hv
      exact ih idx hidx v hv
    | true =>
      have hidx1 : (idx + 1) % 2 ^ 32 = idx + 1 := by omega
      simp only [hshadow, if_true, hidx1] at hv
      have hcasc : ∀ w ∈ cascade_views ext c g scene light idx,
          ∃ n, w.m_dest_render_target_view = some n ∧ n < cap * c := by
        intro w hw
        obtain ⟨n, hn, hlt⟩ := cascade_views_dest ext c g scene light idx w hw
        exact ⟨n, hn, lt_of_lt_of_le hlt (Nat.mul_le_mul_right c (by omega))⟩
      by_cases hstop : idx + 1 = cap - 1
      · rw [if_pos hstop] at hv
        exact hcasc v hv
      · rw [if_neg hstop] at hv
        rcases List.mem_append.1 hv with h1 | h1
        · exact hcasc v h1
        · exact ih (idx + 1) (by omega) v h1

/-- With a cap of 1 the test `== cap - 1` compares against 0 and is not met once the first
shadow caster is counted: the second caster of `shadowScene` is given the indices 4 to 7,
beyond the `1 × 4` entries that `initialize` creates. The bound of 2 on the cap is
needed. -/
theorem light_loop_views_cap_one :
    (light_loop_views 1 sampleExternals 4 (some 200) shadowScene
      shadowScene.directional_lights 0).map (fun v => v.m_dest_render_target_view)
      = [some 0, some 1, some 2, some 3, some 4, some 5, some 6, some 7] ∧
    (initialize_renderer 1 2 2 sampleRenderer).m_directionl_light_rt_views.length = 4 := by
  constructor
  · decide
  · rfl

/-- C27: with a cap `MAX_SHADOW_CASTING_DIRECTIONAL_LIGHTS` of at least 2, after one
`initialize` of a fresh renderer (empty render-target-view lists), for every scene and
every cascade count the directional list has `cap × cascade_count` entries,
`push_directional_light_views` queues exactly the views that its loop builds, and the
index `shadow_casting_light_idx × cascade_count + cascade_idx` used to pick the
destination of each of these views is below the length of the list. -/
theorem directional_rt_view_index_in_bounds {S F : Type} [Zero S] [One S]
    (capD capS capP : Nat) (ext : Externals S F) (dv : View S) (r0 : Renderer S F)
    (scene : Scene S) (hcap2 : 2 ≤ capD) (hcap : capD < 2 ^ 32)
    (hfresh : r0.m_directionl_light_rt_views = []) :
    (set_scene (some scene)
        (initialize_renderer capD capS capP r0)).m_directionl_light_rt_views.length
      = capD * r0.m_settings.cascade_count ∧
    push_directional_light_views capD ext dv
        (set_scene (some scene) (initialize_renderer capD capS capP r0))
      = queue_views ext.frustum_from_matrix
          (light_loop_views capD ext r0.m_settings.cascade_count r0.m_shadow_map_render_graph
            scene scene.directional_lights 0)
          (set_scene (some scene) (initialize_renderer capD capS capP r0)) ∧
    ∀ v ∈ light_loop_views capD ext r0.m_settings.cascade_count r0.m_shadow_map_render_graph
        scene scene.directional_lights 0,
      ∃ n, v.m_dest_render_target_view = some n ∧
        n < (set_scene (some scene)
          (initialize_renderer capD capS capP r0)).m_directionl_light_rt_views.length := by
  have hinit := initialize_renderer_lists capD capS capP r0
  have hlen : (set_scene (some scene)
      (initialize_renderer capD capS capP r0)).m_directionl_light_rt_views.length
      = capD * r0.m_settings.cascade_count := by
    show (initialize_renderer capD capS capP r0).m_directionl_light_rt_views.length = _
    rw [hinit.1, hfresh, List.nil_append, directional_rt_views_length]
  refine ⟨hlen, ?_, ?_⟩
  · unfold push_directional_light_views
    show push_lights_loop capD ext scene scene.directional_lights 0 _ = _
    rw [push_lights_loop_views]
    show queue_views _
      (light_loop_views capD ext (initialize_renderer capD capS capP r0).m_settings.cascade_count
        (initialize_renderer capD capS capP r0).m_shadow_map_render_graph scene
        scene.directional_lights 0) _ = _
    rw [hinit.2.2.2.1, hinit.2.2.2.2.2]
  · intro v hv
    rw [hlen]
    exact light_loop_views_dest capD ext _ _ scene hcap2 hcap scene.directional_lights 0
      (by omega) v hv

theorem directional_rt_view_index_in_bounds_witness :
    sampleRenderer.m_directionl_light_rt_views = [] ∧
    (set_scene (some shadowScene)
      (initialize_renderer 3 2 2 sampleRenderer)).m_directionl_light_rt_views.length = 12 ∧
    (light_loop_views 3 sampleExternals 4 (some 200) shadowScene
      shadowScene.directional_lights 0).map (fun v => v.m_dest_render_target_view)
      = [some 0, some 1, some 2, some 3, some 4, some 5, some 6, some 7] ∧
    ∀ v ∈ light_loop_views 3 sampleExternals sampleRenderer.m_settings.cascade_count
        sampleRenderer.m_shadow_map_render_graph shadowScene shadowScene.directional_lights 0,
      ∃ n, v.m_dest_render_target_view = some n ∧
        n < (set_scene (some shadowScene)
          (initialize_renderer 3 2 2 sampleRenderer)).m_directionl_light_rt_views.length :=
  have h := directional_rt_view_index_in_bounds 3 2 2 sampleExternals (sampleView 0 true)
    sampleRenderer shadowScene (by decide) (by decide) rfl
  ⟨rfl, h.1, by decide, h.2.2⟩

/-! ### The texture passes of `load_material` -/

theorem surface_pass_effect {M : Type} (TEXTURE_CUSTOM : Nat)
    (load_texture : String → Bool → M → Ptr × M) (textures : List TextureDesc) :
    ∀ st : MaterialLoad M,
      (textures.foldl (surface_texture_step TEXTURE_CUSTOM load_texture)
          st).material.custom_textures = st.material.custom_textures ∧
      (textures.foldl (surface_texture_step TEXTURE_CUSTOM load_texture)
          st).material.surface_textures.length
        = st.material.surface_textures.length
          + (textures.filter (fun d => decide (d.type ≠ TEXTURE_CUSTOM))).length := by
  induction textures with
  | nil => intro st; simp
  | cons d rest ih =>
    intro st
    rw [List.foldl_cons]
    obtain ⟨h1, h2⟩ := ih (surface_texture_step TEXTURE_CUSTOM load_texture st d)
    rw [h1, h2]
    unfold surface_texture_step
    by_cases hd : d.type = TEXTURE_CUSTOM
    · simp [hd]
    · simp [hd, List.filter_cons]
      omega

theorem custom_pass_effect {M : Type} (load_texture : String → Bool → M → Ptr × M)
    (textures : List TextureDesc) (indices : List Nat) :
    (∀ i ∈ indices, i < textures.length) →
    ∀ st : MaterialLoad M,
      ((indices.foldl (custom_texture_step load_texture textures) st).material.custom_textures.map
          Prod.fst = st.material.custom_textures.map Prod.fst ++ indices) ∧
      (indices.foldl (custom_texture_step load_texture textures) st).material.surface_textures
        = st.material.surface_textures := by
  induction indices with
  | nil => intro _ st; simp
  | cons i rest ih =>
    intro hall st
    have hi : i < textures.length := hall i (List.mem_cons_self _ _)
    rw [List.foldl_cons]
    obtain ⟨h1, h2⟩ := ih (fun k hk => hall k (List.mem_cons_of_mem _ hk))
      (custom_texture_step load_texture textures st i)
    rw [h1, h2]
    unfold custom_texture_step
    rw [List.getElem?_eq_getElem hi]
    simp

/-- C23 (the code at the failing input): whatever the value of `ast::TEXTURE_CUSTOM`, the
texture loader and the descriptors, the second loop of `load_material` calls
`set_custom_texture(i, ...)` for every descriptor index `i` from 0 to the number of
descriptors, not only for the descriptors of type `TEXTURE_CUSTOM`, while the first loop
calls `set_surface_texture` once for each descriptor of another type: such a descriptor is
set as a surface texture and as a custom texture as well. -/
theorem load_material_sets_every_texture_as_custom {M : Type} (TEXTURE_CUSTOM : Nat)
    (load_texture : String → Bool → M → Ptr × M) (textures : List TextureDesc)
    (manager : M) :
    (load_material_textures TEXTURE_CUSTOM load_texture textures
        manager).material.custom_textures.map Prod.fst = List.range textures.length ∧
    (load_material_textures TEXTURE_CUSTOM load_texture textures
        manager).material.surface_textures.length
      = (textures.filter (fun d => decide (d.type ≠ TEXTURE_CUSTOM))).length := by
  unfold load_material_textures
  have hs := surface_pass_effect TEXTURE_CUSTOM load_texture textures
    { material := { surface_textures := [], custom_textures := [] }
      manager := manager
      custom_texture_count := 0 }
  have hc := custom_pass_effect load_texture textures (List.range textures.length)
    (fun i hi => List.mem_range.1 hi)
    (textures.foldl (surface_texture_step TEXTURE_CUSTOM load_texture)
      { material := { surface_textures := [], custom_textures := [] }
        manager := manager
        custom_texture_count := 0 })
  refine ⟨?_, ?_⟩
  · rw [hc.1, hs.1]
    simp
  · rw [hc.2, hs.2]
    simp

theorem load_material_sets_every_texture_as_custom_witness :
    (load_material_textures 7 sampleLoadTexture sampleTextures ()).material
      = { surface_textures := [(some TextureType.TEXTURE_TYPE_EMISSIVE, some 12)]
          custom_textures := [(0, some 12), (1, some 8)] } ∧
    (load_material_textures 7 sampleLoadTexture sampleTextures
        ()).material.custom_textures.map Prod.fst = List.range sampleTextures.length :=
  ⟨by decide, (load_material_sets_every_texture_as_custom 7 sampleLoadTexture sampleTextures ()).1⟩

end Nimble
